import Mathlib

/-!
# Resource-binding layer of `SceneManager` (CS330 OpenGL sample)

Shallow embedding of the texture registry, the material registry and the
uniform setters of
`CS330Content2025/Projects/1-2_OpenGLSample/Source/SceneManager.cpp`
(declarations from `CS330Content2025/Projects/5-2_Assignment/Source/SceneManager.h`),
followed by the theorems about them.

Conventions of the embedding

* `int` values are `Int`; the live count is only ever incremented by one, so no
  wrap-around is modelled for it.  `uint32_t` values are `Nat`; the conversion
  of a `uint32_t` to `int` is `u32ToInt`.
* `float` is a type parameter `F`.  The registries and the setters only copy
  such values.  The transform code computes with them, and it is given twice:
  `SetTransformations` runs it in the exact arithmetic of a field, with `cos`,
  `sin` and pi from a `FloatMath`; `rounded.SetTransformations` runs it with the
  sums, differences and products of a `FloatArith`, which may round.  With the
  exact operations the second is the first.  `binary32` is IEEE 754 single
  precision on the rationals.
* The table `m_textureIDs[16]` is a list carrying a proof that it has 16 entries.
  A read outside the table is reported as `Fault.outOfBounds`; an assignment
  outside the table leaves the 16 entries alone and is recorded in `overrun`.
* Loops are run with fuel; each entry point supplies enough of it, and that
  this is enough is part of what is proved.
* The OpenGL context is external: the calls issued to it are appended to `gl`,
  and the name that `glGenTextures` hands back is an argument.
* The class `ShaderManager` is not among the sources: it is modelled as the
  store of named uniforms that the specification describes.  A call through
  `m_pShaderManager` while it is `NULL` is `Fault.nullPointer`.
* A local variable that the program reads without having set it is an
  argument of the method's model (`material` in `SetShaderMaterial`).
* A render method is the list of the calls it makes, in source order
  (`RenderCall`).  The draw calls go to the mesh collaborator `m_basicMeshes`:
  they are kept in the list and leave this state as it is.
-/

namespace CS330

/-! ## Data model -/

/-- Entry of the texture table, `SceneManager::TEXTURE_INFO`; `ID` is a `uint32_t`. -/
structure TEXTURE_INFO where
  tag : String
  ID : Nat
deriving DecidableEq, Repr

/-- Three floats, `glm::vec3`. -/
structure vec3 (F : Type) where
  x : F
  y : F
  z : F
deriving DecidableEq, Repr

/-- Material record, `SceneManager::OBJECT_MATERIAL`. -/
structure OBJECT_MATERIAL (F : Type) where
  diffuseColor : vec3 F
  specularColor : vec3 F
  shininess : F
  tag : String
deriving DecidableEq, Repr

/-- What `stbi_load` reports about a decoded file. -/
structure Image where
  width : Int
  height : Int
  colorChannels : Int
deriving DecidableEq, Repr

/-- The OpenGL enumerants the texture code passes. -/
inductive GLenum where
  | GL_TEXTURE_WRAP_S
  | GL_TEXTURE_WRAP_T
  | GL_TEXTURE_MIN_FILTER
  | GL_TEXTURE_MAG_FILTER
  | GL_REPEAT
  | GL_LINEAR
  | GL_RGB8
  | GL_RGB
  | GL_RGBA8
  | GL_RGBA
deriving DecidableEq, Repr

/-- The OpenGL calls of the texture code, all on target `GL_TEXTURE_2D`. -/
inductive GLCall where
  /-- The call `glGenTextures(1, &id)`, which stored `name` in `id`. -/
  | glGenTextures (name : Nat)
  /-- The call `glBindTexture(GL_TEXTURE_2D, name)`. -/
  | glBindTexture (name : Nat)
  /-- The call `glTexParameteri(GL_TEXTURE_2D, pname, param)`. -/
  | glTexParameteri (pname : GLenum) (param : GLenum)
  /-- The call `glTexImage2D(GL_TEXTURE_2D, 0, internalFormat, width, height, 0, format, GL_UNSIGNED_BYTE, image)`. -/
  | glTexImage2D (internalFormat : GLenum) (width : Int) (height : Int) (format : GLenum)
  /-- The call `glGenerateMipmap(GL_TEXTURE_2D)`. -/
  | glGenerateMipmap
  /-- The call `glActiveTexture(GL_TEXTURE0 + unit)`. -/
  | glActiveTexture (unit : Int)
deriving DecidableEq, Repr

/-- Two floats, `glm::vec2`. -/
structure vec2 (F : Type) where
  x : F
  y : F

/-- Four floats, `glm::vec4`, under the colour names of its components. -/
structure vec4 (F : Type) where
  r : F
  g : F
  b : F
  a : F

/-- A 4 x 4 matrix of floats, `glm::mat4`, indexed by row, then column. -/
abbrev mat4 (F : Type) := Matrix (Fin 4) (Fin 4) F

/-- Modelled from the spec: what a named uniform of the shader program can hold,
one case per setter of the shader-program collaborator that `SceneManager` calls
(the header `ShaderManager.h` is not among the sources). -/
inductive UniformValue (F : Type) where
  | intValue (value : Int)
  | floatValue (value : F)
  | vec2Value (value : vec2 F)
  | vec3Value (value : vec3 F)
  | vec4Value (value : vec4 F)
  | mat4Value (value : mat4 F)
  | sampler2DValue (value : Int)
  | boolValue (value : Bool)

/-- Modelled from the spec: the class `ShaderManager` (`ShaderManager.h` is not
among the sources), the shader-program collaborator: the live uniform state of
the program, keyed by uniform name; `none` for a name never set. -/
structure ShaderManager (F : Type) where
  uniforms : String → Option (UniformValue F)

namespace ShaderManager

/-- Modelled from the spec: a program in which no uniform has been set. -/
def empty {F : Type} : ShaderManager F :=
  { uniforms := fun _ => none }

/-- Modelled from the spec: what every setter does, "set named uniform to
value": the value under `name` is replaced, every other name keeps its value. -/
def setUniform {F : Type} (sm : ShaderManager F) (name : String) (value : UniformValue F) :
    ShaderManager F :=
  { uniforms := fun n => if n = name then some value else sm.uniforms n }

/-- Modelled from the spec: the setter `setIntValue(name, value)`. -/
def setIntValue {F : Type} (sm : ShaderManager F) (name : String) (value : Int) :
    ShaderManager F :=
  sm.setUniform name (UniformValue.intValue value)

/-- Modelled from the spec: the setter `setFloatValue(name, value)`. -/
def setFloatValue {F : Type} (sm : ShaderManager F) (name : String) (value : F) :
    ShaderManager F :=
  sm.setUniform name (UniformValue.floatValue value)

/-- Modelled from the spec: the setter `setVec2Value(name, value)`. -/
def setVec2Value {F : Type} (sm : ShaderManager F) (name : String) (value : vec2 F) :
    ShaderManager F :=
  sm.setUniform name (UniformValue.vec2Value value)

/-- Modelled from the spec: the setter `setVec3Value(name, value)`. -/
def setVec3Value {F : Type} (sm : ShaderManager F) (name : String) (value : vec3 F) :
    ShaderManager F :=
  sm.setUniform name (UniformValue.vec3Value value)

/-- Modelled from the spec: the setter `setVec4Value(name, value)`. -/
def setVec4Value {F : Type} (sm : ShaderManager F) (name : String) (value : vec4 F) :
    ShaderManager F :=
  sm.setUniform name (UniformValue.vec4Value value)

/-- Modelled from the spec: the setter `setMat4Value(name, value)`. -/
def setMat4Value {F : Type} (sm : ShaderManager F) (name : String) (value : mat4 F) :
    ShaderManager F :=
  sm.setUniform name (UniformValue.mat4Value value)

/-- Modelled from the spec: the setter `setSampler2DValue(name, value)`. -/
def setSampler2DValue {F : Type} (sm : ShaderManager F) (name : String) (value : Int) :
    ShaderManager F :=
  sm.setUniform name (UniformValue.sampler2DValue value)

/-- Modelled from the spec: the setter `setBoolValue(name, value)`. -/
def setBoolValue {F : Type} (sm : ShaderManager F) (name : String) (value : Bool) :
    ShaderManager F :=
  sm.setUniform name (UniformValue.boolValue value)

end ShaderManager

/-- The conversion of a `bool` argument to an `int` parameter. -/
def boolToInt (b : Bool) : Int :=
  if b then 1 else 0

/-- The uniform name `g_ModelName`. -/
def g_ModelName : String := "model"

/-- The uniform name `g_ColorValueName`. -/
def g_ColorValueName : String := "objectColor"

/-- The uniform name `g_TextureValueName`. -/
def g_TextureValueName : String := "objectTexture"

/-- The uniform name `g_UseTextureName`. -/
def g_UseTextureName : String := "bUseTexture"

/-- The uniform name `g_UseLightingName`. -/
def g_UseLightingName : String := "bUseLighting"

/-- How a run of the model can leave the defined behaviour of the program. -/
inductive Fault where
  /-- Element `index` of an array was read although the array has no such element. -/
  | outOfBounds (index : Int)
  /-- The loop was cut off by the fuel bound. -/
  | outOfFuel
  /-- A member was called through `m_pShaderManager` while it was `NULL`. -/
  | nullPointer
deriving DecidableEq, Repr

/-- The members of `SceneManager` used by the registries, the OpenGL call
stream `gl` and the record `overrun` of assignments that fell outside the table. -/
structure SceneManager (F : Type) where
  /-- The pointer `m_pShaderManager` with the object it points to; `none` for `NULL`. -/
  m_pShaderManager : Option (ShaderManager F)
  /-- The number of loaded textures. -/
  m_loadedTextures : Int
  /-- The table `TEXTURE_INFO m_textureIDs[16]`. -/
  m_textureIDs : List TEXTURE_INFO
  /-- The table has exactly 16 entries. -/
  table_size : m_textureIDs.length = 16
  /-- The vector `m_objectMaterials`. -/
  m_objectMaterials : List (OBJECT_MATERIAL F)
  /-- Assignments `m_textureIDs[index] = entry` with `index` outside `0..15`, oldest first. -/
  overrun : List (Int × TEXTURE_INFO) := []
  /-- OpenGL calls issued so far, oldest first. -/
  gl : List GLCall := []

variable {F : Type}

/-- Conversion of a `uint32_t` to `int` (two's complement, 32 bits). -/
def u32ToInt (u : Nat) : Int :=
  if u % 4294967296 < 2147483648 then ((u % 4294967296 : Nat) : Int)
  else ((u % 4294967296 : Nat) : Int) - 4294967296

namespace SceneManager

/-- The constructor `SceneManager::SceneManager`: all 16 slots get tag `"/0"` and
ID `-1` (as `uint32_t`), the count is 0, the shader manager is the one passed. -/
def construct (pShaderManager : Option (ShaderManager F)) : SceneManager F :=
  { m_pShaderManager := pShaderManager
    m_loadedTextures := 0
    m_textureIDs := List.replicate 16 { tag := "/0", ID := 4294967295 }
    table_size := List.length_replicate 16 _
    m_objectMaterials := [] }

/-- The read `m_textureIDs[index]`: `none` outside the table. -/
def slot? (s : SceneManager F) (index : Int) : Option TEXTURE_INFO :=
  if 0 ≤ index then s.m_textureIDs[index.toNat]? else none

/-- The assignment `m_textureIDs[index] = entry`. -/
def writeSlot (s : SceneManager F) (index : Int) (entry : TEXTURE_INFO) : SceneManager F :=
  if 0 ≤ index ∧ index < 16 then
    { s with
      m_textureIDs := s.m_textureIDs.set index.toNat entry
      table_size := by rw [List.length_set]; exact s.table_size }
  else
    { s with overrun := s.overrun ++ [(index, entry)] }

/-- Lines 138-150 of `CreateGLTexture`, common to the RGB and the RGBA branch:
mipmaps, unbind, then `m_textureIDs[m_loadedTextures] = {tag, textureID}`,
`m_loadedTextures++` and `return true`. -/
def CreateGLTexture.finish (s : SceneManager F) (textureID : Nat) (tag : String) :
    Bool × SceneManager F :=
  let s1 : SceneManager F :=
    { s with gl := s.gl ++ [GLCall.glGenerateMipmap, GLCall.glBindTexture 0] }
  let s2 := s1.writeSlot s1.m_loadedTextures { tag := tag, ID := textureID }
  (true, { s2 with m_loadedTextures := s2.m_loadedTextures + 1 })

/-- The method `CreateGLTexture(filename, tag)`.  `image` is what
`stbi_load(filename, ...)` returned (`none` for a null pointer) and `textureID`
is the name `glGenTextures` stored.  The console output and the release of the
decoded pixels leave no trace in the state and are not modelled. -/
def CreateGLTexture (s : SceneManager F) (image : Option Image) (textureID : Nat)
    (tag : String) : Bool × SceneManager F :=
  match image with
  | some img =>
    let s1 : SceneManager F := { s with gl := s.gl ++
      [ GLCall.glGenTextures textureID,
        GLCall.glBindTexture textureID,
        GLCall.glTexParameteri GLenum.GL_TEXTURE_WRAP_S GLenum.GL_REPEAT,
        GLCall.glTexParameteri GLenum.GL_TEXTURE_WRAP_T GLenum.GL_REPEAT,
        GLCall.glTexParameteri GLenum.GL_TEXTURE_MIN_FILTER GLenum.GL_LINEAR,
        GLCall.glTexParameteri GLenum.GL_TEXTURE_MAG_FILTER GLenum.GL_LINEAR ] }
    if img.colorChannels = 3 then
      CreateGLTexture.finish
        { s1 with gl := s1.gl ++
          [GLCall.glTexImage2D GLenum.GL_RGB8 img.width img.height GLenum.GL_RGB] }
        textureID tag
    else if img.colorChannels = 4 then
      CreateGLTexture.finish
        { s1 with gl := s1.gl ++
          [GLCall.glTexImage2D GLenum.GL_RGBA8 img.width img.height GLenum.GL_RGBA] }
        textureID tag
    else
      (false, s1)
  | none => (false, s)

/-- One `CreateGLTexture` call together with what its collaborators answer:
the decode result and the texture name generated. -/
structure LoadCall where
  image : Option Image
  textureID : Nat
  tag : String
deriving DecidableEq, Repr

/-- A sequence of `CreateGLTexture` calls, in order: the values returned and the final state. -/
def runLoads (s : SceneManager F) : List LoadCall → List Bool × SceneManager F
  | [] => ([], s)
  | c :: cs =>
    let r := s.CreateGLTexture c.image c.textureID c.tag
    let rest := runLoads r.2 cs
    (r.1 :: rest.1, rest.2)

/-- The loop of `BindGLTextures`, on the variable `i`; `gl` is the call stream. -/
def BindGLTextures.loop (s : SceneManager F) : Nat → Int → List GLCall → Except Fault (List GLCall)
  | 0, i, gl =>
    if i < s.m_loadedTextures then Except.error Fault.outOfFuel else Except.ok gl
  | fuel + 1, i, gl =>
    if i < s.m_loadedTextures then
      match s.slot? i with
      | none => Except.error (Fault.outOfBounds i)
      | some e =>
        BindGLTextures.loop s fuel (i + 1) (gl ++ [GLCall.glActiveTexture i, GLCall.glBindTexture e.ID])
    else Except.ok gl

/-- The method `BindGLTextures()`. -/
def BindGLTextures (s : SceneManager F) : Except Fault (SceneManager F) :=
  match BindGLTextures.loop s s.m_loadedTextures.toNat 0 s.gl with
  | Except.ok gl => Except.ok { s with gl := gl }
  | Except.error f => Except.error f

/-- The loop of `FindTextureID`, on the variables `index`, `bFound`, `textureID`. -/
def FindTextureID.loop (s : SceneManager F) (tag : String) :
    Nat → Int → Bool → Int → Except Fault Int
  | 0, index, bFound, textureID =>
    if index < s.m_loadedTextures ∧ bFound = false then Except.error Fault.outOfFuel
    else Except.ok textureID
  | fuel + 1, index, bFound, textureID =>
    if index < s.m_loadedTextures ∧ bFound = false then
      match s.slot? index with
      | none => Except.error (Fault.outOfBounds index)
      | some e =>
        if e.tag = tag then FindTextureID.loop s tag fuel index true (u32ToInt e.ID)
        else FindTextureID.loop s tag fuel (index + 1) bFound textureID
    else Except.ok textureID

/-- The method `FindTextureID(tag)`. -/
def FindTextureID (s : SceneManager F) (tag : String) : Except Fault Int :=
  FindTextureID.loop s tag s.m_loadedTextures.toNat 0 false (-1)

/-- The loop of `FindTextureSlot`, on the variables `index`, `bFound`, `textureSlot`. -/
def FindTextureSlot.loop (s : SceneManager F) (tag : String) :
    Nat → Int → Bool → Int → Except Fault Int
  | 0, index, bFound, textureSlot =>
    if index < s.m_loadedTextures ∧ bFound = false then Except.error Fault.outOfFuel
    else Except.ok textureSlot
  | fuel + 1, index, bFound, textureSlot =>
    if index < s.m_loadedTextures ∧ bFound = false then
      match s.slot? index with
      | none => Except.error (Fault.outOfBounds index)
      | some e =>
        if e.tag = tag then FindTextureSlot.loop s tag fuel index true index
        else FindTextureSlot.loop s tag fuel (index + 1) bFound textureSlot
    else Except.ok textureSlot

/-- The method `FindTextureSlot(tag)`. -/
def FindTextureSlot (s : SceneManager F) (tag : String) : Except Fault Int :=
  FindTextureSlot.loop s tag s.m_loadedTextures.toNat 0 false (-1)

/-- The loop of `FindMaterial`, on the variables `index`, `bFound` and the
output parameter `material`. -/
def FindMaterial.loop (s : SceneManager F) (tag : String) :
    Nat → Int → Bool → OBJECT_MATERIAL F → Except Fault (OBJECT_MATERIAL F)
  | 0, index, bFound, material =>
    if index < s.m_objectMaterials.length ∧ bFound = false then Except.error Fault.outOfFuel
    else Except.ok material
  | fuel + 1, index, bFound, material =>
    if index < s.m_objectMaterials.length ∧ bFound = false then
      match s.m_objectMaterials[index.toNat]? with
      | none => Except.error (Fault.outOfBounds index)
      | some m =>
        if m.tag = tag then
          FindMaterial.loop s tag fuel index true
            { material with
              diffuseColor := m.diffuseColor
              specularColor := m.specularColor
              shininess := m.shininess }
        else FindMaterial.loop s tag fuel (index + 1) bFound material
    else Except.ok material

/-- The method `FindMaterial(tag, material)`: the value returned and the
output parameter `material` after the call. -/
def FindMaterial (s : SceneManager F) (tag : String) (material : OBJECT_MATERIAL F) :
    Except Fault (Bool × OBJECT_MATERIAL F) :=
  if s.m_objectMaterials.length = 0 then Except.ok (false, material)
  else
    match FindMaterial.loop s tag s.m_objectMaterials.length 0 false material with
    | Except.ok m => Except.ok (true, m)
    | Except.error f => Except.error f

end SceneManager

/-! ## The texture-unit state of the OpenGL context -/

/-- The part of the OpenGL state the texture calls act on: the active texture
unit (an offset from `GL_TEXTURE0`) and the `GL_TEXTURE_2D` binding of each unit
(0 for none). -/
structure GLState where
  activeTexture : Int
  texture2D : Int → Nat

/-- Effect of one call on the texture-unit state. -/
def GLState.step (g : GLState) : GLCall → GLState
  | GLCall.glActiveTexture u => { g with activeTexture := u }
  | GLCall.glBindTexture name =>
    { g with texture2D := fun u => if u = g.activeTexture then name else g.texture2D u }
  | _ => g

/-- Effect of a call stream, oldest call first. -/
def GLState.run (g : GLState) (calls : List GLCall) : GLState :=
  calls.foldl GLState.step g

/-- The bindings a call stream makes, as (unit, name) pairs in order, when it
starts with unit `active` selected. -/
def unitBindings : Int → List GLCall → List (Int × Nat)
  | _, [] => []
  | _, GLCall.glActiveTexture u :: cs => unitBindings u cs
  | active, GLCall.glBindTexture name :: cs => (active, name) :: unitBindings active cs
  | active, _ :: cs => unitBindings active cs

/-- The calls one pass over the entries `l` makes when the first of them has
index `i`: for each entry, select the unit of its index, then bind its name. -/
def bindCalls : Int → List TEXTURE_INFO → List GLCall
  | _, [] => []
  | i, e :: es => GLCall.glActiveTexture i :: GLCall.glBindTexture e.ID :: bindCalls (i + 1) es

/-! ## The math library and the setters -/

/-- The `float` functions and the constant that the transform code takes from
the math library. -/
structure FloatMath (F : Type) where
  cos : F → F
  sin : F → F
  pi : F

namespace glm

/-- The function `glm::radians(degrees)`: degrees times pi / 180. -/
def radians [Field F] (fm : FloatMath F) (degrees : F) : F :=
  degrees * (fm.pi / 180)

/-- The function `glm::scale(v)`: the identity with its first three columns
multiplied by the components of `v`. -/
def scale [Field F] (v : vec3 F) : mat4 F :=
  !![v.x, 0, 0, 0;
     0, v.y, 0, 0;
     0, 0, v.z, 0;
     0, 0, 0, 1]

/-- The function `glm::translate(v)`: the identity with `v` in its last column. -/
def translate [Field F] (v : vec3 F) : mat4 F :=
  !![1, 0, 0, v.x;
     0, 1, 0, v.y;
     0, 0, 1, v.z;
     0, 0, 0, 1]

/-- The function `glm::rotate(angle, v)` for an axis `v` of length 1 (the library
first divides `v` by its length): with `c = cos(angle)`, `s = sin(angle)` and
`t = (1 - c) * v`, the entries the library computes, written row by row. -/
def rotate [Field F] (fm : FloatMath F) (angle : F) (v : vec3 F) : mat4 F :=
  let c := fm.cos angle
  let s := fm.sin angle
  let t : vec3 F := { x := (1 - c) * v.x, y := (1 - c) * v.y, z := (1 - c) * v.z }
  !![c + t.x * v.x, t.y * v.x - s * v.z, t.z * v.x + s * v.y, 0;
     t.x * v.y + s * v.z, c + t.y * v.y, t.z * v.y - s * v.x, 0;
     t.x * v.z - s * v.y, t.y * v.z + s * v.x, c + t.z * v.z, 0;
     0, 0, 0, 1]

end glm

namespace SceneManager

/-- The value of the named uniform in the program behind `m_pShaderManager`:
`none` when the pointer is `NULL` or the name was never set. -/
def uniform (s : SceneManager F) (name : String) : Option (UniformValue F) :=
  match s.m_pShaderManager with
  | some sm => sm.uniforms name
  | none => none

/-- The method `SetTransformations(scaleXYZ, XrotationDegrees, YrotationDegrees,
ZrotationDegrees, positionXYZ)`. -/
def SetTransformations [Field F] (s : SceneManager F) (fm : FloatMath F) (scaleXYZ : vec3 F)
    (XrotationDegrees YrotationDegrees ZrotationDegrees : F) (positionXYZ : vec3 F) :
    SceneManager F :=
  let scale : mat4 F := glm.scale scaleXYZ
  let rotationX : mat4 F :=
    glm.rotate fm (glm.radians fm XrotationDegrees) { x := 1, y := 0, z := 0 }
  let rotationY : mat4 F :=
    glm.rotate fm (glm.radians fm YrotationDegrees) { x := 0, y := 1, z := 0 }
  let rotationZ : mat4 F :=
    glm.rotate fm (glm.radians fm ZrotationDegrees) { x := 0, y := 0, z := 1 }
  let translation : mat4 F := glm.translate positionXYZ
  let modelView : mat4 F := translation * rotationZ * rotationY * rotationX * scale
  match s.m_pShaderManager with
  | some sm => { s with m_pShaderManager := some (sm.setMat4Value g_ModelName modelView) }
  | none => s

/-- The method `SetShaderColor(redColorValue, greenColorValue, blueColorValue, alphaValue)`. -/
def SetShaderColor (s : SceneManager F)
    (redColorValue greenColorValue blueColorValue alphaValue : F) : SceneManager F :=
  let currentColor : vec4 F :=
    { r := redColorValue, g := greenColorValue, b := blueColorValue, a := alphaValue }
  match s.m_pShaderManager with
  | some sm =>
    let sm1 := sm.setIntValue g_UseTextureName (boolToInt false)
    let sm2 := sm1.setVec4Value g_ColorValueName currentColor
    { s with m_pShaderManager := some sm2 }
  | none => s

/-- The method `SetShaderTexture(textureTag)`. -/
def SetShaderTexture (s : SceneManager F) (textureTag : String) : Except Fault (SceneManager F) :=
  match s.m_pShaderManager with
  | some sm =>
    let sm1 := sm.setIntValue g_UseTextureName (boolToInt true)
    match s.FindTextureSlot textureTag with
    | Except.ok textureID =>
      let sm2 := sm1.setSampler2DValue g_TextureValueName textureID
      Except.ok { s with m_pShaderManager := some sm2 }
    | Except.error f => Except.error f
  | none => Except.ok s

/-- The method `SetTextureUVScale(u, v)`. -/
def SetTextureUVScale (s : SceneManager F) (u v : F) : SceneManager F :=
  match s.m_pShaderManager with
  | some sm => { s with m_pShaderManager := some (sm.setVec2Value "UVscale" { x := u, y := v }) }
  | none => s

/-- The method `SetShaderMaterial(materialTag)`.  `material` is what the local
variable `OBJECT_MATERIAL material;` holds when it is declared, which the program
does not set. -/
def SetShaderMaterial (s : SceneManager F) (materialTag : String)
    (material : OBJECT_MATERIAL F) : Except Fault (SceneManager F) :=
  if s.m_objectMaterials.length > 0 then
    match s.FindMaterial materialTag material with
    | Except.ok (bReturn, found) =>
      if bReturn = true then
        match s.m_pShaderManager with
        | some sm =>
          let sm1 := sm.setVec3Value "material.diffuseColor" found.diffuseColor
          let sm2 := sm1.setVec3Value "material.specularColor" found.specularColor
          let sm3 := sm2.setFloatValue "material.shininess" found.shininess
          Except.ok { s with m_pShaderManager := some sm3 }
        | none => Except.error Fault.nullPointer
      else Except.ok s
    | Except.error f => Except.error f
  else Except.ok s

/-- The method `DefineObjectMaterials()`: nine `push_back` calls. -/
def DefineObjectMaterials [Field F] (s : SceneManager F) : SceneManager F :=
  { s with m_objectMaterials := s.m_objectMaterials ++
    [ { diffuseColor := { x := 0.4, y := 0.4, z := 0.4 },
        specularColor := { x := 0.7, y := 0.7, z := 0.6 },
        shininess := 52.0, tag := "metal" },
      { diffuseColor := { x := 0.2, y := 0.2, z := 0.3 },
        specularColor := { x := 0.0, y := 0.0, z := 0.0 },
        shininess := 0.1, tag := "wood" },
      { diffuseColor := { x := 0.2, y := 0.2, z := 0.2 },
        specularColor := { x := 1.0, y := 1.0, z := 1.0 },
        shininess := 95.0, tag := "glass" },
      { diffuseColor := { x := 0.4, y := 0.4, z := 0.4 },
        specularColor := { x := 0.2, y := 0.2, z := 0.2 },
        shininess := 30.0, tag := "plate" },
      { diffuseColor := { x := 0.6, y := 0.5, z := 0.3 },
        specularColor := { x := 0.0, y := 0.0, z := 0.0 },
        shininess := 0.1, tag := "cheese" },
      { diffuseColor := { x := 0.7, y := 0.6, z := 0.5 },
        specularColor := { x := 0.02, y := 0.02, z := 0.02 },
        shininess := 0.001, tag := "bread" },
      { diffuseColor := { x := 0.5, y := 0.4, z := 0.3 },
        specularColor := { x := 0.01, y := 0.01, z := 0.01 },
        shininess := 0.001, tag := "darkbread" },
      { diffuseColor := { x := 0.8, y := 0.8, z := 0.9 },
        specularColor := { x := 0.0, y := 0.0, z := 0.0 },
        shininess := 2.0, tag := "backdrop" },
      { diffuseColor := { x := 0.4, y := 0.2, z := 0.4 },
        specularColor := { x := 0.1, y := 0.05, z := 0.1 },
        shininess := 0.55, tag := "grape" } ] }

end SceneManager

/-! ## Teardown, scene preparation and rendering -/

/-- One call made by a render method: a setter of `SceneManager` with its
arguments, or `m_basicMeshes->mesh(arguments)`. -/
inductive RenderCall (F : Type) where
  | SetTransformations (scaleXYZ : vec3 F) (XrotationDegrees YrotationDegrees ZrotationDegrees : F)
      (positionXYZ : vec3 F)
  | SetShaderColor (redColorValue greenColorValue blueColorValue alphaValue : F)
  | SetShaderTexture (textureTag : String)
  | SetTextureUVScale (u v : F)
  | SetShaderMaterial (materialTag : String)
  | draw (mesh : String) (arguments : List Bool)

/-- Which method a call is to, its arguments left out. -/
inductive CallKind where
  | SetTransformations
  | SetShaderColor
  | SetShaderTexture
  | SetTextureUVScale
  | SetShaderMaterial
  | draw
deriving DecidableEq, Repr

namespace RenderCall

/-- The method a call is to. -/
def kind : RenderCall F → CallKind
  | SetTransformations _ _ _ _ _ => CallKind.SetTransformations
  | SetShaderColor _ _ _ _ => CallKind.SetShaderColor
  | SetShaderTexture _ => CallKind.SetShaderTexture
  | SetTextureUVScale _ _ => CallKind.SetTextureUVScale
  | SetShaderMaterial _ => CallKind.SetShaderMaterial
  | draw _ _ => CallKind.draw

/-- The tag of a `SetShaderTexture` call. -/
def textureTag? : RenderCall F → Option String
  | SetShaderTexture textureTag => some textureTag
  | _ => none

/-- The tag of a `SetShaderMaterial` call. -/
def materialTag? : RenderCall F → Option String
  | SetShaderMaterial materialTag => some materialTag
  | _ => none

end RenderCall

namespace CallKind

/-- A `SetTransformations` call. -/
def isTransform (c : CallKind) : Bool :=
  c == CallKind.SetTransformations

/-- An appearance setter: `SetShaderColor` or `SetShaderTexture`. -/
def isAppearance (c : CallKind) : Bool :=
  c == CallKind.SetShaderColor || c == CallKind.SetShaderTexture

end CallKind

/-- For each draw call of a trace, in order: the calls made since the previous
draw call (or since the start); `pending` holds the calls seen since then. -/
def drawStretches.go : List CallKind → List CallKind → List (List CallKind)
  | _, [] => []
  | pending, CallKind.draw :: cs => pending :: drawStretches.go [] cs
  | pending, c :: cs => drawStretches.go (pending ++ [c]) cs

/-- For each draw call of a trace, in order: the calls made since the previous
draw call (or since the start of the trace). -/
def drawStretches (trace : List CallKind) : List (List CallKind) :=
  drawStretches.go [] trace

/-- The calls contain a `SetTransformations` call and, after it, an appearance setter. -/
def transformThenAppearance (calls : List CallKind) : Bool :=
  (calls.dropWhile (fun c => !c.isTransform)).any CallKind.isAppearance

/-- The calls contain no `SetTransformations` call after an appearance setter. -/
def noTransformAfterAppearance (calls : List CallKind) : Bool :=
  !(calls.dropWhile (fun c => !c.isAppearance)).any CallKind.isTransform

namespace SceneManager

/-- The loop of `DestroyGLTextures`, on the variable `i`.  `glGenTextures i` is
the name that the call `glGenTextures(1, &m_textureIDs[i].ID)` stores; the
element written has to be one of the table. -/
def DestroyGLTextures.loop (glGenTextures : Int → Nat) :
    Nat → Int → SceneManager F → Except Fault (SceneManager F)
  | 0, i, s =>
    if i < s.m_loadedTextures then Except.error Fault.outOfFuel else Except.ok s
  | fuel + 1, i, s =>
    if i < s.m_loadedTextures then
      match s.slot? i with
      | none => Except.error (Fault.outOfBounds i)
      | some e =>
        let s1 := s.writeSlot i { e with ID := glGenTextures i }
        DestroyGLTextures.loop glGenTextures fuel (i + 1)
          { s1 with gl := s1.gl ++ [GLCall.glGenTextures (glGenTextures i)] }
    else Except.ok s

/-- The method `DestroyGLTextures()`. -/
def DestroyGLTextures (s : SceneManager F) (glGenTextures : Int → Nat) :
    Except Fault (SceneManager F) :=
  DestroyGLTextures.loop glGenTextures s.m_loadedTextures.toNat 0 s

/-- The destructor `SceneManager::~SceneManager`: the shader manager pointer is
set to `NULL`, the meshes are deleted (they are no part of this state), then
`DestroyGLTextures()` runs. -/
def destruct (s : SceneManager F) (glGenTextures : Int → Nat) : Except Fault (SceneManager F) :=
  DestroyGLTextures { s with m_pShaderManager := none } glGenTextures

/-- The nine `CreateGLTexture` calls of `LoadSceneTextures`, in order.
`stbi_load filename` is what the codec returns for the file and
`glGenTextures k` the name generated in the call number `k`. -/
def LoadSceneTextures.loads (stbi_load : String → Option Image) (glGenTextures : Nat → Nat) :
    List LoadCall :=
  [ { image := stbi_load "textures/rusticwood.jpg", textureID := glGenTextures 0,
      tag := "table" },
    { image := stbi_load "textures/cheese_wheel.jpg", textureID := glGenTextures 1,
      tag := "cheese_wheel_side" },
    { image := stbi_load "textures/cheese_top.jpg", textureID := glGenTextures 2,
      tag := "cheese_wheel_top" },
    { image := stbi_load "textures/breadcrust.jpg", textureID := glGenTextures 3,
      tag := "breadcrust" },
    { image := stbi_load "textures/backdrop.jpg", textureID := glGenTextures 4,
      tag := "backdrop" },
    { image := stbi_load "textures/knife_handle.jpg", textureID := glGenTextures 5,
      tag := "knifehandle" },
    { image := stbi_load "textures/stainless.jpg", textureID := glGenTextures 6,
      tag := "stainless" },
    { image := stbi_load "textures/cheddar.jpg", textureID := glGenTextures 7,
      tag := "cheddar" },
    { image := stbi_load "textures/circular-brushed-gold-texture.jpg",
      textureID := glGenTextures 8, tag := "knifescrew" } ]

/-- The method `LoadSceneTextures()`: the nine loads, whose return values it
drops, then `BindGLTextures()`. -/
def LoadSceneTextures (s : SceneManager F) (stbi_load : String → Option Image)
    (glGenTextures : Nat → Nat) : Except Fault (SceneManager F) :=
  (runLoads s (LoadSceneTextures.loads stbi_load glGenTextures)).2.BindGLTextures

/-- The method `SetupSceneLights()`: its setter calls in order, each made through
`m_pShaderManager` without a test for `NULL`. -/
def SetupSceneLights [Field F] (s : SceneManager F) (fm : FloatMath F) :
    Except Fault (SceneManager F) :=
  match s.m_pShaderManager with
  | none => Except.error Fault.nullPointer
  | some sm =>
    let sm := sm.setBoolValue g_UseLightingName true
    let sm := sm.setVec3Value "directionalLight.direction" { x := -0.05, y := -0.3, z := -0.1 }
    let sm := sm.setVec3Value "directionalLight.ambient" { x := 0.05, y := 0.05, z := 0.05 }
    let sm := sm.setVec3Value "directionalLight.diffuse" { x := 0.6, y := 0.6, z := 0.6 }
    let sm := sm.setVec3Value "directionalLight.specular" { x := 0.0, y := 0.0, z := 0.0 }
    let sm := sm.setBoolValue "directionalLight.bActive" true
    let sm := sm.setVec3Value "pointLights[0].position" { x := -4.0, y := 8.0, z := 0.0 }
    let sm := sm.setVec3Value "pointLights[0].ambient" { x := 0.05, y := 0.05, z := 0.05 }
    let sm := sm.setVec3Value "pointLights[0].diffuse" { x := 0.3, y := 0.3, z := 0.3 }
    let sm := sm.setVec3Value "pointLights[0].specular" { x := 0.1, y := 0.1, z := 0.1 }
    let sm := sm.setFloatValue "pointLights[0].constant" 1.0
    let sm := sm.setFloatValue "pointLights[0].linear" 0.09
    let sm := sm.setFloatValue "pointLights[0].quadratic" 0.032
    let sm := sm.setBoolValue "pointLights[0].bActive" true
    let sm := sm.setVec3Value "pointLights[1].position" { x := 4.0, y := 8.0, z := 0.0 }
    let sm := sm.setVec3Value "pointLights[1].ambient" { x := 0.05, y := 0.05, z := 0.05 }
    let sm := sm.setVec3Value "pointLights[1].diffuse" { x := 0.3, y := 0.3, z := 0.3 }
    let sm := sm.setVec3Value "pointLights[1].specular" { x := 0.1, y := 0.1, z := 0.1 }
    let sm := sm.setFloatValue "pointLights[1].constant" 1.0
    let sm := sm.setFloatValue "pointLights[1].linear" 0.09
    let sm := sm.setFloatValue "pointLights[1].quadratic" 0.032
    let sm := sm.setBoolValue "pointLights[1].bActive" true
    let sm := sm.setVec3Value "pointLights[2].position" { x := 3.8, y := 5.5, z := 4.0 }
    let sm := sm.setVec3Value "pointLights[2].ambient" { x := 0.05, y := 0.05, z := 0.05 }
    let sm := sm.setVec3Value "pointLights[2].diffuse" { x := 0.2, y := 0.2, z := 0.2 }
    let sm := sm.setVec3Value "pointLights[2].specular" { x := 0.8, y := 0.8, z := 0.8 }
    let sm := sm.setFloatValue "pointLights[2].constant" 1.0
    let sm := sm.setFloatValue "pointLights[2].linear" 0.09
    let sm := sm.setFloatValue "pointLights[2].quadratic" 0.032
    let sm := sm.setBoolValue "pointLights[2].bActive" true
    let sm := sm.setVec3Value "pointLights[3].position" { x := 3.8, y := 3.5, z := 4.0 }
    let sm := sm.setVec3Value "pointLights[3].ambient" { x := 0.05, y := 0.05, z := 0.05 }
    let sm := sm.setVec3Value "pointLights[3].diffuse" { x := 0.2, y := 0.2, z := 0.2 }
    let sm := sm.setVec3Value "pointLights[3].specular" { x := 0.8, y := 0.8, z := 0.8 }
    let sm := sm.setFloatValue "pointLights[3].constant" 1.0
    let sm := sm.setFloatValue "pointLights[3].linear" 0.09
    let sm := sm.setFloatValue "pointLights[3].quadratic" 0.032
    let sm := sm.setBoolValue "pointLights[3].bActive" true
    let sm := sm.setVec3Value "pointLights[4].position" { x := -3.2, y := 6.0, z := -4.0 }
    let sm := sm.setVec3Value "pointLights[4].ambient" { x := 0.05, y := 0.05, z := 0.05 }
    let sm := sm.setVec3Value "pointLights[4].diffuse" { x := 0.9, y := 0.9, z := 0.9 }
    let sm := sm.setVec3Value "pointLights[4].specular" { x := 0.1, y := 0.1, z := 0.1 }
    let sm := sm.setFloatValue "pointLights[4].constant" 1.0
    let sm := sm.setFloatValue "pointLights[4].linear" 0.09
    let sm := sm.setFloatValue "pointLights[4].quadratic" 0.032
    let sm := sm.setBoolValue "pointLights[4].bActive" true
    let sm := sm.setVec3Value "spotLight.ambient" { x := 0.8, y := 0.8, z := 0.8 }
    let sm := sm.setVec3Value "spotLight.diffuse" { x := 1.0, y := 1.0, z := 1.0 }
    let sm := sm.setVec3Value "spotLight.specular" { x := 0.7, y := 0.7, z := 0.7 }
    let sm := sm.setFloatValue "spotLight.constant" 1.0
    let sm := sm.setFloatValue "spotLight.linear" 0.09
    let sm := sm.setFloatValue "spotLight.quadratic" 0.032
    let sm := sm.setFloatValue "spotLight.cutOff" (fm.cos (glm.radians fm 42.5))
    let sm := sm.setFloatValue "spotLight.outerCutOff" (fm.cos (glm.radians fm 48.0))
    let sm := sm.setBoolValue "spotLight.bActive" true
    Except.ok { s with m_pShaderManager := some sm }

/-- The method `PrepareScene()`: `LoadSceneTextures()`, `DefineObjectMaterials()`,
`SetupSceneLights()`; the mesh loads that follow act on the mesh collaborator only. -/
def PrepareScene [Field F] (s : SceneManager F) (fm : FloatMath F)
    (stbi_load : String → Option Image) (glGenTextures : Nat → Nat) :
    Except Fault (SceneManager F) :=
  match s.LoadSceneTextures stbi_load glGenTextures with
  | Except.ok s1 => (DefineObjectMaterials s1).SetupSceneLights fm
  | Except.error f => Except.error f

/-- The method `RenderTable()`: the calls it makes, in order. -/
def RenderTable [Field F] : List (RenderCall F) :=
  [
    RenderCall.SetTransformations { x := 20.0, y := 0.6, z := 8.0 } 0.0 0.0 0.0
      { x := 0.0, y := 0.2, z := -0.9 },
    RenderCall.SetShaderTexture "table",
    RenderCall.SetTextureUVScale 1.0 1.0,
    RenderCall.SetShaderMaterial "wood",
    RenderCall.draw "DrawBoxMesh" [] ]

/-- The method `RenderBackdrop()`: the calls it makes, in order. -/
def RenderBackdrop [Field F] : List (RenderCall F) :=
  [
    RenderCall.SetTransformations { x := 20.0, y := 1.0, z := 20.0 } 90.0 0.0 0.0
      { x := 0.0, y := 15.0, z := -8.0 },
    RenderCall.SetShaderTexture "backdrop",
    RenderCall.SetTextureUVScale 1.0 1.0,
    RenderCall.SetShaderMaterial "backdrop",
    RenderCall.draw "DrawPlaneMesh" [] ]

/-- The method `RenderCheeseWheel()`: the calls it makes, in order. -/
def RenderCheeseWheel [Field F] : List (RenderCall F) :=
  [
    RenderCall.SetTransformations { x := 1.5, y := 1.2, z := 1.5 } 0.0 0.0 0.0
      { x := -2.0, y := 0.5, z := 0.0 },
    RenderCall.SetShaderTexture "cheese_wheel_side",
    RenderCall.SetTextureUVScale 5.0 1.0,
    RenderCall.SetShaderMaterial "cheese",
    RenderCall.draw "DrawCylinderMesh" [false, false, true],
    RenderCall.SetShaderTexture "cheese_wheel_top",
    RenderCall.SetTextureUVScale 1.0 1.0,
    RenderCall.draw "DrawCylinderMesh" [true, false, false] ]

/-- The method `RenderBreadLoaf()`: the calls it makes, in order. -/
def RenderBreadLoaf [Field F] : List (RenderCall F) :=
  [
    RenderCall.SetTransformations { x := 2.0, y := 1.0, z := 0.9 } 0.0 (-15.0) 0.0
      { x := 2.5, y := 1.2, z := 0.0 },
    RenderCall.SetShaderTexture "breadcrust",
    RenderCall.SetTextureUVScale 1.0 1.0,
    RenderCall.SetShaderMaterial "bread",
    RenderCall.draw "DrawHalfSphereMesh" [],
    RenderCall.SetTransformations { x := 2.0, y := 0.6, z := 0.9 } 180.0 (-15.0) 0.0
      { x := 2.5, y := 1.2, z := 0.0 },
    RenderCall.SetShaderTexture "breadcrust",
    RenderCall.SetTextureUVScale 1.0 1.0,
    RenderCall.SetShaderMaterial "darkbread",
    RenderCall.draw "DrawHalfSphereMesh" [] ]

/-- The method `RenderWineGlass()`: the calls it makes, in order. -/
def RenderWineGlass [Field F] : List (RenderCall F) :=
  [
    RenderCall.SetTransformations { x := 0.8, y := 0.06, z := 0.8 } 0.0 0.0 0.0
      { x := 0.0, y := 0.54, z := -1.5 },
    RenderCall.SetShaderColor 0.7 0.7 0.8 0.3,
    RenderCall.SetShaderMaterial "glass",
    RenderCall.draw "DrawCylinderMesh" [],
    RenderCall.SetTransformations { x := 0.2, y := 0.4, z := 0.2 } 0.0 0.0 0.0
      { x := 0.0, y := 0.6, z := -1.5 },
    RenderCall.SetShaderColor 1 1 1 0.3,
    RenderCall.SetShaderMaterial "glass",
    RenderCall.draw "DrawTaperedCylinderMesh" [false, false, true],
    RenderCall.SetTransformations { x := 0.1, y := 1.5, z := 0.1 } 0.0 0.0 0.0
      { x := 0.0, y := 1.0, z := -1.5 },
    RenderCall.SetShaderColor 0.7 0.7 0.8 0.3,
    RenderCall.SetShaderMaterial "glass",
    RenderCall.draw "DrawCylinderMesh" [false, false, true],
    RenderCall.SetTransformations { x := 0.2, y := 0.4, z := 0.2 } 180.0 0.0 0.0
      { x := 0.0, y := 2.896, z := -1.5 },
    RenderCall.SetShaderColor 0.7 0.7 0.8 0.3,
    RenderCall.SetShaderMaterial "glass",
    RenderCall.draw "DrawTaperedCylinderMesh" [false, false, true],
    RenderCall.SetTransformations { x := 1.0, y := 0.8, z := 1.0 } 180.0 0.0 0.0
      { x := 0.0, y := 3.68, z := -1.5 },
    RenderCall.SetShaderColor 0.3 0.1 0.4 0.8,
    RenderCall.SetShaderMaterial "glass",
    RenderCall.draw "DrawHalfSphereMesh" [],
    RenderCall.SetTransformations { x := 0.99, y := 1.5, z := 0.99 } 0.0 0.0 0.0
      { x := 0.0, y := 3.68, z := -1.5 },
    RenderCall.SetShaderColor 0.7 0.7 0.8 0.3,
    RenderCall.SetShaderMaterial "glass",
    RenderCall.draw "DrawTaperedCylinderMesh" [false, false, true] ]

/-- The method `RenderWineBottle()`: the calls it makes, in order. -/
def RenderWineBottle [Field F] : List (RenderCall F) :=
  [
    RenderCall.SetTransformations { x := 0.9, y := 0.3, z := 0.9 } 0.0 0.0 180.0
      { x := -1.8, y := 0.9, z := -2.6 },
    RenderCall.SetShaderColor 0.07 0.2 0.08 0.95,
    RenderCall.SetShaderMaterial "glass",
    RenderCall.draw "DrawHalfSphereMesh" [],
    RenderCall.SetTransformations { x := 0.9, y := 4.0, z := 0.9 } 0.0 0.0 0.0
      { x := -1.8, y := 0.9, z := -2.6 },
    RenderCall.draw "DrawCylinderMesh" [false, false, true],
    RenderCall.SetTransformations { x := 0.905, y := 0.9, z := 0.905 } 0.0 (-6.0) 0.0
      { x := -1.8, y := 4.9, z := -2.6 },
    RenderCall.draw "DrawHalfSphereMesh" [],
    RenderCall.SetTransformations { x := 0.3, y := 2.0, z := 0.3 } 0.0 0.0 0.0
      { x := -1.8, y := 5.6, z := -2.6 },
    RenderCall.draw "DrawCylinderMesh" [false, false, true],
    RenderCall.SetTransformations { x := 0.32, y := 0.32, z := 1.5 } 90.0 0.0 0.0
      { x := -1.8, y := 7.4, z := -2.6 },
    RenderCall.draw "DrawTorusMesh" [],
    RenderCall.SetTransformations { x := 0.28, y := 0.28, z := 0.4 } 90.0 0.0 0.0
      { x := -1.8, y := 7.6, z := -2.6 },
    RenderCall.draw "DrawTorusMesh" [] ]

/-- The method `RenderGrapes()`: the calls it makes, in order. -/
def RenderGrapes [Field F] : List (RenderCall F) :=
  ([
    RenderCall.SetTransformations { x := 0.23, y := 0.21, z := 0.2 } 0.0 0.0 0.0
      { x := 3.3, y := 0.7, z := 1.1 },
    RenderCall.SetShaderColor 0.2 0.1 0.4 1.0,
    RenderCall.SetShaderMaterial "grape",
    RenderCall.draw "DrawSphereMesh" [],
    RenderCall.SetTransformations { x := 0.23, y := 0.21, z := 0.2 } 0.0 0.0 0.0
      { x := 3.6, y := 0.7, z := 1.4 },
    RenderCall.SetShaderColor 0.2 0.1 0.4 1.0,
    RenderCall.SetShaderMaterial "grape",
    RenderCall.draw "DrawSphereMesh" [],
    RenderCall.SetTransformations { x := 0.23, y := 0.21, z := 0.2 } 0.0 0.0 0.0
      { x := 3.1, y := 0.7, z := 1.5 },
    RenderCall.SetShaderColor 0.2 0.1 0.4 1.0,
    RenderCall.SetShaderMaterial "grape",
    RenderCall.draw "DrawSphereMesh" [],
    RenderCall.SetTransformations { x := 0.22, y := 0.19, z := 0.18 } 0.0 0.0 0.0
      { x := 3.3, y := 0.96, z := 1.28 },
    RenderCall.SetShaderColor 0.2 0.1 0.4 1.0,
    RenderCall.SetShaderMaterial "grape",
    RenderCall.draw "DrawSphereMesh" [],
    RenderCall.SetTransformations { x := 0.23, y := 0.21, z := 0.2 } 0.0 0.0 0.0
      { x := 2.9, y := 0.7, z := 1.3 },
    RenderCall.SetShaderColor 0.2 0.1 0.4 1.0,
    RenderCall.SetShaderMaterial "grape",
    RenderCall.draw "DrawSphereMesh" [] ] : List (RenderCall F)) ++
  ([
    RenderCall.SetTransformations { x := 0.21, y := 0.19, z := 0.17 } 0.0 0.0 0.0
      { x := 2.5, y := 0.7, z := 1.4 },
    RenderCall.SetShaderColor 0.2 0.1 0.4 1.0,
    RenderCall.SetShaderMaterial "grape",
    RenderCall.draw "DrawSphereMesh" [],
    RenderCall.SetTransformations { x := 0.22, y := 0.19, z := 0.17 } 0.0 0.0 0.0
      { x := 2.76, y := 0.95, z := 1.44 },
    RenderCall.SetShaderColor 0.2 0.1 0.4 1.0,
    RenderCall.SetShaderMaterial "grape",
    RenderCall.draw "DrawSphereMesh" [],
    RenderCall.SetTransformations { x := 0.21, y := 0.19, z := 0.17 } 0.0 0.0 0.0
      { x := 2.7, y := 0.7, z := 1.6 },
    RenderCall.SetShaderColor 0.2 0.1 0.4 1.0,
    RenderCall.SetShaderMaterial "grape",
    RenderCall.draw "DrawSphereMesh" [],
    RenderCall.SetTransformations { x := 0.18, y := 0.16, z := 0.15 } 0.0 0.0 0.0
      { x := 2.30, y := 0.70, z := 1.6 },
    RenderCall.SetShaderColor 0.2 0.1 0.4 1.0,
    RenderCall.SetShaderMaterial "grape",
    RenderCall.draw "DrawSphereMesh" [],
    RenderCall.SetTransformations { x := 0.02, y := 0.90, z := 0.02 } 0.0 15.0 100.0
      { x := 4.0, y := 0.85, z := 1.14 },
    RenderCall.SetShaderColor 0.2 0.4 0.2 1.0,
    RenderCall.SetShaderMaterial "grape",
    RenderCall.draw "DrawCylinderMesh" [] ] : List (RenderCall F))

/-- The method `RenderPlateAndKnife()`: the calls it makes, in order. -/
def RenderPlateAndKnife [Field F] : List (RenderCall F) :=
  [
    RenderCall.SetTransformations { x := 0.46, y := 0.08, z := 0.46 } 0.0 0.0 0.0
      { x := 0.7, y := 0.55, z := 1.8 },
    RenderCall.SetShaderColor 1 1 1 1.0,
    RenderCall.SetShaderMaterial "plate",
    RenderCall.draw "DrawCylinderMesh" [],
    RenderCall.SetTransformations { x := 1.06, y := 0.1, z := 1.06 } 180.0 0.0 0.0
      { x := 0.7, y := 0.71, z := 1.8 },
    RenderCall.SetShaderColor 1 1 1 1.0,
    RenderCall.SetShaderMaterial "plate",
    RenderCall.draw "DrawHalfSphereMesh" [],
    RenderCall.SetTransformations { x := 1.3, y := 0.18, z := 0.20 } 0.0 20.0 4.0
      { x := -1.2, y := 0.64, z := 1.9 },
    RenderCall.SetShaderTexture "knifehandle",
    RenderCall.SetTextureUVScale 1.0 1.0,
    RenderCall.SetShaderMaterial "wood",
    RenderCall.draw "DrawBoxMesh" [],
    RenderCall.SetTransformations { x := 0.2, y := 2.0, z := 0.01 } 90.0 110.0 4.0
      { x := 0.2, y := 0.75, z := 1.395 },
    RenderCall.SetShaderTexture "stainless",
    RenderCall.SetTextureUVScale 1.0 1.0,
    RenderCall.SetShaderMaterial "metal",
    RenderCall.draw "DrawPyramid4Mesh" [],
    RenderCall.SetTransformations { x := 0.6, y := 0.25, z := 1.0 } 8.0 (-140.0) (-6.4)
      { x := 1.1, y := 0.785, z := 2.2 },
    RenderCall.SetShaderTexture "cheddar",
    RenderCall.SetTextureUVScale 1.0 1.0,
    RenderCall.SetShaderMaterial "cheese",
    RenderCall.draw "DrawPrismMesh" [],
    RenderCall.SetTransformations { x := 0.05, y := 0.186, z := 0.05 } 0.0 0.0 4.0
      { x := -0.7, y := 0.584, z := 1.73 },
    RenderCall.SetShaderTexture "knifescrew",
    RenderCall.SetTextureUVScale 1.0 1.0,
    RenderCall.SetShaderMaterial "metal",
    RenderCall.draw "DrawCylinderMesh" [true, true, false] ]

/-- The method `RenderScene()`: the calls of the eight render methods, in the order in which it calls them. -/
def RenderScene [Field F] : List (RenderCall F) :=
  RenderTable ++
  RenderBackdrop ++
  RenderCheeseWheel ++
  RenderBreadLoaf ++
  RenderWineBottle ++
  RenderWineGlass ++
  RenderGrapes ++
  RenderPlateAndKnife

/-- What one call of a render method does to the state: the setter is run; a
draw acts on the mesh collaborator only.  `material` is the content of the
local variable of `SetShaderMaterial` when it is declared. -/
def perform [Field F] (fm : FloatMath F) (material : OBJECT_MATERIAL F) (s : SceneManager F) :
    RenderCall F → Except Fault (SceneManager F)
  | RenderCall.SetTransformations scaleXYZ x y z positionXYZ =>
    Except.ok (s.SetTransformations fm scaleXYZ x y z positionXYZ)
  | RenderCall.SetShaderColor r g b a => Except.ok (s.SetShaderColor r g b a)
  | RenderCall.SetShaderTexture textureTag => s.SetShaderTexture textureTag
  | RenderCall.SetTextureUVScale u v => Except.ok (s.SetTextureUVScale u v)
  | RenderCall.SetShaderMaterial materialTag => s.SetShaderMaterial materialTag material
  | RenderCall.draw _ _ => Except.ok s

/-- The calls of a render method run in order. -/
def performAll [Field F] (fm : FloatMath F) (material : OBJECT_MATERIAL F) :
    SceneManager F → List (RenderCall F) → Except Fault (SceneManager F)
  | s, [] => Except.ok s
  | s, c :: cs =>
    match perform fm material s c with
    | Except.ok s1 => performAll fm material s1 cs
    | Except.error f => Except.error f

end SceneManager

/-- The texture and material registries of two states are the same. -/
def SceneManager.sameRegistry (s t : SceneManager F) : Prop :=
  t.m_loadedTextures = s.m_loadedTextures ∧ t.m_textureIDs = s.m_textureIDs ∧
    t.m_objectMaterials = s.m_objectMaterials

/-! ## The transform code in the arithmetic of `float` -/

/-- The arithmetic of the type `float` as the program runs it: the sum, the
difference and the product of two floats after rounding, the `cos` and `sin` of
the C library, and the factor `0.01745329251994329576923690768489` of
`glm::radians` as a float. -/
structure FloatArith (F : Type) where
  add : F → F → F
  sub : F → F → F
  mul : F → F → F
  cos : F → F
  sin : F → F
  radiansPerDegree : F

/-- Arithmetic without rounding: the operations of a field. -/
def FloatArith.exact [Field F] (fm : FloatMath F) : FloatArith F :=
  { add := fun a b => a + b
    sub := fun a b => a - b
    mul := fun a b => a * b
    cos := fm.cos
    sin := fm.sin
    radiansPerDegree := fm.pi / 180 }

namespace glm.rounded

/-- The function `glm::radians(degrees)` in the arithmetic `fa`. -/
def radians (fa : FloatArith F) (degrees : F) : F :=
  fa.mul degrees fa.radiansPerDegree

/-- The function `glm::rotate(angle, v)` in the arithmetic `fa`, for an axis `v`
of length 1: the entries `Rotate[..][..]` of the library, written row by row.
The products with the columns of the identity matrix that the library forms from
them afterwards leave a finite float as it is. -/
def rotate [Field F] (fa : FloatArith F) (angle : F) (v : vec3 F) : mat4 F :=
  let c := fa.cos angle
  let s := fa.sin angle
  let t : vec3 F :=
    { x := fa.mul (fa.sub 1 c) v.x, y := fa.mul (fa.sub 1 c) v.y, z := fa.mul (fa.sub 1 c) v.z }
  !![fa.add c (fa.mul t.x v.x), fa.sub (fa.mul t.y v.x) (fa.mul s v.z),
       fa.add (fa.mul t.z v.x) (fa.mul s v.y), 0;
     fa.add (fa.mul t.x v.y) (fa.mul s v.z), fa.add c (fa.mul t.y v.y),
       fa.sub (fa.mul t.z v.y) (fa.mul s v.x), 0;
     fa.sub (fa.mul t.x v.z) (fa.mul s v.y), fa.add (fa.mul t.y v.z) (fa.mul s v.x),
       fa.add c (fa.mul t.z v.z), 0;
     0, 0, 0, 1]

/-- The operator `*` of `glm::mat4` in the arithmetic `fa`: the entry in row `i`
and column `j` is the sum, taken from left to right, of the four products
`a i k * b k j`. -/
def mul (fa : FloatArith F) (a b : mat4 F) : mat4 F :=
  Matrix.of fun i j =>
    fa.add
      (fa.add (fa.add (fa.mul (a i 0) (b 0 j)) (fa.mul (a i 1) (b 1 j)))
        (fa.mul (a i 2) (b 2 j)))
      (fa.mul (a i 3) (b 3 j))

end glm.rounded

/-- The method `SetTransformations(scaleXYZ, XrotationDegrees, YrotationDegrees,
ZrotationDegrees, positionXYZ)` in the arithmetic `fa`.  The matrices of
`glm::scale` and `glm::translate` hold the components of their argument, zeros
and ones. -/
def SceneManager.rounded.SetTransformations [Field F] (s : SceneManager F) (fa : FloatArith F)
    (scaleXYZ : vec3 F) (XrotationDegrees YrotationDegrees ZrotationDegrees : F)
    (positionXYZ : vec3 F) : SceneManager F :=
  let scale : mat4 F := glm.scale scaleXYZ
  let rotationX : mat4 F :=
    glm.rounded.rotate fa (glm.rounded.radians fa XrotationDegrees) { x := 1, y := 0, z := 0 }
  let rotationY : mat4 F :=
    glm.rounded.rotate fa (glm.rounded.radians fa YrotationDegrees) { x := 0, y := 1, z := 0 }
  let rotationZ : mat4 F :=
    glm.rounded.rotate fa (glm.rounded.radians fa ZrotationDegrees) { x := 0, y := 0, z := 1 }
  let translation : mat4 F := glm.translate positionXYZ
  let modelView : mat4 F :=
    glm.rounded.mul fa
      (glm.rounded.mul fa
        (glm.rounded.mul fa (glm.rounded.mul fa translation rotationZ) rotationY) rotationX)
      scale
  match s.m_pShaderManager with
  | some sm => { s with m_pShaderManager := some (sm.setMat4Value g_ModelName modelView) }
  | none => s

namespace binary32

/-- The number of binary digits of `n`, for `n < 2 ^ fuel`. -/
def digits : Nat → Nat → Nat
  | 0, _ => 0
  | fuel + 1, n => if n = 0 then 0 else digits fuel (n / 2) + 1

/-- The binary exponent of the positive rational `n / d`: the `e` with
`2 ^ e ≤ n / d < 2 ^ (e + 1)`. -/
def exponent (n d : Nat) : Int :=
  let e : Int := (digits n n : Int) - (digits d d : Int)
  if n * 2 ^ (-e).toNat < d * 2 ^ e.toNat then e - 1 else e

/-- Rounding to IEEE 754 single precision: the nearest rational with 24
significant binary digits and a last digit of weight at least `2 ^ (-149)`, the
one with an even last digit when two are equally near.  Finite floats are
rationals here; values beyond the largest float, infinities, NaN and the sign of
zero are not modelled. -/
@[irreducible]
def round (x : ℚ) : ℚ :=
  let n := x.num.natAbs
  let d := x.den
  if n = 0 then 0
  else
    let u : Int := max (exponent n d - 23) (-149)
    let p := n * 2 ^ (-u).toNat
    let q := d * 2 ^ u.toNat
    let k := p / q
    let r := p % q
    let m := if 2 * r < q then k else if q < 2 * r then k + 1 else k + k % 2
    mkRat (x.num.sign * ((m * 2 ^ u.toNat : Nat) : Int)) (2 ^ (-u).toNat)

/-- The arithmetic of `float` in IEEE 754 single precision, rounding to
nearest: each operation returns the exact result rounded.  `libm` holds the
`cosf` and `sinf` of the C library. -/
def arith (libm : FloatMath ℚ) : FloatArith ℚ :=
  { add := fun a b => round (a + b)
    sub := fun a b => round (a - b)
    mul := fun a b => round (a * b)
    cos := libm.cos
    sin := libm.sin
    radiansPerDegree := round (1745329251994329576923690768489 / 10 ^ 32) }

end binary32

/-! ## Example data -/

namespace SceneManager

/-- A decoded 64 x 64 image with 3 channels. -/
def exampleRGB : Image := { width := 64, height := 64, colorChannels := 3 }

/-- A decoded 64 x 64 image with 4 channels. -/
def exampleRGBA : Image := { width := 64, height := 64, colorChannels := 4 }

/-- A decoded 64 x 64 image with 1 channel. -/
def exampleGray : Image := { width := 64, height := 64, colorChannels := 1 }

/-- Two loads with distinct tags. -/
def exampleLoads : List LoadCall :=
  [ { image := some exampleRGB, textureID := 1, tag := "table" },
    { image := some exampleRGBA, textureID := 2, tag := "backdrop" } ]

/-- The state after `exampleLoads` on a fresh `SceneManager`. -/
def exampleScene : SceneManager ℚ := (runLoads (construct none) exampleLoads).2

/-- Seventeen loads of a decodable RGB image. -/
def seventeenLoads : List LoadCall :=
  List.replicate 17 { image := some exampleRGB, textureID := 1, tag := "table" }

/-- The state after sixteen successful loads on a fresh `SceneManager`: the table is full. -/
def fullScene : SceneManager ℚ :=
  (runLoads (construct none)
    (List.replicate 16 { image := some exampleRGB, textureID := 1, tag := "table" })).2

/-- Two materials that share the tag `"wood"`, with different values. -/
def exampleMaterials : List (OBJECT_MATERIAL ℚ) :=
  [ { diffuseColor := { x := 4, y := 4, z := 4 }, specularColor := { x := 7, y := 7, z := 6 },
      shininess := 52, tag := "metal" },
    { diffuseColor := { x := 2, y := 2, z := 3 }, specularColor := { x := 0, y := 0, z := 0 },
      shininess := 1, tag := "wood" },
    { diffuseColor := { x := 9, y := 9, z := 9 }, specularColor := { x := 5, y := 5, z := 5 },
      shininess := 95, tag := "wood" } ]

/-- A fresh `SceneManager` holding `exampleMaterials`. -/
def exampleMaterialScene : SceneManager ℚ :=
  { (construct none : SceneManager ℚ) with m_objectMaterials := exampleMaterials }

/-- An output parameter before the call: all zero, tag empty. -/
def blankMaterial : OBJECT_MATERIAL ℚ :=
  { diffuseColor := { x := 0, y := 0, z := 0 }, specularColor := { x := 0, y := 0, z := 0 },
    shininess := 0, tag := "" }

/-- A `SceneManager` with a shader manager in which nothing is set yet, the two
textures of `exampleLoads` and the nine materials of `DefineObjectMaterials`. -/
def exampleShaderScene : SceneManager ℚ :=
  DefineObjectMaterials (runLoads (construct (some ShaderManager.empty)) exampleLoads).2

/-- A `SceneManager` constructed with a `NULL` shader manager, holding the nine
materials of `DefineObjectMaterials`. -/
def nullShaderScene : SceneManager ℚ :=
  DefineObjectMaterials (construct none)

/-- A codec for which the file of the backdrop does not decode and every other
file decodes to 3 channels. -/
def exampleCodec (filename : String) : Option Image :=
  if filename = "textures/backdrop.jpg" then none else some exampleRGB

/-- What the C library returns in single precision at the two angles of the
examples: `cosf(0) = 1`, `sinf(0) = 0`, and at `0x1.921fb6p+0 = 13176795 / 2 ^ 23`,
the float of 90 degrees in radians, `cosf = -0x1.777a5cp-25` and `sinf = 1`.  No
other argument occurs in the examples; there the table holds 0.  `pi` is the
float nearest to pi. -/
def exampleLibm : FloatMath ℚ :=
  { cos := fun x =>
      if x = 0 then 1
      else if x = 13176795 / 8388608 then -(6151831 / 140737488355328)
      else 0
    sin := fun x =>
      if x = 0 then 0
      else if x = 13176795 / 8388608 then 1
      else 0
    pi := 13176795 / 4194304 }

end SceneManager

/-! ## The scan of `FindTextureSlot` -/

namespace SceneManager

theorem FindTextureSlot_loop_found (s : SceneManager F) (tag : String) (fuel : Nat)
    (index slot : Int) :
    FindTextureSlot.loop s tag fuel index true slot = Except.ok slot := by
  cases fuel <;> simp [FindTextureSlot.loop]

/-- What a value returned by the scan of `FindTextureSlot` means: either nothing
from `index` on matched and the initial value comes back, or the value is the
first matching live index from `index` on. -/
theorem FindTextureSlot_loop_sound (s : SceneManager F) (tag : String) :
    ∀ (fuel : Nat) (index slot r : Int),
      FindTextureSlot.loop s tag fuel index false slot = Except.ok r →
      (r = slot ∧ ∀ j, index ≤ j → j < s.m_loadedTextures →
          ∃ e, s.slot? j = some e ∧ e.tag ≠ tag) ∨
      (index ≤ r ∧ r < s.m_loadedTextures ∧ (∃ e, s.slot? r = some e ∧ e.tag = tag) ∧
        ∀ j, index ≤ j → j < r → ∃ e, s.slot? j = some e ∧ e.tag ≠ tag) := by
  intro fuel
  induction fuel with
  | zero =>
    intro index slot r h
    simp only [FindTextureSlot.loop] at h
    split at h
    · cases h
    · rename_i hc
      injection h with h
      left
      refine ⟨h.symm, ?_⟩
      intro j hj1 hj2
      exfalso
      apply hc
      exact ⟨by omega, trivial⟩
  | succ fuel ih =>
    intro index slot r h
    simp only [FindTextureSlot.loop] at h
    split at h
    · rename_i hc
      split at h
      · cases h
      · rename_i e he
        split at h
        · rename_i htag
          rw [FindTextureSlot_loop_found] at h
          injection h with h
          subst h
          right
          exact ⟨le_refl _, hc.1, ⟨e, he, htag⟩, fun j h1 h2 => absurd h2 (not_lt.mpr h1)⟩
        · rename_i htag
          rcases ih _ _ _ h with ⟨h1, h2⟩ | ⟨h1, h2, h3, h4⟩
          · left
            refine ⟨h1, ?_⟩
            intro j hj1 hj2
            rcases eq_or_lt_of_le hj1 with heq | hlt
            · subst heq
              exact ⟨e, he, htag⟩
            · exact h2 j (by omega) hj2
          · right
            refine ⟨by omega, h2, h3, ?_⟩
            intro j hj1 hj2
            rcases eq_or_lt_of_le hj1 with heq | hlt
            · subst heq
              exact ⟨e, he, htag⟩
            · exact h4 j (by omega) hj2
    · rename_i hc
      injection h with h
      left
      refine ⟨h.symm, ?_⟩
      intro j hj1 hj2
      exfalso
      apply hc
      exact ⟨by omega, trivial⟩

/-- A read inside the table succeeds. -/
theorem slot?_isSome (s : SceneManager F) (index : Int) (h0 : 0 ≤ index) (h1 : index < 16) :
    ∃ e, s.slot? index = some e := by
  have hlt : index.toNat < s.m_textureIDs.length := by
    rw [s.table_size]
    omega
  refine ⟨s.m_textureIDs[index.toNat], ?_⟩
  simp [slot?, h0, List.getElem?_eq_getElem hlt]

/-- With at most 16 live slots and enough fuel the scan returns a value. -/
theorem FindTextureSlot_loop_total (s : SceneManager F) (tag : String)
    (hcap : s.m_loadedTextures ≤ 16) :
    ∀ (fuel : Nat) (index slot : Int), 0 ≤ index → s.m_loadedTextures ≤ index + fuel →
      ∃ r, FindTextureSlot.loop s tag fuel index false slot = Except.ok r := by
  intro fuel
  induction fuel with
  | zero =>
    intro index slot h0 hf
    refine ⟨slot, ?_⟩
    simp only [FindTextureSlot.loop]
    rw [if_neg]
    intro hc
    have := hc.1
    omega
  | succ fuel ih =>
    intro index slot h0 hf
    simp only [FindTextureSlot.loop]
    split
    · rename_i hc
      obtain ⟨e, he⟩ := s.slot?_isSome index h0 (by have := hc.1; omega)
      rw [he]
      simp only
      split
      · exact ⟨index, FindTextureSlot_loop_found s tag fuel index index⟩
      · exact ih (index + 1) slot (by omega) (by push_cast at hf ⊢; omega)
    · exact ⟨slot, rfl⟩

/-- The first matching live index is what the scan returns, given fuel to reach it. -/
theorem FindTextureSlot_loop_complete (s : SceneManager F) (tag : String) (r : Int)
    (hr : r < s.m_loadedTextures) (hm : ∃ e, s.slot? r = some e ∧ e.tag = tag) :
    ∀ (fuel : Nat) (index slot : Int), index ≤ r → r < index + fuel →
      (∀ j, index ≤ j → j < r → ∃ e, s.slot? j = some e ∧ e.tag ≠ tag) →
      FindTextureSlot.loop s tag fuel index false slot = Except.ok r := by
  intro fuel
  induction fuel with
  | zero =>
    intro index slot h1 h2 _
    exfalso
    simp at h2
    omega
  | succ fuel ih =>
    intro index slot h1 h2 hno
    simp only [FindTextureSlot.loop]
    rw [if_pos ⟨by omega, trivial⟩]
    rcases eq_or_lt_of_le h1 with heq | hlt
    · subst heq
      obtain ⟨e, he, htag⟩ := hm
      rw [he]
      simp only
      rw [if_pos htag]
      exact FindTextureSlot_loop_found s tag fuel index index
    · obtain ⟨e, he, htag⟩ := hno index (le_refl _) hlt
      rw [he]
      simp only
      rw [if_neg htag]
      apply ih (index + 1) slot (by omega) (by push_cast at h2 ⊢; omega)
      intro j hj1 hj2
      exact hno j (by omega) hj2

/-- The first matching live index, from index 0, is the value of `FindTextureSlot`. -/
theorem FindTextureSlot_eq_of_first (s : SceneManager F) (tag : String) (r : Int)
    (h0 : 0 ≤ r) (hr : r < s.m_loadedTextures) (hm : ∃ e, s.slot? r = some e ∧ e.tag = tag)
    (hno : ∀ j, 0 ≤ j → j < r → ∃ e, s.slot? j = some e ∧ e.tag ≠ tag) :
    s.FindTextureSlot tag = Except.ok r := by
  unfold FindTextureSlot
  apply FindTextureSlot_loop_complete s tag r hr hm _ 0 (-1) h0 _ hno
  omega

/-- A non-negative value of `FindTextureSlot` is the first matching live index. -/
theorem first_of_FindTextureSlot_eq (s : SceneManager F) (tag : String) (r : Int)
    (h : s.FindTextureSlot tag = Except.ok r) (h0 : 0 ≤ r) :
    r < s.m_loadedTextures ∧ (∃ e, s.slot? r = some e ∧ e.tag = tag) ∧
      ∀ j, 0 ≤ j → j < r → ∃ e, s.slot? j = some e ∧ e.tag ≠ tag := by
  unfold FindTextureSlot at h
  rcases FindTextureSlot_loop_sound s tag _ _ _ _ h with ⟨h1, _⟩ | ⟨_, h2, h3, h4⟩
  · omega
  · exact ⟨h2, h3, h4⟩

/-! ## Effect of `CreateGLTexture` on the registry -/

theorem slot?_of_table_eq (s t : SceneManager F) (h : t.m_textureIDs = s.m_textureIDs)
    (j : Int) : t.slot? j = s.slot? j := by
  unfold slot?
  rw [h]

theorem writeSlot_count (s : SceneManager F) (i : Int) (e : TEXTURE_INFO) :
    (s.writeSlot i e).m_loadedTextures = s.m_loadedTextures := by
  unfold writeSlot
  split <;> rfl

theorem writeSlot_materials (s : SceneManager F) (i : Int) (e : TEXTURE_INFO) :
    (s.writeSlot i e).m_objectMaterials = s.m_objectMaterials := by
  unfold writeSlot
  split <;> rfl

theorem writeSlot_table_inside (s : SceneManager F) (i : Int) (e : TEXTURE_INFO)
    (h0 : 0 ≤ i) (h1 : i < 16) :
    (s.writeSlot i e).m_textureIDs = s.m_textureIDs.set i.toNat e ∧
      (s.writeSlot i e).overrun = s.overrun := by
  unfold writeSlot
  rw [if_pos ⟨h0, h1⟩]
  exact ⟨rfl, rfl⟩

theorem writeSlot_table_outside (s : SceneManager F) (i : Int) (e : TEXTURE_INFO)
    (h : ¬ (0 ≤ i ∧ i < 16)) :
    (s.writeSlot i e).m_textureIDs = s.m_textureIDs ∧
      (s.writeSlot i e).overrun = s.overrun ++ [(i, e)] := by
  unfold writeSlot
  rw [if_neg h]
  exact ⟨rfl, rfl⟩

/-- Reading after `m_textureIDs[i] = e` with `i` inside the table. -/
theorem slot?_set (s t : SceneManager F) (i : Int) (e : TEXTURE_INFO)
    (h0 : 0 ≤ i) (h1 : i < 16) (ht : t.m_textureIDs = s.m_textureIDs.set i.toNat e) (j : Int) :
    t.slot? j = if j = i then some e else s.slot? j := by
  unfold slot?
  rw [ht]
  by_cases hj : 0 ≤ j
  · rw [if_pos hj, if_pos hj]
    by_cases hji : j = i
    · subst hji
      rw [if_pos rfl]
      apply List.getElem?_set_self
      rw [s.table_size]
      omega
    · rw [if_neg hji]
      apply List.getElem?_set_ne
      omega
  · rw [if_neg hj, if_neg hj]
    rw [if_neg]
    omega

/-- The registry after a call that decoded a 3- or 4-channel image. -/
theorem CreateGLTexture_of_usable (s : SceneManager F) (image : Option Image) (textureID : Nat)
    (tag : String)
    (h : ∃ img, image = some img ∧ (img.colorChannels = 3 ∨ img.colorChannels = 4)) :
    (s.CreateGLTexture image textureID tag).1 = true ∧
    (s.CreateGLTexture image textureID tag).2.m_loadedTextures = s.m_loadedTextures + 1 ∧
    (s.CreateGLTexture image textureID tag).2.m_textureIDs =
      (s.writeSlot s.m_loadedTextures { tag := tag, ID := textureID }).m_textureIDs ∧
    (s.CreateGLTexture image textureID tag).2.overrun =
      (s.writeSlot s.m_loadedTextures { tag := tag, ID := textureID }).overrun ∧
    (s.CreateGLTexture image textureID tag).2.m_objectMaterials = s.m_objectMaterials := by
  obtain ⟨img, rfl, hc⟩ := h
  by_cases h3 : img.colorChannels = 3
  · simp only [CreateGLTexture, CreateGLTexture.finish, if_pos h3, writeSlot]
    split <;> simp
  · have h4 : img.colorChannels = 4 := by
      rcases hc with h | h
      · exact absurd h h3
      · exact h
    simp only [CreateGLTexture, CreateGLTexture.finish, if_neg h3, if_pos h4, writeSlot]
    split <;> simp

/-- The registry after a call whose file did not decode to 3 or 4 channels. -/
theorem CreateGLTexture_of_not_usable (s : SceneManager F) (image : Option Image)
    (textureID : Nat) (tag : String)
    (h : ¬ ∃ img, image = some img ∧ (img.colorChannels = 3 ∨ img.colorChannels = 4)) :
    (s.CreateGLTexture image textureID tag).1 = false ∧
    (s.CreateGLTexture image textureID tag).2.m_loadedTextures = s.m_loadedTextures ∧
    (s.CreateGLTexture image textureID tag).2.m_textureIDs = s.m_textureIDs ∧
    (s.CreateGLTexture image textureID tag).2.overrun = s.overrun ∧
    (s.CreateGLTexture image textureID tag).2.m_objectMaterials = s.m_objectMaterials := by
  cases image with
  | none => simp [CreateGLTexture]
  | some img =>
    have h3 : ¬ img.colorChannels = 3 := fun h3 => h ⟨img, rfl, Or.inl h3⟩
    have h4 : ¬ img.colorChannels = 4 := fun h4 => h ⟨img, rfl, Or.inr h4⟩
    simp [CreateGLTexture, h3, h4]

/-- Both scans only look at the live count and the table. -/
theorem FindTextureSlot_loop_congr (s t : SceneManager F) (tag : String)
    (hn : t.m_loadedTextures = s.m_loadedTextures) (ht : t.m_textureIDs = s.m_textureIDs) :
    ∀ (fuel : Nat) (index : Int) (b : Bool) (slot : Int),
      FindTextureSlot.loop t tag fuel index b slot = FindTextureSlot.loop s tag fuel index b slot := by
  intro fuel
  induction fuel with
  | zero =>
    intro index b slot
    simp only [FindTextureSlot.loop, hn]
  | succ fuel ih =>
    intro index b slot
    simp only [FindTextureSlot.loop, hn, slot?_of_table_eq s t ht, ih]

theorem FindTextureSlot_congr (s t : SceneManager F) (tag : String)
    (hn : t.m_loadedTextures = s.m_loadedTextures) (ht : t.m_textureIDs = s.m_textureIDs) :
    t.FindTextureSlot tag = s.FindTextureSlot tag := by
  unfold FindTextureSlot
  rw [hn]
  exact FindTextureSlot_loop_congr s t tag hn ht _ _ _ _

/-! ## Sequences of loads -/

/-- A run of loads that all decode to 3 or 4 channels and fit into the table:
every call returns `true`, the count grows by the number of calls, the slots
below the old count keep their content and the `k`-th call fills slot
`count + k`. -/
theorem runLoads_of_usable (calls : List LoadCall) :
    ∀ (s : SceneManager F), 0 ≤ s.m_loadedTextures →
      s.m_loadedTextures + calls.length ≤ 16 →
      (∀ c ∈ calls, ∃ img, c.image = some img ∧
        (img.colorChannels = 3 ∨ img.colorChannels = 4)) →
      (runLoads s calls).1 = List.replicate calls.length true ∧
      (runLoads s calls).2.m_loadedTextures = s.m_loadedTextures + calls.length ∧
      (∀ j, j < s.m_loadedTextures → (runLoads s calls).2.slot? j = s.slot? j) ∧
      (∀ k (hk : k < calls.length),
        (runLoads s calls).2.slot? (s.m_loadedTextures + k) =
          some { tag := calls[k].tag, ID := calls[k].textureID }) := by
  induction calls with
  | nil =>
    intro s _ _ _
    refine ⟨rfl, by simp [runLoads], fun j _ => rfl, ?_⟩
    intro k hk
    simp at hk
  | cons c cs ih =>
    intro s h0 hcap hok
    have hc := hok c (List.mem_cons_self _ _)
    obtain ⟨h1, h2, h3, _, _⟩ := CreateGLTexture_of_usable s c.image c.textureID c.tag hc
    simp only [List.length_cons, Nat.cast_add, Nat.cast_one] at hcap
    have hin := writeSlot_table_inside s s.m_loadedTextures
      { tag := c.tag, ID := c.textureID } h0 (by omega)
    rw [hin.1] at h3
    have hslot := slot?_set s (s.CreateGLTexture c.image c.textureID c.tag).2 s.m_loadedTextures
      { tag := c.tag, ID := c.textureID } h0 (by omega) h3
    obtain ⟨i1, i2, i3, i4⟩ := ih (s.CreateGLTexture c.image c.textureID c.tag).2
      (by rw [h2]; omega) (by rw [h2]; omega)
      (fun c2 hc2 => hok c2 (List.mem_cons_of_mem _ hc2))
    simp only [runLoads]
    refine ⟨?_, ?_, ?_, ?_⟩
    · rw [h1, i1]
      rfl
    · rw [i2, h2]
      simp only [List.length_cons, Nat.cast_add, Nat.cast_one]
      omega
    · intro j hj
      rw [i3 j (by rw [h2]; omega), hslot j, if_neg (by omega)]
    · intro k hk
      cases k with
      | zero =>
        simp only [Nat.cast_zero, add_zero, List.getElem_cons_zero]
        rw [i3 _ (by rw [h2]; omega), hslot, if_pos rfl]
      | succ k =>
        simp only [List.length_cons, Nat.add_lt_add_iff_right] at hk
        have := i4 k hk
        rw [h2] at this
        simp only [List.getElem_cons_succ, Nat.cast_add, Nat.cast_one]
        rw [← this]
        congr 1
        omega

/-! ## The calls of `BindGLTextures` -/

theorem slot?_natCast (s : SceneManager F) (m : Nat) :
    s.slot? (m : Int) = s.m_textureIDs[m]? := by
  simp [slot?]

/-- Closed form of the loop of `BindGLTextures` when the live count fits the table. -/
theorem BindGLTextures_loop_eq (s : SceneManager F) (hcap : s.m_loadedTextures ≤ 16) :
    ∀ (fuel m : Nat) (gl : List GLCall), s.m_loadedTextures ≤ (m : Int) + fuel →
      BindGLTextures.loop s fuel (m : Int) gl =
        Except.ok (gl ++ bindCalls (m : Int)
          ((s.m_textureIDs.drop m).take (s.m_loadedTextures.toNat - m))) := by
  intro fuel
  induction fuel with
  | zero =>
    intro m gl hf
    have h0 : s.m_loadedTextures.toNat - m = 0 := by omega
    simp only [BindGLTextures.loop, h0, List.take_zero, bindCalls, List.append_nil]
    rw [if_neg]
    simp only [Nat.cast_zero, add_zero] at hf
    omega
  | succ fuel ih =>
    intro m gl hf
    simp only [BindGLTextures.loop]
    split
    · rename_i hc
      have hm : m < 16 := by omega
      have hlt : m < s.m_textureIDs.length := by rw [s.table_size]; exact hm
      rw [slot?_natCast s m, List.getElem?_eq_getElem hlt]
      simp only
      have hstep := ih (m + 1)
        (gl ++ [GLCall.glActiveTexture (m : Int), GLCall.glBindTexture s.m_textureIDs[m].ID])
        (by push_cast at hf ⊢; omega)
      simp only [Nat.cast_add, Nat.cast_one] at hstep
      rw [hstep]
      have hk : s.m_loadedTextures.toNat - m = (s.m_loadedTextures.toNat - (m + 1)) + 1 := by
        omega
      rw [hk, List.drop_eq_getElem_cons hlt, List.take_succ_cons]
      simp only [bindCalls, List.append_assoc, List.cons_append, List.nil_append]
    · rename_i hc
      have h0 : s.m_loadedTextures.toNat - m = 0 := by omega
      simp only [h0, List.take_zero, bindCalls, List.append_nil]

/-- The bindings made by one pass: the `k`-th is of entry `k` to unit `i + k`. -/
theorem unitBindings_bindCalls (l : List TEXTURE_INFO) :
    ∀ (i active : Int),
      (unitBindings active (bindCalls i l)).length = l.length ∧
      ∀ k : Nat, (unitBindings active (bindCalls i l))[k]? =
        (l[k]?).map (fun e => (i + (k : Int), e.ID)) := by
  induction l with
  | nil =>
    intro i active
    simp [bindCalls, unitBindings]
  | cons e es ih =>
    intro i active
    obtain ⟨h1, h2⟩ := ih (i + 1) i
    simp only [bindCalls, unitBindings, List.length_cons]
    refine ⟨by rw [h1], ?_⟩
    intro k
    cases k with
    | zero => simp
    | succ k =>
      simp only [List.getElem?_cons_succ, h2 k]
      cases es[k]? with
      | none => rfl
      | some e2 =>
        simp only [Option.map_some', Nat.cast_add, Nat.cast_one]
        congr 2
        omega

theorem run_bindCalls_cons (e : TEXTURE_INFO) (es : List TEXTURE_INFO) (i : Int)
    (g : GLState) :
    g.run (bindCalls i (e :: es)) =
      ((g.step (GLCall.glActiveTexture i)).step (GLCall.glBindTexture e.ID)).run
        (bindCalls (i + 1) es) := rfl

/-- A pass over entries from index `i` on leaves the units below `i` alone. -/
theorem run_bindCalls_below (l : List TEXTURE_INFO) :
    ∀ (i : Int) (g : GLState) (u : Int), u < i →
      (g.run (bindCalls i l)).texture2D u = g.texture2D u := by
  induction l with
  | nil =>
    intro i g u _
    rfl
  | cons e es ih =>
    intro i g u hu
    rw [run_bindCalls_cons, ih (i + 1) _ u (by omega)]
    simp only [GLState.step]
    rw [if_neg (by omega)]

/-- After a pass over entries from index `i` on, unit `i + k` holds the name of entry `k`. -/
theorem run_bindCalls_at (l : List TEXTURE_INFO) :
    ∀ (i : Int) (g : GLState) (k : Nat) (e : TEXTURE_INFO), l[k]? = some e →
      (g.run (bindCalls i l)).texture2D (i + (k : Int)) = e.ID := by
  induction l with
  | nil =>
    intro i g k e h
    simp at h
  | cons e0 es ih =>
    intro i g k e h
    cases k with
    | zero =>
      simp only [List.getElem?_cons_zero, Option.some.injEq] at h
      subst h
      rw [run_bindCalls_cons, Nat.cast_zero, add_zero,
        run_bindCalls_below es (i + 1) _ i (by omega)]
      simp [GLState.step]
    | succ k =>
      simp only [List.getElem?_cons_succ] at h
      have hidx : i + ((k + 1 : Nat) : Int) = i + 1 + (k : Int) := by
        push_cast
        omega
      rw [run_bindCalls_cons, hidx]
      exact ih (i + 1) _ k e h

/-! ## The scan of `FindTextureID` -/

theorem FindTextureID_loop_found (s : SceneManager F) (tag : String) (fuel : Nat)
    (index textureID : Int) :
    FindTextureID.loop s tag fuel index true textureID = Except.ok textureID := by
  cases fuel <;> simp [FindTextureID.loop]

/-- The two scans walk in step: when the slot scan returns `-1` so does the ID
scan, and when it returns an index the ID scan returns the ID stored there. -/
theorem FindTextureID_loop_of_slot (s : SceneManager F) (tag : String) :
    ∀ (fuel : Nat) (index r : Int), 0 ≤ index →
      FindTextureSlot.loop s tag fuel index false (-1) = Except.ok r →
      (r = -1 → FindTextureID.loop s tag fuel index false (-1) = Except.ok (-1)) ∧
      (0 ≤ r → ∃ e, s.slot? r = some e ∧
        FindTextureID.loop s tag fuel index false (-1) = Except.ok (u32ToInt e.ID)) := by
  intro fuel
  induction fuel with
  | zero =>
    intro index r h0 h
    simp only [FindTextureSlot.loop, FindTextureID.loop] at h ⊢
    split at h
    · cases h
    · rename_i hc
      injection h with h
      rw [if_neg hc]
      refine ⟨fun _ => rfl, fun hr => ?_⟩
      omega
  | succ fuel ih =>
    intro index r h0 h
    simp only [FindTextureSlot.loop, FindTextureID.loop] at h ⊢
    split at h
    · rename_i hc
      rw [if_pos hc]
      split at h
      · cases h
      · rename_i e he
        split at h
        · rename_i htag
          rw [FindTextureSlot_loop_found] at h
          injection h with h
          subst h
          rw [if_pos htag, FindTextureID_loop_found]
          refine ⟨fun hr => ?_, fun _ => ⟨e, he, rfl⟩⟩
          omega
        · rename_i htag
          rw [if_neg htag]
          exact ih (index + 1) r (by omega) h
    · rename_i hc
      injection h with h
      rw [if_neg hc]
      refine ⟨fun _ => rfl, fun hr => ?_⟩
      omega

theorem FindTextureID_of_slot (s : SceneManager F) (tag : String) (i : Int)
    (h : s.FindTextureSlot tag = Except.ok i) :
    (i = -1 → s.FindTextureID tag = Except.ok (-1)) ∧
    (0 ≤ i → ∃ e, s.slot? i = some e ∧ s.FindTextureID tag = Except.ok (u32ToInt e.ID)) :=
  FindTextureID_loop_of_slot s tag _ 0 i (le_refl _) h

/-! ## The scan of `FindMaterial` -/

theorem FindMaterial_loop_found (s : SceneManager F) (tag : String) (fuel : Nat)
    (index : Int) (material : OBJECT_MATERIAL F) :
    FindMaterial.loop s tag fuel index true material = Except.ok material := by
  cases fuel <;> simp [FindMaterial.loop]

/-- A list with an entry of the given tag has a first such entry. -/
theorem exists_first_tag (tag : String) (l : List (OBJECT_MATERIAL F))
    (h : ∃ m ∈ l, m.tag = tag) :
    ∃ (k : Nat) (m : OBJECT_MATERIAL F), l[k]? = some m ∧ m.tag = tag ∧
      ∀ (j : Nat) (m2 : OBJECT_MATERIAL F), j < k → l[j]? = some m2 → m2.tag ≠ tag := by
  induction l with
  | nil =>
    obtain ⟨m, hm, _⟩ := h
    cases hm
  | cons a l ih =>
    by_cases ha : a.tag = tag
    · refine ⟨0, a, List.getElem?_cons_zero, ha, ?_⟩
      intro j m2 hj
      omega
    · have hl : ∃ m ∈ l, m.tag = tag := by
        obtain ⟨m, hm, hmt⟩ := h
        rcases List.mem_cons.mp hm with rfl | hm
        · exact absurd hmt ha
        · exact ⟨m, hm, hmt⟩
      obtain ⟨k, m, hk, hmt, hfirst⟩ := ih hl
      refine ⟨k + 1, m, by simpa using hk, hmt, ?_⟩
      intro j m2 hj hj2
      cases j with
      | zero =>
        simp only [List.getElem?_cons_zero, Option.some.injEq] at hj2
        subst hj2
        exact ha
      | succ j =>
        simp only [List.getElem?_cons_succ] at hj2
        exact hfirst j m2 (by omega) hj2

/-- The scan of `FindMaterial` stops at the first entry with the tag and copies
its three values into the output parameter. -/
theorem FindMaterial_loop_complete (s : SceneManager F) (tag : String) (k : Nat)
    (mk : OBJECT_MATERIAL F) (hk : s.m_objectMaterials[k]? = some mk) (hmk : mk.tag = tag) :
    ∀ (fuel i : Nat) (material : OBJECT_MATERIAL F), i ≤ k → k < i + fuel →
      (∀ (j : Nat) (m2 : OBJECT_MATERIAL F), i ≤ j → j < k →
        s.m_objectMaterials[j]? = some m2 → m2.tag ≠ tag) →
      FindMaterial.loop s tag fuel (i : Int) false material =
        Except.ok { material with
          diffuseColor := mk.diffuseColor
          specularColor := mk.specularColor
          shininess := mk.shininess } := by
  have hklen : k < s.m_objectMaterials.length := by
    by_contra hge
    rw [List.getElem?_eq_none (by omega)] at hk
    cases hk
  intro fuel
  induction fuel with
  | zero =>
    intro i material h1 h2 _
    omega
  | succ fuel ih =>
    intro i material h1 h2 hno
    simp only [FindMaterial.loop, Int.toNat_ofNat]
    rw [if_pos ⟨by omega, trivial⟩]
    rcases Nat.eq_or_lt_of_le h1 with heq | hlt
    · subst heq
      rw [hk]
      simp only
      rw [if_pos hmk, FindMaterial_loop_found]
    · have hilen : i < s.m_objectMaterials.length := by omega
      rw [List.getElem?_eq_getElem hilen]
      simp only
      rw [if_neg (hno i _ (le_refl _) hlt (List.getElem?_eq_getElem hilen))]
      have := ih (i + 1) material (by omega) (by omega)
        (fun j m2 hj1 hj2 => hno j m2 (by omega) hj2)
      simp only [Nat.cast_add, Nat.cast_one] at this
      exact this

/-! ## `FindMaterial` on a miss and on an empty registry -/

/-- When no entry has the tag, the scan of `FindMaterial` runs to the end and
leaves the output parameter as it was. -/
theorem FindMaterial_loop_miss (s : SceneManager F) (tag : String)
    (hmiss : ∀ m ∈ s.m_objectMaterials, m.tag ≠ tag) :
    ∀ (fuel i : Nat) (material : OBJECT_MATERIAL F), s.m_objectMaterials.length ≤ i + fuel →
      FindMaterial.loop s tag fuel (i : Int) false material = Except.ok material := by
  intro fuel
  induction fuel with
  | zero =>
    intro i material hf
    simp only [FindMaterial.loop]
    rw [if_neg]
    intro hc
    have := hc.1
    omega
  | succ fuel ih =>
    intro i material hf
    simp only [FindMaterial.loop, Int.toNat_ofNat]
    by_cases hi : i < s.m_objectMaterials.length
    · rw [if_pos ⟨by omega, trivial⟩, List.getElem?_eq_getElem hi]
      simp only
      rw [if_neg (hmiss _ (List.getElem_mem hi))]
      have := ih (i + 1) material (by omega)
      simp only [Nat.cast_add, Nat.cast_one] at this
      exact this
    · rw [if_neg]
      intro hc
      have := hc.1
      omega

/-- A miss in a non-empty registry: `FindMaterial` returns `true` and the output
parameter is untouched. -/
theorem FindMaterial_of_miss (s : SceneManager F) (tag : String)
    (material : OBJECT_MATERIAL F) (hne : s.m_objectMaterials ≠ [])
    (hmiss : ∀ m ∈ s.m_objectMaterials, m.tag ≠ tag) :
    s.FindMaterial tag material = Except.ok (true, material) := by
  have hlen : s.m_objectMaterials.length ≠ 0 := by
    intro h
    exact hne (List.length_eq_zero.mp h)
  have hloop := FindMaterial_loop_miss s tag hmiss s.m_objectMaterials.length 0 material
    (by omega)
  simp only [Nat.cast_zero] at hloop
  unfold FindMaterial
  rw [if_neg hlen, hloop]

/-- The empty registry: `FindMaterial` returns `false` at once. -/
theorem FindMaterial_of_empty (s : SceneManager F) (tag : String)
    (material : OBJECT_MATERIAL F) (hempty : s.m_objectMaterials = []) :
    s.FindMaterial tag material = Except.ok (false, material) := by
  unfold FindMaterial
  rw [hempty]
  rfl

/-- A hit: `FindMaterial` returns `true` and the three values of the first entry
with the tag. -/
theorem FindMaterial_of_first (s : SceneManager F) (tag : String)
    (material : OBJECT_MATERIAL F) (k : Nat) (m : OBJECT_MATERIAL F)
    (hk : s.m_objectMaterials[k]? = some m) (hm : m.tag = tag)
    (hfirst : ∀ (j : Nat) (m2 : OBJECT_MATERIAL F), j < k →
      s.m_objectMaterials[j]? = some m2 → m2.tag ≠ tag) :
    s.FindMaterial tag material =
      Except.ok (true, { material with
        diffuseColor := m.diffuseColor
        specularColor := m.specularColor
        shininess := m.shininess }) := by
  have hklen : k < s.m_objectMaterials.length := by
    by_contra hge
    rw [List.getElem?_eq_none (by omega)] at hk
    cases hk
  have hloop := FindMaterial_loop_complete s tag k m hk hm s.m_objectMaterials.length 0
    material (Nat.zero_le _) (by omega) (fun j m2 _ hj hj2 => hfirst j m2 hj hj2)
  simp only [Nat.cast_zero] at hloop
  unfold FindMaterial
  rw [if_neg (by omega), hloop]

/-- The method `FindMaterial` always returns. -/
theorem FindMaterial_total (s : SceneManager F) (tag : String) (material : OBJECT_MATERIAL F) :
    ∃ (b : Bool) (found : OBJECT_MATERIAL F),
      s.FindMaterial tag material = Except.ok (b, found) := by
  by_cases hex : ∃ m ∈ s.m_objectMaterials, m.tag = tag
  · obtain ⟨k, m, hk, hm, hfirst⟩ := exists_first_tag tag s.m_objectMaterials hex
    exact ⟨true, _, FindMaterial_of_first s tag material k m hk hm hfirst⟩
  · by_cases hempty : s.m_objectMaterials = []
    · exact ⟨false, material, FindMaterial_of_empty s tag material hempty⟩
    · refine ⟨true, material, FindMaterial_of_miss s tag material hempty ?_⟩
      intro m hm hmt
      exact hex ⟨m, hm, hmt⟩

/-! ## The setters -/

/-- With the live count within the table `FindTextureSlot` returns. -/
theorem FindTextureSlot_total (s : SceneManager F) (tag : String)
    (hcap : s.m_loadedTextures ≤ 16) :
    ∃ i, s.FindTextureSlot tag = Except.ok i :=
  FindTextureSlot_loop_total s tag hcap s.m_loadedTextures.toNat 0 (-1) (le_refl _) (by omega)

/-- With the live count within the table and no live slot of the tag,
`FindTextureSlot` returns `-1`. -/
theorem FindTextureSlot_of_no_match (s : SceneManager F) (tag : String)
    (hcap : s.m_loadedTextures ≤ 16)
    (hno : ∀ j e, 0 ≤ j → j < s.m_loadedTextures → s.slot? j = some e → e.tag ≠ tag) :
    s.FindTextureSlot tag = Except.ok (-1) := by
  obtain ⟨i, hi⟩ := FindTextureSlot_total s tag hcap
  rcases FindTextureSlot_loop_sound s tag _ _ _ _ hi with ⟨h1, _⟩ | ⟨h1, h2, ⟨e, he, het⟩, _⟩
  · rw [hi, h1]
  · exact absurd het (hno i e h1 h2 he)

theorem uniforms_setUniform (sm : ShaderManager F) (name : String) (value : UniformValue F)
    (n : String) :
    (sm.setUniform name value).uniforms n = if n = name then some value else sm.uniforms n :=
  rfl

theorem uniform_of_some (s : SceneManager F) (sm : ShaderManager F)
    (hsm : s.m_pShaderManager = some sm) (n : String) : s.uniform n = sm.uniforms n := by
  unfold uniform
  rw [hsm]

/-- The state `SetShaderColor` leaves when the shader manager is present. -/
theorem SetShaderColor_of_some (s : SceneManager F) (sm : ShaderManager F)
    (hsm : s.m_pShaderManager = some sm) (r g b a : F) :
    s.SetShaderColor r g b a =
      { s with
        m_pShaderManager := some
          ((sm.setUniform g_UseTextureName (UniformValue.intValue 0)).setUniform g_ColorValueName
            (UniformValue.vec4Value { r := r, g := g, b := b, a := a })) } := by
  unfold SetShaderColor
  rw [hsm]
  rfl

/-- The state `SetShaderTexture` leaves when the shader manager is present and
`FindTextureSlot` returns `i`. -/
theorem SetShaderTexture_of_some (s : SceneManager F) (sm : ShaderManager F)
    (hsm : s.m_pShaderManager = some sm) (tag : String) (i : Int)
    (hi : s.FindTextureSlot tag = Except.ok i) :
    s.SetShaderTexture tag =
      Except.ok { s with
        m_pShaderManager := some
          ((sm.setUniform g_UseTextureName (UniformValue.intValue 1)).setUniform
            g_TextureValueName (UniformValue.sampler2DValue i)) } := by
  unfold SetShaderTexture
  rw [hsm]
  simp only [hi]
  rfl

/-- The state `SetShaderMaterial` leaves when the shader manager is present and
`FindMaterial` returns `true` with `found` in its output parameter. -/
theorem SetShaderMaterial_of_true (s : SceneManager F) (sm : ShaderManager F)
    (hsm : s.m_pShaderManager = some sm) (tag : String) (material found : OBJECT_MATERIAL F)
    (hfind : s.FindMaterial tag material = Except.ok (true, found)) :
    s.SetShaderMaterial tag material =
      Except.ok { s with
        m_pShaderManager := some
          (((sm.setUniform "material.diffuseColor"
              (UniformValue.vec3Value found.diffuseColor)).setUniform "material.specularColor"
              (UniformValue.vec3Value found.specularColor)).setUniform "material.shininess"
              (UniformValue.floatValue found.shininess)) } := by
  have hlen : s.m_objectMaterials.length > 0 := by
    by_contra h
    have hempty : s.m_objectMaterials = [] := List.length_eq_zero.mp (by omega)
    rw [FindMaterial_of_empty s tag material hempty] at hfind
    cases hfind
  unfold SetShaderMaterial
  rw [if_pos hlen, hfind]
  simp only [if_true, hsm]
  rfl

/-- On the empty registry `SetShaderMaterial` does nothing. -/
theorem SetShaderMaterial_of_empty (s : SceneManager F) (tag : String)
    (material : OBJECT_MATERIAL F) (hempty : s.m_objectMaterials = []) :
    s.SetShaderMaterial tag material = Except.ok s := by
  unfold SetShaderMaterial
  rw [if_neg]
  rw [hempty]
  simp

/-- The state `SetTransformations` leaves when the shader manager is present. -/
theorem SetTransformations_of_some [Field F] (s : SceneManager F) (sm : ShaderManager F)
    (hsm : s.m_pShaderManager = some sm) (fm : FloatMath F) (scaleXYZ : vec3 F)
    (x y z : F) (positionXYZ : vec3 F) :
    s.SetTransformations fm scaleXYZ x y z positionXYZ =
      { s with
        m_pShaderManager := some
          (sm.setUniform g_ModelName (UniformValue.mat4Value
            (glm.translate positionXYZ *
              glm.rotate fm (glm.radians fm z) { x := 0, y := 0, z := 1 } *
              glm.rotate fm (glm.radians fm y) { x := 0, y := 1, z := 0 } *
              glm.rotate fm (glm.radians fm x) { x := 1, y := 0, z := 0 } *
              glm.scale scaleXYZ))) } := by
  unfold SetTransformations
  rw [hsm]
  rfl

/-- The state `SetTextureUVScale` leaves when the shader manager is present. -/
theorem SetTextureUVScale_of_some (s : SceneManager F) (sm : ShaderManager F)
    (hsm : s.m_pShaderManager = some sm) (u v : F) :
    s.SetTextureUVScale u v =
      { s with
        m_pShaderManager := some
          (sm.setUniform "UVscale" (UniformValue.vec2Value { x := u, y := v })) } := by
  unfold SetTextureUVScale
  rw [hsm]
  rfl

/-- With a shader manager present `SetShaderMaterial` returns, and the state it
leaves differs from the old one at most in the three material uniforms. -/
theorem SetShaderMaterial_frame (s : SceneManager F) (sm : ShaderManager F)
    (hsm : s.m_pShaderManager = some sm) (tag : String) (material : OBJECT_MATERIAL F) :
    ∃ s2, s.SetShaderMaterial tag material = Except.ok s2 ∧
      ∀ name, name ≠ "material.diffuseColor" → name ≠ "material.specularColor" →
        name ≠ "material.shininess" → s2.uniform name = s.uniform name := by
  obtain ⟨b, found, hfind⟩ := FindMaterial_total s tag material
  cases b with
  | true =>
    refine ⟨_, SetShaderMaterial_of_true s sm hsm tag material found hfind, ?_⟩
    intro name h1 h2 h3
    rw [uniform_of_some _ _ rfl, uniform_of_some s sm hsm, uniforms_setUniform,
      uniforms_setUniform, uniforms_setUniform, if_neg h3, if_neg h2, if_neg h1]
  | false =>
    refine ⟨s, ?_, fun _ _ _ _ => rfl⟩
    unfold SetShaderMaterial
    split
    · rw [hfind]
      rfl
    · rfl

/-! ## The matrices of the math library -/

/-- About the X axis `glm::rotate` is the usual rotation matrix. -/
theorem rotate_about_x [Field F] (fm : FloatMath F) (angle : F) :
    glm.rotate fm angle { x := 1, y := 0, z := 0 } =
      !![1, 0, 0, 0;
         0, fm.cos angle, -fm.sin angle, 0;
         0, fm.sin angle, fm.cos angle, 0;
         0, 0, 0, 1] := by
  ext i j
  fin_cases i <;> fin_cases j <;> simp [glm.rotate]

/-- About the Y axis `glm::rotate` is the usual rotation matrix. -/
theorem rotate_about_y [Field F] (fm : FloatMath F) (angle : F) :
    glm.rotate fm angle { x := 0, y := 1, z := 0 } =
      !![fm.cos angle, 0, fm.sin angle, 0;
         0, 1, 0, 0;
         -fm.sin angle, 0, fm.cos angle, 0;
         0, 0, 0, 1] := by
  ext i j
  fin_cases i <;> fin_cases j <;> simp [glm.rotate]

/-- About the Z axis `glm::rotate` is the usual rotation matrix. -/
theorem rotate_about_z [Field F] (fm : FloatMath F) (angle : F) :
    glm.rotate fm angle { x := 0, y := 0, z := 1 } =
      !![fm.cos angle, -fm.sin angle, 0, 0;
         fm.sin angle, fm.cos angle, 0, 0;
         0, 0, 1, 0;
         0, 0, 0, 1] := by
  ext i j
  fin_cases i <;> fin_cases j <;> simp [glm.rotate]

/-- A rotation by zero degrees is the identity, when `cos 0 = 1` and `sin 0 = 0`. -/
theorem rotate_zero_degrees [Field F] (fm : FloatMath F) (hcos : fm.cos 0 = 1)
    (hsin : fm.sin 0 = 0) (v : vec3 F) :
    glm.rotate fm (glm.radians fm 0) v = 1 := by
  have hr : glm.radians fm 0 = 0 := by simp [glm.radians]
  rw [hr]
  ext i j
  fin_cases i <;> fin_cases j <;>
    simp [glm.rotate, hcos, hsin, Matrix.vecHead, Matrix.vecTail]

/-- A translation times a scaling, entry by entry. -/
theorem translate_mul_scale [Field F] (p sc : vec3 F) :
    glm.translate p * glm.scale sc =
      !![sc.x, 0, 0, p.x;
         0, sc.y, 0, p.y;
         0, 0, sc.z, p.z;
         0, 0, 0, 1] := by
  ext i j
  fin_cases i <;> fin_cases j <;>
    simp [glm.translate, glm.scale, Matrix.mul_apply, Fin.sum_univ_four, Matrix.vecHead,
      Matrix.vecTail]

/-- With all three angles zero the matrix stored in `model` is the translation
times the scaling. -/
theorem model_of_zero_rotation [Field F] (s : SceneManager F) (sm : ShaderManager F)
    (hsm : s.m_pShaderManager = some sm) (fm : FloatMath F) (hcos : fm.cos 0 = 1)
    (hsin : fm.sin 0 = 0) (sc p : vec3 F) :
    (s.SetTransformations fm sc 0 0 0 p).uniform "model" =
      some (UniformValue.mat4Value (glm.translate p * glm.scale sc)) := by
  rw [SetTransformations_of_some s sm hsm, uniform_of_some _ _ rfl, uniforms_setUniform,
    if_pos (show "model" = g_ModelName from rfl),
    rotate_zero_degrees fm hcos hsin, rotate_zero_degrees fm hcos hsin,
    rotate_zero_degrees fm hcos hsin, mul_one, mul_one, mul_one]

/-! ## Shape of the state a setter leaves -/

theorem with_shader_manager_self (s : SceneManager F) (sm : ShaderManager F)
    (hsm : s.m_pShaderManager = some sm) :
    { s with m_pShaderManager := some sm } = s := by
  cases s
  simp only at hsm
  subst hsm
  rfl

/-- With a shader manager present `SetShaderMaterial` returns a state that
differs from the old one in the shader manager only, and there at most in the
three material uniforms. -/
theorem SetShaderMaterial_shape (s : SceneManager F) (sm : ShaderManager F)
    (hsm : s.m_pShaderManager = some sm) (tag : String) (material : OBJECT_MATERIAL F) :
    ∃ sm2 : ShaderManager F,
      s.SetShaderMaterial tag material = Except.ok { s with m_pShaderManager := some sm2 } ∧
      ∀ name, name ≠ "material.diffuseColor" → name ≠ "material.specularColor" →
        name ≠ "material.shininess" → sm2.uniforms name = sm.uniforms name := by
  obtain ⟨b, found, hfind⟩ := FindMaterial_total s tag material
  cases b with
  | true =>
    refine ⟨_, SetShaderMaterial_of_true s sm hsm tag material found hfind, ?_⟩
    intro name h1 h2 h3
    rw [uniforms_setUniform, uniforms_setUniform, uniforms_setUniform, if_neg h3, if_neg h2,
      if_neg h1]
  | false =>
    refine ⟨sm, ?_, fun _ _ _ _ => rfl⟩
    rw [with_shader_manager_self s sm hsm]
    unfold SetShaderMaterial
    split
    · rw [hfind]
      rfl
    · rfl

/-- A hit with a shader manager present: the three material uniforms receive the
values of the first entry with the tag. -/
theorem SetShaderMaterial_of_first (s : SceneManager F) (sm : ShaderManager F)
    (hsm : s.m_pShaderManager = some sm) (tag : String) (material : OBJECT_MATERIAL F)
    (k : Nat) (m : OBJECT_MATERIAL F) (hk : s.m_objectMaterials[k]? = some m)
    (hm : m.tag = tag)
    (hfirst : ∀ (j : Nat) (m2 : OBJECT_MATERIAL F), j < k →
      s.m_objectMaterials[j]? = some m2 → m2.tag ≠ tag) :
    ∃ s2, s.SetShaderMaterial tag material = Except.ok s2 ∧
      s2.uniform "material.diffuseColor" = some (UniformValue.vec3Value m.diffuseColor) ∧
      s2.uniform "material.specularColor" = some (UniformValue.vec3Value m.specularColor) ∧
      s2.uniform "material.shininess" = some (UniformValue.floatValue m.shininess) := by
  refine ⟨_, SetShaderMaterial_of_true s sm hsm tag material _
    (FindMaterial_of_first s tag material k m hk hm hfirst), ?_, ?_, ?_⟩
  · rw [uniform_of_some _ _ rfl, uniforms_setUniform, uniforms_setUniform,
      uniforms_setUniform, if_neg (by decide), if_neg (by decide), if_pos rfl]
  · rw [uniform_of_some _ _ rfl, uniforms_setUniform, uniforms_setUniform,
      if_neg (by decide), if_pos rfl]
  · rw [uniform_of_some _ _ rfl, uniforms_setUniform, if_pos rfl]

/-! ## The call trace of `RenderScene` -/

/-- Which methods `RenderScene` calls, in which order, does not depend on the
type of the floats. -/
theorem RenderScene_kinds [Field F] :
    (RenderScene : List (RenderCall F)).map RenderCall.kind =
      (RenderScene : List (RenderCall ℚ)).map RenderCall.kind := by
  rfl

/-! ## The loads of `LoadSceneTextures` -/

theorem writeSlot_gl (s : SceneManager F) (i : Int) (e : TEXTURE_INFO) :
    (s.writeSlot i e).gl = s.gl := by
  unfold writeSlot
  split <;> rfl

/-- The calls one load adds to the stream select no texture unit. -/
theorem CreateGLTexture_gl (s : SceneManager F) (image : Option Image) (textureID : Nat)
    (tag : String) (u : Int) :
    GLCall.glActiveTexture u ∈ (s.CreateGLTexture image textureID tag).2.gl →
      GLCall.glActiveTexture u ∈ s.gl := by
  cases image with
  | none => simp [CreateGLTexture]
  | some img =>
    by_cases h3 : img.colorChannels = 3
    · simp [CreateGLTexture, CreateGLTexture.finish, h3, writeSlot_gl]
    · by_cases h4 : img.colorChannels = 4
      · simp [CreateGLTexture, CreateGLTexture.finish, h3, h4, writeSlot_gl]
      · simp [CreateGLTexture, h3, h4]

/-- One load with room in the table: the count grows by one exactly when the
call returns `true`, and nothing is written outside the table. -/
theorem CreateGLTexture_step (s : SceneManager F) (image : Option Image) (textureID : Nat)
    (tag : String) (h0 : 0 ≤ s.m_loadedTextures) (h1 : s.m_loadedTextures < 16) :
    (s.CreateGLTexture image textureID tag).2.m_loadedTextures =
      s.m_loadedTextures + (([(s.CreateGLTexture image textureID tag).1].count true : Nat) : Int) ∧
    (s.CreateGLTexture image textureID tag).2.overrun = s.overrun := by
  by_cases h : ∃ img, image = some img ∧ (img.colorChannels = 3 ∨ img.colorChannels = 4)
  · obtain ⟨a, b, _, d, _⟩ := CreateGLTexture_of_usable s image textureID tag h
    rw [a, b, d, (writeSlot_table_inside s _ _ h0 h1).2]
    exact ⟨rfl, rfl⟩
  · obtain ⟨a, b, _, d, _⟩ := CreateGLTexture_of_not_usable s image textureID tag h
    rw [a, b, d]
    exact ⟨by simp, rfl⟩

/-- A run of loads that fits into the table, whatever each load returns: the
count grows by the number of calls that returned `true`, no write leaves the
table and no call of the run selects a texture unit. -/
theorem runLoads_counts (calls : List LoadCall) :
    ∀ (s : SceneManager F), 0 ≤ s.m_loadedTextures →
      s.m_loadedTextures + calls.length ≤ 16 →
      (runLoads s calls).1.length = calls.length ∧
      (runLoads s calls).2.m_loadedTextures =
        s.m_loadedTextures + (((runLoads s calls).1.count true : Nat) : Int) ∧
      (runLoads s calls).2.overrun = s.overrun ∧
      (∀ u, GLCall.glActiveTexture u ∈ (runLoads s calls).2.gl →
        GLCall.glActiveTexture u ∈ s.gl) := by
  induction calls with
  | nil =>
    intro s _ _
    simp [runLoads]
  | cons c cs ih =>
    intro s h0 hcap
    simp only [List.length_cons, Nat.cast_add, Nat.cast_one] at hcap
    obtain ⟨a, b⟩ := CreateGLTexture_step s c.image c.textureID c.tag h0 (by omega)
    have hle : ([(s.CreateGLTexture c.image c.textureID c.tag).1].count true) ≤ 1 :=
      List.count_le_length _ _
    obtain ⟨i1, i2, i3, i4⟩ := ih (s.CreateGLTexture c.image c.textureID c.tag).2
      (by rw [a]; omega) (by rw [a]; omega)
    simp only [runLoads]
    refine ⟨by simp [i1], ?_, ?_, ?_⟩
    · rw [i2, a, List.count_cons]
      simp only [List.count_cons, List.count_nil, zero_add, Nat.cast_add]
      split <;> simp
      omega
    · rw [i3, b]
    · intro u hu
      exact CreateGLTexture_gl s c.image c.textureID c.tag u (i4 u hu)

/-- The method `BindGLTextures()` with the live count within the table: it
returns and adds one select-and-bind pair per live slot, in slot order. -/
theorem BindGLTextures_of_cap (s : SceneManager F) (hcap : s.m_loadedTextures ≤ 16) :
    s.BindGLTextures = Except.ok
      { s with gl := s.gl ++ bindCalls 0 (s.m_textureIDs.take s.m_loadedTextures.toNat) } := by
  have h := BindGLTextures_loop_eq s hcap s.m_loadedTextures.toNat 0 s.gl
    (by push_cast; omega)
  simp only [Nat.cast_zero, List.drop_zero, Nat.sub_zero] at h
  unfold BindGLTextures
  rw [h]

/-- What a load returns is decided by the decode result alone. -/
theorem CreateGLTexture_of_flag (s : SceneManager F) (b : Bool) (textureID : Nat)
    (tag : String) :
    (s.CreateGLTexture
      (if b = true then some { width := 1, height := 1, colorChannels := 3 } else none)
      textureID tag).1 = b := by
  cases b <;> rfl

/-- Every combination of return values of the nine loads occurs for some
behaviour of the codec. -/
theorem LoadSceneTextures_outcomes_cover (s : SceneManager F) (glGenTextures : Nat → Nat)
    (outcomes : List Bool) (h : outcomes.length = 9) :
    ∃ stbi_load : String → Option Image,
      (runLoads s (LoadSceneTextures.loads stbi_load glGenTextures)).1 = outcomes := by
  match outcomes, h with
  | [b0, b1, b2, b3, b4, b5, b6, b7, b8], _ =>
    refine ⟨fun filename =>
      if (if filename = "textures/rusticwood.jpg" then b0
        else if filename = "textures/cheese_wheel.jpg" then b1
        else if filename = "textures/cheese_top.jpg" then b2
        else if filename = "textures/breadcrust.jpg" then b3
        else if filename = "textures/backdrop.jpg" then b4
        else if filename = "textures/knife_handle.jpg" then b5
        else if filename = "textures/stainless.jpg" then b6
        else if filename = "textures/cheddar.jpg" then b7
        else b8) = true
      then some { width := 1, height := 1, colorChannels := 3 } else none, ?_⟩
    simp only [LoadSceneTextures.loads, runLoads]
    simp only [CreateGLTexture_of_flag]
    simp

/-! ## Scene preparation and the render calls -/

theorem writeSlot_shader_manager (s : SceneManager F) (i : Int) (e : TEXTURE_INFO) :
    (s.writeSlot i e).m_pShaderManager = s.m_pShaderManager := by
  unfold writeSlot
  split <;> rfl

/-- A load touches neither the shader manager pointer nor the materials. -/
theorem CreateGLTexture_keeps (s : SceneManager F) (image : Option Image) (textureID : Nat)
    (tag : String) :
    (s.CreateGLTexture image textureID tag).2.m_pShaderManager = s.m_pShaderManager ∧
    (s.CreateGLTexture image textureID tag).2.m_objectMaterials = s.m_objectMaterials := by
  cases image with
  | none => simp [CreateGLTexture]
  | some img =>
    by_cases h3 : img.colorChannels = 3
    · simp [CreateGLTexture, CreateGLTexture.finish, h3, writeSlot_shader_manager,
        writeSlot_materials]
    · by_cases h4 : img.colorChannels = 4
      · simp [CreateGLTexture, CreateGLTexture.finish, h3, h4, writeSlot_shader_manager,
          writeSlot_materials]
      · simp [CreateGLTexture, h3, h4]

theorem runLoads_keeps (calls : List LoadCall) :
    ∀ (s : SceneManager F),
      (runLoads s calls).2.m_pShaderManager = s.m_pShaderManager ∧
      (runLoads s calls).2.m_objectMaterials = s.m_objectMaterials := by
  induction calls with
  | nil =>
    intro s
    exact ⟨rfl, rfl⟩
  | cons c cs ih =>
    intro s
    obtain ⟨a, b⟩ := CreateGLTexture_keeps s c.image c.textureID c.tag
    obtain ⟨i1, i2⟩ := ih (s.CreateGLTexture c.image c.textureID c.tag).2
    simp only [runLoads]
    exact ⟨i1.trans a, i2.trans b⟩

/-- After loads with pairwise distinct tags that all decode to 3 or 4 channels,
made from an empty registry, any state with the resulting count and table finds
the tag of the `k`-th load in slot `k`. -/
theorem FindTextureSlot_of_loads (calls : List LoadCall) (s0 : SceneManager F)
    (hfresh : s0.m_loadedTextures = 0) (hlen : calls.length ≤ 16)
    (hok : ∀ c ∈ calls, ∃ img, c.image = some img ∧
      (img.colorChannels = 3 ∨ img.colorChannels = 4))
    (hdistinct : (calls.map LoadCall.tag).Nodup)
    (t : SceneManager F)
    (hn : t.m_loadedTextures = (runLoads s0 calls).2.m_loadedTextures)
    (ht : t.m_textureIDs = (runLoads s0 calls).2.m_textureIDs)
    (k : Nat) (hk : k < calls.length) :
    t.FindTextureSlot calls[k].tag = Except.ok (k : Int) := by
  rw [FindTextureSlot_congr _ t _ hn ht]
  obtain ⟨_, h2, _, h4⟩ := runLoads_of_usable calls s0
    (by rw [hfresh]) (by rw [hfresh]; omega) hok
  rw [hfresh] at h2 h4
  simp only [zero_add] at h2 h4
  apply FindTextureSlot_eq_of_first
  · omega
  · rw [h2]
    omega
  · exact ⟨_, h4 k hk, rfl⟩
  · intro j hj0 hjk
    have hjlt : j.toNat < calls.length := by omega
    have hj := h4 j.toNat hjlt
    rw [Int.toNat_of_nonneg hj0] at hj
    refine ⟨_, hj, ?_⟩
    intro heq
    have hj2 : j.toNat < (calls.map LoadCall.tag).length := by simpa using hjlt
    have hk2 : k < (calls.map LoadCall.tag).length := by simpa using hk
    have hinj := (@List.Nodup.getElem_inj_iff _ _ hdistinct _ hj2 _ hk2).mp
      (by simpa using heq)
    omega

/-- With a shader manager present `SetupSceneLights` returns and changes the
shader manager only. -/
theorem SetupSceneLights_of_some [Field F] (s : SceneManager F) (sm : ShaderManager F)
    (hsm : s.m_pShaderManager = some sm) (fm : FloatMath F) :
    ∃ sm2 : ShaderManager F,
      s.SetupSceneLights fm = Except.ok { s with m_pShaderManager := some sm2 } := by
  unfold SetupSceneLights
  rw [hsm]
  exact ⟨_, rfl⟩

/-- From a fresh `SceneManager` with a shader manager, `PrepareScene` returns
whatever the codec answers; the texture registry it leaves is that of the nine
loads and the material registry that of `DefineObjectMaterials`. -/
theorem PrepareScene_of_fresh [Field F] (sm : ShaderManager F) (fm : FloatMath F)
    (stbi_load : String → Option Image) (glGenTextures : Nat → Nat) :
    ∃ (s1 : SceneManager F) (sm1 : ShaderManager F),
      (construct (some sm)).PrepareScene fm stbi_load glGenTextures = Except.ok s1 ∧
      s1.m_pShaderManager = some sm1 ∧
      s1.m_loadedTextures = (runLoads (construct (some sm))
        (LoadSceneTextures.loads stbi_load glGenTextures)).2.m_loadedTextures ∧
      s1.m_textureIDs = (runLoads (construct (some sm))
        (LoadSceneTextures.loads stbi_load glGenTextures)).2.m_textureIDs ∧
      s1.m_objectMaterials =
        (DefineObjectMaterials (construct (some sm))).m_objectMaterials := by
  obtain ⟨h1, h2, _, _⟩ := runLoads_counts (LoadSceneTextures.loads stbi_load glGenTextures)
    (construct (some sm)) (le_refl _)
    (show (0 : Int) + ((9 : Nat) : Int) ≤ 16 by decide)
  have hlen : (LoadSceneTextures.loads stbi_load glGenTextures).length = 9 := rfl
  rw [hlen] at h1
  have hcount : (runLoads (construct (some sm))
      (LoadSceneTextures.loads stbi_load glGenTextures)).1.count true ≤ 9 := by
    rw [← h1]
    exact List.count_le_length _ _
  have hzero : (construct (some sm)).m_loadedTextures = 0 := rfl
  rw [hzero, zero_add] at h2
  have hcap : (runLoads (construct (some sm))
      (LoadSceneTextures.loads stbi_load glGenTextures)).2.m_loadedTextures ≤ 16 := by
    rw [h2]
    omega
  obtain ⟨k1, k2⟩ := runLoads_keeps (LoadSceneTextures.loads stbi_load glGenTextures)
    (construct (some sm))
  have hbind := BindGLTextures_of_cap _ hcap
  obtain ⟨sm1, hlights⟩ := SetupSceneLights_of_some
    (DefineObjectMaterials
      { (runLoads (construct (some sm))
          (LoadSceneTextures.loads stbi_load glGenTextures)).2 with
        gl := (runLoads (construct (some sm))
            (LoadSceneTextures.loads stbi_load glGenTextures)).2.gl ++
          bindCalls 0 ((runLoads (construct (some sm))
            (LoadSceneTextures.loads stbi_load glGenTextures)).2.m_textureIDs.take
              (runLoads (construct (some sm))
                (LoadSceneTextures.loads stbi_load glGenTextures)).2.m_loadedTextures.toNat) })
    sm k1 fm
  refine ⟨?_, sm1, ?_, ?_, ?_, ?_, ?_⟩
  rotate_left
  · unfold PrepareScene LoadSceneTextures
    rw [hbind]
    exact hlights
  · rfl
  · rfl
  · rfl
  · show (runLoads (construct (some sm))
      (LoadSceneTextures.loads stbi_load glGenTextures)).2.m_objectMaterials ++ _ = _
    rw [k2]
    rfl

/-- One call of a render method, with a shader manager present and the live
count within the table: it returns, the shader manager stays present and the
registries stay as they were. -/
theorem perform_keeps [Field F] (fm : FloatMath F) (material : OBJECT_MATERIAL F)
    (s : SceneManager F) (sm : ShaderManager F) (hsm : s.m_pShaderManager = some sm)
    (hcap : s.m_loadedTextures ≤ 16) (c : RenderCall F) :
    ∃ (s2 : SceneManager F) (sm2 : ShaderManager F),
      perform fm material s c = Except.ok s2 ∧ s2.m_pShaderManager = some sm2 ∧
      s.sameRegistry s2 := by
  cases c with
  | SetTransformations scaleXYZ x y z positionXYZ =>
    simp only [perform]
    rw [SetTransformations_of_some s sm hsm]
    exact ⟨_, _, rfl, rfl, ⟨rfl, rfl, rfl⟩⟩
  | SetShaderColor r g b a =>
    simp only [perform]
    rw [SetShaderColor_of_some s sm hsm]
    exact ⟨_, _, rfl, rfl, ⟨rfl, rfl, rfl⟩⟩
  | SetShaderTexture textureTag =>
    obtain ⟨i, hi⟩ := FindTextureSlot_total s textureTag hcap
    simp only [perform]
    rw [SetShaderTexture_of_some s sm hsm textureTag i hi]
    exact ⟨_, _, rfl, rfl, ⟨rfl, rfl, rfl⟩⟩
  | SetTextureUVScale u v =>
    simp only [perform]
    rw [SetTextureUVScale_of_some s sm hsm]
    exact ⟨_, _, rfl, rfl, ⟨rfl, rfl, rfl⟩⟩
  | SetShaderMaterial materialTag =>
    obtain ⟨sm2, h1, _⟩ := SetShaderMaterial_shape s sm hsm materialTag material
    simp only [perform]
    rw [h1]
    exact ⟨_, _, rfl, rfl, ⟨rfl, rfl, rfl⟩⟩
  | draw mesh arguments =>
    exact ⟨s, sm, rfl, hsm, ⟨rfl, rfl, rfl⟩⟩

/-- A sequence of calls of a render method under the same conditions. -/
theorem performAll_keeps [Field F] (fm : FloatMath F) (material : OBJECT_MATERIAL F)
    (calls : List (RenderCall F)) :
    ∀ (s : SceneManager F) (sm : ShaderManager F), s.m_pShaderManager = some sm →
      s.m_loadedTextures ≤ 16 →
      ∃ (s2 : SceneManager F) (sm2 : ShaderManager F),
        performAll fm material s calls = Except.ok s2 ∧ s2.m_pShaderManager = some sm2 ∧
        s.sameRegistry s2 := by
  induction calls with
  | nil =>
    intro s sm hsm _
    exact ⟨s, sm, rfl, hsm, ⟨rfl, rfl, rfl⟩⟩
  | cons c cs ih =>
    intro s sm hsm hcap
    obtain ⟨s1, sm1, h1, h2, h3, h4, h5⟩ := perform_keeps fm material s sm hsm hcap c
    obtain ⟨s2, sm2, i1, i2, i3, i4, i5⟩ := ih s1 sm1 h2 (by rw [h3]; exact hcap)
    refine ⟨s2, sm2, ?_, i2, ⟨i3.trans h3, i4.trans h4, i5.trans h5⟩⟩
    simp only [performAll, h1]
    exact i1

/-- The tags `RenderScene` passes to `SetShaderTexture`, in call order. -/
theorem RenderScene_textureTags [Field F] :
    (RenderScene : List (RenderCall F)).filterMap RenderCall.textureTag? =
      ["table", "backdrop", "cheese_wheel_side", "cheese_wheel_top", "breadcrust",
        "breadcrust", "knifehandle", "stainless", "cheddar", "knifescrew"] := by
  rfl

/-- The tags `RenderScene` passes to `SetShaderMaterial`, in call order. -/
theorem RenderScene_materialTags [Field F] :
    (RenderScene : List (RenderCall F)).filterMap RenderCall.materialTag? =
      ["wood", "backdrop", "cheese", "bread", "darkbread",
        "glass", "glass", "glass", "glass", "glass", "glass", "glass",
        "grape", "grape", "grape", "grape", "grape", "grape", "grape", "grape", "grape",
        "grape", "plate", "plate", "wood", "metal", "cheese", "metal"] := by
  rfl

theorem textureTag_mem_of_split (calls before later : List (RenderCall F)) (tag : String)
    (h : calls = before ++ RenderCall.SetShaderTexture tag :: later) :
    tag ∈ calls.filterMap RenderCall.textureTag? := by
  subst h
  simp [List.filterMap_append, RenderCall.textureTag?]

theorem materialTag_mem_of_split (calls before later : List (RenderCall F)) (tag : String)
    (h : calls = before ++ RenderCall.SetShaderMaterial tag :: later) :
    tag ∈ calls.filterMap RenderCall.materialTag? := by
  subst h
  simp [List.filterMap_append, RenderCall.materialTag?]

/-! ## Teardown and the `NULL` shader manager -/

/-- On a non-empty registry `FindMaterial` returns `true`, hit or miss. -/
theorem FindMaterial_of_nonempty (s : SceneManager F) (tag : String)
    (material : OBJECT_MATERIAL F) (hne : s.m_objectMaterials ≠ []) :
    ∃ found, s.FindMaterial tag material = Except.ok (true, found) := by
  by_cases hex : ∃ m ∈ s.m_objectMaterials, m.tag = tag
  · obtain ⟨k, m, hk, hm, hfirst⟩ := exists_first_tag tag s.m_objectMaterials hex
    exact ⟨_, FindMaterial_of_first s tag material k m hk hm hfirst⟩
  · exact ⟨material, FindMaterial_of_miss s tag material hne
      (fun m hm hmt => hex ⟨m, hm, hmt⟩)⟩

/-- With a `NULL` shader manager and a non-empty material registry
`SetShaderMaterial` reaches the call through the pointer. -/
theorem SetShaderMaterial_of_null (s : SceneManager F) (hnull : s.m_pShaderManager = none)
    (hne : s.m_objectMaterials ≠ []) (tag : String) (material : OBJECT_MATERIAL F) :
    s.SetShaderMaterial tag material = Except.error Fault.nullPointer := by
  obtain ⟨found, hfind⟩ := FindMaterial_of_nonempty s tag material hne
  unfold SetShaderMaterial
  rw [if_pos (List.length_pos.mpr hne), hfind]
  simp only [if_true]
  rw [hnull]

/-- The tags two states read in a slot agree when their tables carry the same tags. -/
theorem slot?_tag_of_tags_eq (s t : SceneManager F)
    (h : t.m_textureIDs.map TEXTURE_INFO.tag = s.m_textureIDs.map TEXTURE_INFO.tag) (j : Int) :
    (t.slot? j).map TEXTURE_INFO.tag = (s.slot? j).map TEXTURE_INFO.tag := by
  unfold slot?
  split
  · rw [← List.getElem?_map, ← List.getElem?_map, h]
  · rfl

/-- The scan of `FindTextureSlot` looks at the live count and the tags only. -/
theorem FindTextureSlot_loop_congr_tags (s t : SceneManager F) (tag : String)
    (hn : t.m_loadedTextures = s.m_loadedTextures)
    (ht : t.m_textureIDs.map TEXTURE_INFO.tag = s.m_textureIDs.map TEXTURE_INFO.tag) :
    ∀ (fuel : Nat) (index : Int) (b : Bool) (slot : Int),
      FindTextureSlot.loop t tag fuel index b slot = FindTextureSlot.loop s tag fuel index b slot := by
  intro fuel
  induction fuel with
  | zero =>
    intro index b slot
    simp only [FindTextureSlot.loop, hn]
  | succ fuel ih =>
    intro index b slot
    have htag := slot?_tag_of_tags_eq s t ht index
    simp only [FindTextureSlot.loop, hn, ih]
    split
    · cases hs : s.slot? index with
      | none =>
        cases htt : t.slot? index with
        | none => rfl
        | some e2 =>
          rw [hs, htt] at htag
          cases htag
      | some e =>
        cases htt : t.slot? index with
        | none =>
          rw [hs, htt] at htag
          cases htag
        | some e2 =>
          rw [hs, htt] at htag
          have he : e2.tag = e.tag := Option.some.inj htag
          simp only [he]
    · rfl

theorem FindTextureSlot_congr_tags (s t : SceneManager F) (tag : String)
    (hn : t.m_loadedTextures = s.m_loadedTextures)
    (ht : t.m_textureIDs.map TEXTURE_INFO.tag = s.m_textureIDs.map TEXTURE_INFO.tag) :
    t.FindTextureSlot tag = s.FindTextureSlot tag := by
  unfold FindTextureSlot
  rw [hn]
  exact FindTextureSlot_loop_congr_tags s t tag hn ht _ _ _ _

/-- The loop of `DestroyGLTextures` with the live count within the table: it
returns, keeps the count and every tag, and adds one `glGenTextures` call per
live slot to the stream. -/
theorem DestroyGLTextures_loop_keeps (glGenTextures : Int → Nat) :
    ∀ (fuel m : Nat) (s : SceneManager F), s.m_loadedTextures ≤ 16 →
      s.m_loadedTextures ≤ (m : Int) + fuel →
      ∃ s2, DestroyGLTextures.loop glGenTextures fuel (m : Int) s = Except.ok s2 ∧
        s2.m_loadedTextures = s.m_loadedTextures ∧
        s2.m_textureIDs.map TEXTURE_INFO.tag = s.m_textureIDs.map TEXTURE_INFO.tag ∧
        s2.gl = s.gl ++ (List.range' m (s.m_loadedTextures.toNat - m)).map
          (fun i : Nat => GLCall.glGenTextures (glGenTextures (i : Int))) := by
  intro fuel
  induction fuel with
  | zero =>
    intro m s _ hf
    have h0 : s.m_loadedTextures.toNat - m = 0 := by omega
    refine ⟨s, ?_, rfl, rfl, ?_⟩
    · simp only [DestroyGLTextures.loop]
      rw [if_neg]
      simp only [Nat.cast_zero, add_zero] at hf
      omega
    · rw [h0]
      simp
  | succ fuel ih =>
    intro m s hcap hf
    simp only [DestroyGLTextures.loop]
    split
    · rename_i hc
      have hm : m < 16 := by omega
      have hlt : m < s.m_textureIDs.length := by rw [s.table_size]; exact hm
      rw [slot?_natCast s m, List.getElem?_eq_getElem hlt]
      simp only
      have hin := writeSlot_table_inside s (m : Int)
        { s.m_textureIDs[m] with ID := glGenTextures (m : Int) } (by omega) (by omega)
      have hcount := writeSlot_count s (m : Int)
        { s.m_textureIDs[m] with ID := glGenTextures (m : Int) }
      have hgl := writeSlot_gl s (m : Int)
        { s.m_textureIDs[m] with ID := glGenTextures (m : Int) }
      obtain ⟨s2, h1, h2, h3, h4⟩ := ih (m + 1)
        { s.writeSlot (m : Int) { s.m_textureIDs[m] with ID := glGenTextures (m : Int) } with
          gl := (s.writeSlot (m : Int)
              { s.m_textureIDs[m] with ID := glGenTextures (m : Int) }).gl ++
            [GLCall.glGenTextures (glGenTextures (m : Int))] }
        (by show (s.writeSlot _ _).m_loadedTextures ≤ 16; rw [hcount]; exact hcap)
        (by show (s.writeSlot _ _).m_loadedTextures ≤ _; rw [hcount]; push_cast at hf ⊢; omega)
      simp only [Nat.cast_add, Nat.cast_one] at h1
      refine ⟨s2, h1, ?_, ?_, ?_⟩
      · rw [h2]
        exact hcount
      · rw [h3]
        show (s.writeSlot _ _).m_textureIDs.map TEXTURE_INFO.tag = _
        rw [hin.1]
        simp only [Int.toNat_ofNat]
        apply List.ext_getElem?
        intro j
        rw [List.getElem?_map, List.getElem?_map, List.getElem?_set]
        split
        · rename_i hj
          subst hj
          simp [hlt]
        · rfl
      · rw [h4]
        have hk : s.m_loadedTextures.toNat - m = (s.m_loadedTextures.toNat - (m + 1)) + 1 := by
          omega
        simp only [hgl, hcount, hk, List.range'_succ, List.map_cons, List.append_assoc,
          List.singleton_append]
    · rename_i hc
      have h0 : s.m_loadedTextures.toNat - m = 0 := by omega
      refine ⟨s, rfl, rfl, rfl, ?_⟩
      rw [h0]
      simp

/-- The method `DestroyGLTextures()` with the live count within the table. -/
theorem DestroyGLTextures_keeps (s : SceneManager F) (glGenTextures : Int → Nat)
    (hcap : s.m_loadedTextures ≤ 16) :
    ∃ s2, s.DestroyGLTextures glGenTextures = Except.ok s2 ∧
      s2.m_loadedTextures = s.m_loadedTextures ∧
      s2.m_textureIDs.map TEXTURE_INFO.tag = s.m_textureIDs.map TEXTURE_INFO.tag ∧
      s2.gl = s.gl ++ (List.range s.m_loadedTextures.toNat).map
        (fun i : Nat => GLCall.glGenTextures (glGenTextures (i : Int))) := by
  have h := DestroyGLTextures_loop_keeps glGenTextures s.m_loadedTextures.toNat 0 s hcap
    (by push_cast; omega)
  simp only [Nat.cast_zero, Nat.sub_zero] at h
  rw [List.range_eq_range']
  exact h

/-! ## The transform code in the arithmetic of `float` -/

/-- Without rounding the product of `glm::mat4` is the matrix product. -/
theorem mul_exact [Field F] (fm : FloatMath F) (a b : mat4 F) :
    glm.rounded.mul (FloatArith.exact fm) a b = a * b := by
  ext i j
  simp [glm.rounded.mul, FloatArith.exact, Matrix.mul_apply, Fin.sum_univ_four]

/-- Without rounding `glm::rotate` has the entries of the exact model. -/
theorem rotate_exact [Field F] (fm : FloatMath F) (angle : F) (v : vec3 F) :
    glm.rounded.rotate (FloatArith.exact fm) angle v = glm.rotate fm angle v := by
  rfl

/-- Without rounding the method `SetTransformations` is the exact model. -/
theorem SetTransformations_rounded_exact [Field F] (s : SceneManager F) (fm : FloatMath F)
    (scaleXYZ : vec3 F) (x y z : F) (positionXYZ : vec3 F) :
    rounded.SetTransformations s (FloatArith.exact fm) scaleXYZ x y z positionXYZ =
      s.SetTransformations fm scaleXYZ x y z positionXYZ := by
  unfold rounded.SetTransformations SetTransformations
  simp only [mul_exact, rotate_exact]
  rfl

/-- The state `SetTransformations` leaves in the arithmetic `fa` when the shader
manager is present. -/
theorem SetTransformations_rounded_of_some [Field F] (s : SceneManager F)
    (sm : ShaderManager F) (hsm : s.m_pShaderManager = some sm) (fa : FloatArith F)
    (scaleXYZ : vec3 F) (x y z : F) (positionXYZ : vec3 F) :
    rounded.SetTransformations s fa scaleXYZ x y z positionXYZ =
      { s with
        m_pShaderManager := some
          (sm.setUniform g_ModelName (UniformValue.mat4Value
            (glm.rounded.mul fa
              (glm.rounded.mul fa
                (glm.rounded.mul fa
                  (glm.rounded.mul fa (glm.translate positionXYZ)
                    (glm.rounded.rotate fa (glm.rounded.radians fa z) { x := 0, y := 0, z := 1 }))
                  (glm.rounded.rotate fa (glm.rounded.radians fa y) { x := 0, y := 1, z := 0 }))
                (glm.rounded.rotate fa (glm.rounded.radians fa x) { x := 1, y := 0, z := 0 }))
              (glm.scale scaleXYZ)))) } := by
  unfold rounded.SetTransformations
  rw [hsm]
  rfl

/-- Without rounding the value stored under `model` is the matrix product
`T * Rz * Ry * Rx * S` of the translation, the three rotation matrices and the
scaling. -/
theorem SetTransformations_exact_product [Field F] (s : SceneManager F)
    (sm : ShaderManager F) (hsm : s.m_pShaderManager = some sm) (fm : FloatMath F)
    (scaleXYZ : vec3 F) (x y z : F) (positionXYZ : vec3 F) :
    (s.SetTransformations fm scaleXYZ x y z positionXYZ).uniform "model" =
      some (UniformValue.mat4Value
        (!![1, 0, 0, positionXYZ.x;
            0, 1, 0, positionXYZ.y;
            0, 0, 1, positionXYZ.z;
            0, 0, 0, 1] *
         !![fm.cos (z * (fm.pi / 180)), -fm.sin (z * (fm.pi / 180)), 0, 0;
            fm.sin (z * (fm.pi / 180)), fm.cos (z * (fm.pi / 180)), 0, 0;
            0, 0, 1, 0;
            0, 0, 0, 1] *
         !![fm.cos (y * (fm.pi / 180)), 0, fm.sin (y * (fm.pi / 180)), 0;
            0, 1, 0, 0;
            -fm.sin (y * (fm.pi / 180)), 0, fm.cos (y * (fm.pi / 180)), 0;
            0, 0, 0, 1] *
         !![1, 0, 0, 0;
            0, fm.cos (x * (fm.pi / 180)), -fm.sin (x * (fm.pi / 180)), 0;
            0, fm.sin (x * (fm.pi / 180)), fm.cos (x * (fm.pi / 180)), 0;
            0, 0, 0, 1] *
         !![scaleXYZ.x, 0, 0, 0;
            0, scaleXYZ.y, 0, 0;
            0, 0, scaleXYZ.z, 0;
            0, 0, 0, 1])) := by
  rw [SetTransformations_of_some s sm hsm, uniform_of_some _ _ rfl, uniforms_setUniform,
    if_pos (show "model" = g_ModelName from rfl), rotate_about_x, rotate_about_y,
    rotate_about_z]
  rfl

/-! ## Claims -/

/-- C1: with the live count within the 16-entry table, `FindTextureSlot(tag)`
returns a value, and that value is either the least index `i` with
`0 <= i < m_loadedTextures` whose slot has the tag, or `-1` when no live slot has
it; in particular a slot at an index `>= m_loadedTextures` is never returned. -/
theorem FindTextureSlot_least_live_match (s : SceneManager F) (tag : String)
    (hcap : s.m_loadedTextures ≤ 16) :
    ∃ r, s.FindTextureSlot tag = Except.ok r ∧
      ((r = -1 ∧ ∀ j e, 0 ≤ j → j < s.m_loadedTextures → s.slot? j = some e → e.tag ≠ tag) ∨
       (0 ≤ r ∧ r < s.m_loadedTextures ∧ (∃ e, s.slot? r = some e ∧ e.tag = tag) ∧
          ∀ j e, 0 ≤ j → j < r → s.slot? j = some e → e.tag ≠ tag)) := by
  obtain ⟨r, hr⟩ := FindTextureSlot_loop_total s tag hcap s.m_loadedTextures.toNat 0 (-1)
    (le_refl _) (by omega)
  refine ⟨r, hr, ?_⟩
  rcases FindTextureSlot_loop_sound s tag _ _ _ _ hr with ⟨h1, h2⟩ | ⟨h1, h2, h3, h4⟩
  · left
    refine ⟨h1, ?_⟩
    intro j e hj1 hj2 he
    obtain ⟨e2, he2, ht⟩ := h2 j hj1 hj2
    rw [he] at he2
    cases he2
    exact ht
  · right
    refine ⟨h1, h2, h3, ?_⟩
    intro j e hj1 hj2 he
    obtain ⟨e2, he2, ht⟩ := h4 j hj1 hj2
    rw [he] at he2
    cases he2
    exact ht

/-- Witness for C1 on a state with two live slots: the query `"backdrop"`
resolves, and the hypothesis of the theorem holds there. -/
theorem FindTextureSlot_least_live_match_witness :
    exampleScene.m_loadedTextures ≤ 16 ∧
    ∃ r, exampleScene.FindTextureSlot "backdrop" = Except.ok r ∧
      ((r = -1 ∧ ∀ j e, 0 ≤ j → j < exampleScene.m_loadedTextures →
          exampleScene.slot? j = some e → e.tag ≠ "backdrop") ∨
       (0 ≤ r ∧ r < exampleScene.m_loadedTextures ∧
          (∃ e, exampleScene.slot? r = some e ∧ e.tag = "backdrop") ∧
          ∀ j e, 0 ≤ j → j < r → exampleScene.slot? j = some e → e.tag ≠ "backdrop")) :=
  ⟨by decide, FindTextureSlot_least_live_match exampleScene "backdrop" (by decide)⟩

/-- C2: on a freshly constructed `SceneManager`, a sequence of at most 16
`CreateGLTexture` calls that all decode to 3 or 4 channels and carry pairwise
distinct tags returns `true` every time, and afterwards `FindTextureSlot` of the
tag of the `k`-th call (0-based) is `k`. -/
theorem FindTextureSlot_after_distinct_loads (calls : List LoadCall)
    (hlen : calls.length ≤ 16)
    (hok : ∀ c ∈ calls, ∃ img, c.image = some img ∧
      (img.colorChannels = 3 ∨ img.colorChannels = 4))
    (hdistinct : (calls.map LoadCall.tag).Nodup)
    (pShaderManager : Option (ShaderManager F)) :
    (runLoads (construct pShaderManager) calls).1 = List.replicate calls.length true ∧
    ∀ k (hk : k < calls.length),
      (runLoads (construct pShaderManager) calls).2.FindTextureSlot calls[k].tag =
        Except.ok (k : Int) := by
  have hcount : (construct pShaderManager).m_loadedTextures = 0 := rfl
  obtain ⟨h1, h2, _, h4⟩ := runLoads_of_usable calls (construct pShaderManager)
    (by rw [hcount]) (by rw [hcount]; omega) hok
  rw [hcount] at h2 h4
  simp only [zero_add] at h2 h4
  refine ⟨h1, ?_⟩
  intro k hk
  apply FindTextureSlot_eq_of_first
  · omega
  · rw [h2]
    omega
  · exact ⟨_, h4 k hk, rfl⟩
  · intro j hj0 hjk
    have hjlt : j.toNat < calls.length := by omega
    have hj := h4 j.toNat hjlt
    rw [Int.toNat_of_nonneg hj0] at hj
    refine ⟨_, hj, ?_⟩
    intro heq
    have hj2 : j.toNat < (calls.map LoadCall.tag).length := by simpa using hjlt
    have hk2 : k < (calls.map LoadCall.tag).length := by simpa using hk
    have hinj := (@List.Nodup.getElem_inj_iff _ _ hdistinct _ hj2 _ hk2).mp
      (by simpa using heq)
    omega

/-- Witness for C2 on two loads tagged `"table"` and `"backdrop"`. -/
theorem FindTextureSlot_after_distinct_loads_witness :
    exampleLoads.length ≤ 16 ∧
    (exampleLoads.map LoadCall.tag).Nodup ∧
    (runLoads (construct none : SceneManager ℚ) exampleLoads).1 = [true, true] ∧
    (runLoads (construct none : SceneManager ℚ) exampleLoads).2.FindTextureSlot "backdrop" =
      Except.ok 1 :=
  have h := FindTextureSlot_after_distinct_loads (F := ℚ) exampleLoads (by decide)
    (by
      intro c hc
      simp only [exampleLoads, List.mem_cons, List.mem_singleton, List.not_mem_nil,
        or_false] at hc
      rcases hc with rfl | rfl
      · exact ⟨exampleRGB, rfl, Or.inl rfl⟩
      · exact ⟨exampleRGBA, rfl, Or.inr rfl⟩)
    (by decide) none
  ⟨by decide, by decide, h.1, h.2 1 (by decide)⟩

/-- C3: with the live count within the table, `BindGLTextures` returns after
appending calls that make exactly `m_loadedTextures` bindings, the `k`-th of
them (in order, `k = 0 .. m_loadedTextures - 1`) binding the ID of slot `k` to
texture unit `k`; hence, whatever the context state `g` before, the name bound to
unit `FindTextureSlot(tag)` afterwards is the ID stored in that slot. -/
theorem BindGLTextures_binds_slot_to_unit (s : SceneManager F)
    (hcap : s.m_loadedTextures ≤ 16) :
    ∃ calls, s.BindGLTextures = Except.ok { s with gl := s.gl ++ calls } ∧
      (∀ active : Int,
        (unitBindings active calls).length = s.m_loadedTextures.toNat ∧
        ∀ k : Nat, (k : Int) < s.m_loadedTextures →
          ∃ e, s.slot? (k : Int) = some e ∧
            (unitBindings active calls)[k]? = some ((k : Int), e.ID)) ∧
      (∀ (tag : String) (i : Int), s.FindTextureSlot tag = Except.ok i → 0 ≤ i →
        ∃ e, s.slot? i = some e ∧ ∀ g : GLState, (g.run calls).texture2D i = e.ID) := by
  refine ⟨bindCalls 0 (s.m_textureIDs.take s.m_loadedTextures.toNat), ?_, ?_, ?_⟩
  · have h := BindGLTextures_loop_eq s hcap s.m_loadedTextures.toNat 0 s.gl
      (by push_cast; omega)
    simp only [Nat.cast_zero, List.drop_zero, Nat.sub_zero] at h
    unfold BindGLTextures
    rw [h]
  · intro active
    obtain ⟨h1, h2⟩ := unitBindings_bindCalls
      (s.m_textureIDs.take s.m_loadedTextures.toNat) 0 active
    refine ⟨?_, ?_⟩
    · rw [h1, List.length_take, s.table_size]
      omega
    · intro k hk
      have hk16 : k < 16 := by omega
      have hlt : k < s.m_textureIDs.length := by rw [s.table_size]; exact hk16
      refine ⟨s.m_textureIDs[k], ?_, ?_⟩
      · rw [slot?_natCast, List.getElem?_eq_getElem hlt]
      · rw [h2 k, List.getElem?_take_of_lt (by omega), List.getElem?_eq_getElem hlt]
        simp
  · intro tag i hi h0
    obtain ⟨hlt, ⟨e, he, _⟩, _⟩ := first_of_FindTextureSlot_eq s tag i hi h0
    refine ⟨e, he, ?_⟩
    intro g
    have hcast : i = ((i.toNat : Nat) : Int) := (Int.toNat_of_nonneg h0).symm
    have hk : (s.m_textureIDs.take s.m_loadedTextures.toNat)[i.toNat]? = some e := by
      rw [List.getElem?_take_of_lt (by omega)]
      rw [hcast, slot?_natCast] at he
      exact he
    have := run_bindCalls_at _ 0 g i.toNat e hk
    rw [zero_add, ← hcast] at this
    exact this

/-- Witness for C3 on a state with two live slots: the second binding made is
of ID 2 to unit 1, and unit 1 ends up holding the ID of `"backdrop"`. -/
theorem BindGLTextures_binds_slot_to_unit_witness :
    exampleScene.m_loadedTextures ≤ 16 ∧
    ∃ calls, exampleScene.BindGLTextures =
        Except.ok { exampleScene with gl := exampleScene.gl ++ calls } ∧
      (∀ active : Int,
        (unitBindings active calls).length = exampleScene.m_loadedTextures.toNat ∧
        ∀ k : Nat, (k : Int) < exampleScene.m_loadedTextures →
          ∃ e, exampleScene.slot? (k : Int) = some e ∧
            (unitBindings active calls)[k]? = some ((k : Int), e.ID)) ∧
      (∀ (tag : String) (i : Int), exampleScene.FindTextureSlot tag = Except.ok i → 0 ≤ i →
        ∃ e, exampleScene.slot? i = some e ∧
          ∀ g : GLState, (g.run calls).texture2D i = e.ID) :=
  ⟨by decide, BindGLTextures_binds_slot_to_unit exampleScene (by decide)⟩

/-- C4: for a registry with fewer than 16 live slots, `CreateGLTexture` returns
`true` exactly when the codec decoded the file and reported 3 or 4 channels; it
returns `false` when decoding failed and when the channel count is anything else. -/
theorem CreateGLTexture_true_iff_three_or_four_channels (s : SceneManager F)
    (image : Option Image) (textureID : Nat) (tag : String)
    (_hroom : s.m_loadedTextures < 16) :
    ((s.CreateGLTexture image textureID tag).1 = true ↔
      ∃ img, image = some img ∧ (img.colorChannels = 3 ∨ img.colorChannels = 4)) ∧
    (image = none → (s.CreateGLTexture image textureID tag).1 = false) ∧
    (∀ img, image = some img → img.colorChannels ≠ 3 → img.colorChannels ≠ 4 →
      (s.CreateGLTexture image textureID tag).1 = false) := by
  refine ⟨?_, ?_, ?_⟩
  · constructor
    · intro h
      by_contra hn
      rw [(CreateGLTexture_of_not_usable s image textureID tag hn).1] at h
      cases h
    · intro h
      exact (CreateGLTexture_of_usable s image textureID tag h).1
  · intro hnone
    apply (CreateGLTexture_of_not_usable s image textureID tag _).1
    rintro ⟨img, himg, _⟩
    rw [hnone] at himg
    cases himg
  · intro img himg h3 h4
    apply (CreateGLTexture_of_not_usable s image textureID tag _).1
    rintro ⟨img2, himg2, hc⟩
    rw [himg] at himg2
    cases himg2
    rcases hc with hc | hc
    · exact h3 hc
    · exact h4 hc

/-- Witness for C4 on the fresh registry: an RGB image loads, and the theorem
applies at a one-channel image, which is refused. -/
theorem CreateGLTexture_true_iff_three_or_four_channels_witness :
    (construct none : SceneManager ℚ).m_loadedTextures < 16 ∧
    ((construct none : SceneManager ℚ).CreateGLTexture (some exampleRGB) 1 "table").1 = true ∧
    ((construct none : SceneManager ℚ).CreateGLTexture (some exampleGray) 1 "table").1 = false ∧
    ((construct none : SceneManager ℚ).CreateGLTexture none 1 "table").1 = false :=
  ⟨by decide,
   (CreateGLTexture_true_iff_three_or_four_channels (construct none) (some exampleRGB) 1 "table"
      (by decide)).1.mpr ⟨exampleRGB, rfl, Or.inl rfl⟩,
   (CreateGLTexture_true_iff_three_or_four_channels (construct none) (some exampleGray) 1 "table"
      (by decide)).2.2 exampleGray rfl (by decide) (by decide),
   (CreateGLTexture_true_iff_three_or_four_channels (construct none) none 1 "table"
      (by decide)).2.1 rfl⟩

/-- C5: registry postcondition of `CreateGLTexture` with `n < 16` live slots.
When it returns `true`, the table is the old one with slot `n` set to
`{tag, textureID}`, so slot `n` holds that entry and slots `0 .. n-1` are
unchanged, and the live count is `n + 1`.  When it returns `false`, the table and
the live count are unchanged, hence `FindTextureSlot` answers as before: a tag
that resolved to `-1` still resolves to `-1`. -/
theorem CreateGLTexture_registry_postcondition (s : SceneManager F) (image : Option Image)
    (textureID : Nat) (tag : String)
    (h0 : 0 ≤ s.m_loadedTextures) (hroom : s.m_loadedTextures < 16) :
    ((s.CreateGLTexture image textureID tag).1 = true →
      (s.CreateGLTexture image textureID tag).2.m_textureIDs =
        s.m_textureIDs.set s.m_loadedTextures.toNat { tag := tag, ID := textureID } ∧
      (s.CreateGLTexture image textureID tag).2.slot? s.m_loadedTextures =
        some { tag := tag, ID := textureID } ∧
      (s.CreateGLTexture image textureID tag).2.m_loadedTextures = s.m_loadedTextures + 1 ∧
      ∀ j, 0 ≤ j → j < s.m_loadedTextures →
        (s.CreateGLTexture image textureID tag).2.slot? j = s.slot? j) ∧
    ((s.CreateGLTexture image textureID tag).1 = false →
      (s.CreateGLTexture image textureID tag).2.m_textureIDs = s.m_textureIDs ∧
      (s.CreateGLTexture image textureID tag).2.m_loadedTextures = s.m_loadedTextures ∧
      ∀ t, s.FindTextureSlot t = Except.ok (-1) →
        (s.CreateGLTexture image textureID tag).2.FindTextureSlot t = Except.ok (-1)) := by
  by_cases hu : ∃ img, image = some img ∧ (img.colorChannels = 3 ∨ img.colorChannels = 4)
  · obtain ⟨h1, h2, h3, _, _⟩ := CreateGLTexture_of_usable s image textureID tag hu
    rw [(writeSlot_table_inside s s.m_loadedTextures _ h0 hroom).1] at h3
    have hslot := slot?_set s (s.CreateGLTexture image textureID tag).2 s.m_loadedTextures
      { tag := tag, ID := textureID } h0 hroom h3
    refine ⟨fun _ => ⟨h3, ?_, h2, ?_⟩, fun hf => ?_⟩
    · rw [hslot, if_pos rfl]
    · intro j _ hj
      rw [hslot, if_neg (by omega)]
    · rw [h1] at hf
      cases hf
  · obtain ⟨h1, h2, h3, _, _⟩ := CreateGLTexture_of_not_usable s image textureID tag hu
    refine ⟨fun ht => ?_, fun _ => ⟨h3, h2, ?_⟩⟩
    · rw [h1] at ht
      cases ht
    · intro t ht
      rw [FindTextureSlot_congr s _ t h2 h3]
      exact ht

/-- Witness for C5 on the state with two live slots: a successful third load
fills slot 2 and makes the count 3. -/
theorem CreateGLTexture_registry_postcondition_witness :
    0 ≤ exampleScene.m_loadedTextures ∧ exampleScene.m_loadedTextures < 16 ∧
    (exampleScene.CreateGLTexture (some exampleRGB) 3 "cheddar").1 = true ∧
    (exampleScene.CreateGLTexture (some exampleRGB) 3 "cheddar").2.slot? 2 =
      some { tag := "cheddar", ID := 3 } ∧
    (exampleScene.CreateGLTexture (some exampleRGB) 3 "cheddar").2.m_loadedTextures = 3 :=
  have h := (CreateGLTexture_registry_postcondition exampleScene (some exampleRGB) 3 "cheddar"
    (by decide) (by decide)).1 (by rfl)
  ⟨by decide, by decide, by rfl, h.2.1, h.2.2.1⟩

set_option maxRecDepth 8192 in
/-- C6, evaluated at seventeen successful loads on a fresh `SceneManager`: every
call returns `true`, the seventeenth assigns to `m_textureIDs[16]`, which is
outside the table, and the live count ends at 17. -/
theorem runLoads_seventeen_overruns_table :
    (runLoads (construct none : SceneManager ℚ) seventeenLoads).1 = List.replicate 17 true ∧
    (runLoads (construct none : SceneManager ℚ) seventeenLoads).2.m_loadedTextures = 17 ∧
    ¬ (runLoads (construct none : SceneManager ℚ) seventeenLoads).2.m_loadedTextures ≤ 16 ∧
    (runLoads (construct none : SceneManager ℚ) seventeenLoads).2.overrun =
      [(16, { tag := "table", ID := 1 })] := by
  refine ⟨by rfl, by rfl, by decide, by rfl⟩

/-- C7: with `0 <= m_loadedTextures < 16` a call of `CreateGLTexture` assigns
nothing outside the 16-entry table (a successful call assigns slot
`m_loadedTextures`, a failed one assigns nothing) and leaves the live count at
most 16.  There is no capacity check: with `m_loadedTextures = 16` and a decoded
3- or 4-channel image the call still returns `true`, the assignment goes to index
16, outside the table, and the count becomes 17. -/
theorem CreateGLTexture_bounds (s : SceneManager F) (image : Option Image)
    (textureID : Nat) (tag : String) :
    (0 ≤ s.m_loadedTextures → s.m_loadedTextures < 16 →
      (s.CreateGLTexture image textureID tag).2.overrun = s.overrun ∧
      ((s.CreateGLTexture image textureID tag).1 = true →
        (s.CreateGLTexture image textureID tag).2.m_textureIDs =
          s.m_textureIDs.set s.m_loadedTextures.toNat { tag := tag, ID := textureID }) ∧
      (s.CreateGLTexture image textureID tag).2.m_loadedTextures ≤ 16) ∧
    (s.m_loadedTextures = 16 →
      (∃ img, image = some img ∧ (img.colorChannels = 3 ∨ img.colorChannels = 4)) →
      (s.CreateGLTexture image textureID tag).1 = true ∧
      (s.CreateGLTexture image textureID tag).2.overrun =
        s.overrun ++ [(16, { tag := tag, ID := textureID })] ∧
      (s.CreateGLTexture image textureID tag).2.m_textureIDs = s.m_textureIDs ∧
      (s.CreateGLTexture image textureID tag).2.m_loadedTextures = 17) := by
  refine ⟨fun h0 hroom => ?_, fun hfull hu => ?_⟩
  · by_cases hu : ∃ img, image = some img ∧ (img.colorChannels = 3 ∨ img.colorChannels = 4)
    · obtain ⟨_, h2, h3, h4, _⟩ := CreateGLTexture_of_usable s image textureID tag hu
      obtain ⟨w1, w2⟩ := writeSlot_table_inside s s.m_loadedTextures
        { tag := tag, ID := textureID } h0 hroom
      refine ⟨by rw [h4, w2], fun _ => by rw [h3, w1], by rw [h2]; omega⟩
    · obtain ⟨h1, h2, _, h4, _⟩ := CreateGLTexture_of_not_usable s image textureID tag hu
      refine ⟨h4, fun ht => ?_, by rw [h2]; omega⟩
      rw [h1] at ht
      cases ht
  · obtain ⟨h1, h2, h3, h4, _⟩ := CreateGLTexture_of_usable s image textureID tag hu
    obtain ⟨w1, w2⟩ := writeSlot_table_outside s s.m_loadedTextures
      { tag := tag, ID := textureID } (by omega)
    refine ⟨h1, by rw [h4, w2, hfull], by rw [h3, w1], by rw [h2, hfull]; rfl⟩

/-- Witness for C7: the first part at the state with two live slots, the second
at the full table. -/
theorem CreateGLTexture_bounds_witness :
    (0 ≤ exampleScene.m_loadedTextures ∧ exampleScene.m_loadedTextures < 16 ∧
      (exampleScene.CreateGLTexture (some exampleRGB) 3 "cheddar").2.overrun = [] ∧
      (exampleScene.CreateGLTexture (some exampleRGB) 3 "cheddar").2.m_loadedTextures ≤ 16) ∧
    (fullScene.m_loadedTextures = 16 ∧
      (fullScene.CreateGLTexture (some exampleRGBA) 3 "cheddar").1 = true ∧
      (fullScene.CreateGLTexture (some exampleRGBA) 3 "cheddar").2.overrun =
        [(16, { tag := "cheddar", ID := 3 })] ∧
      (fullScene.CreateGLTexture (some exampleRGBA) 3 "cheddar").2.m_loadedTextures = 17) :=
  have h1 := (CreateGLTexture_bounds exampleScene (some exampleRGB) 3 "cheddar").1
    (by decide) (by decide)
  have h2 := (CreateGLTexture_bounds fullScene (some exampleRGBA) 3 "cheddar").2
    (by rfl) ⟨exampleRGBA, rfl, Or.inr rfl⟩
  ⟨⟨by decide, by decide, h1.1, h1.2.2⟩, ⟨by rfl, h2.1, h2.2.1, h2.2.2.2⟩⟩

/-- C8: first registration wins.  In a registry with fewer than 16 live slots
where `FindTextureSlot(t) = i >= 0`, after any further `CreateGLTexture` call
(any decode result, any name, any tag, `t` included) `FindTextureSlot(t)` is still
`i` and `FindTextureID(t)` is what it was; and a load under the tag `t` itself,
when its image decodes to 3 or 4 channels, still returns `true` and raises the
live count by one. -/
theorem first_registration_wins (s : SceneManager F) (t : String) (i : Int)
    (hroom : s.m_loadedTextures < 16) (hi : s.FindTextureSlot t = Except.ok i) (h0 : 0 ≤ i) :
    (∀ (image : Option Image) (textureID : Nat) (tag : String),
      (s.CreateGLTexture image textureID tag).2.FindTextureSlot t = Except.ok i ∧
      (s.CreateGLTexture image textureID tag).2.FindTextureID t = s.FindTextureID t) ∧
    (∀ (image : Option Image) (textureID : Nat),
      (∃ img, image = some img ∧ (img.colorChannels = 3 ∨ img.colorChannels = 4)) →
      (s.CreateGLTexture image textureID t).1 = true ∧
      (s.CreateGLTexture image textureID t).2.m_loadedTextures = s.m_loadedTextures + 1) := by
  obtain ⟨hlt, ⟨e, he, hetag⟩, hno⟩ := first_of_FindTextureSlot_eq s t i hi h0
  obtain ⟨e1, he1, hid⟩ := (FindTextureID_of_slot s t i hi).2 h0
  refine ⟨fun image textureID tag => ?_, fun image textureID hu => ?_⟩
  · have hsame : (∀ j, j ≤ i → (s.CreateGLTexture image textureID tag).2.slot? j = s.slot? j) ∧
        s.m_loadedTextures ≤ (s.CreateGLTexture image textureID tag).2.m_loadedTextures := by
      by_cases hu : ∃ img, image = some img ∧ (img.colorChannels = 3 ∨ img.colorChannels = 4)
      · obtain ⟨_, h2, h3, _, _⟩ := CreateGLTexture_of_usable s image textureID tag hu
        rw [(writeSlot_table_inside s s.m_loadedTextures _ (by omega) hroom).1] at h3
        have hslot := slot?_set s (s.CreateGLTexture image textureID tag).2 s.m_loadedTextures
          { tag := tag, ID := textureID } (by omega) hroom h3
        refine ⟨fun j hj => ?_, by rw [h2]; omega⟩
        rw [hslot, if_neg (by omega)]
      · obtain ⟨_, h2, h3, _, _⟩ := CreateGLTexture_of_not_usable s image textureID tag hu
        exact ⟨fun j _ => slot?_of_table_eq s _ h3 j, by rw [h2]⟩
    obtain ⟨hs1, hs2⟩ := hsame
    have hfind : (s.CreateGLTexture image textureID tag).2.FindTextureSlot t = Except.ok i := by
      apply FindTextureSlot_eq_of_first _ t i h0 (by omega)
      · exact ⟨e, by rw [hs1 i (le_refl _)]; exact he, hetag⟩
      · intro j hj0 hji
        obtain ⟨e2, he2, ht2⟩ := hno j hj0 hji
        exact ⟨e2, by rw [hs1 j (by omega)]; exact he2, ht2⟩
    refine ⟨hfind, ?_⟩
    obtain ⟨e3, he3, hid3⟩ := (FindTextureID_of_slot _ t i hfind).2 h0
    rw [hs1 i (le_refl _), he1] at he3
    cases he3
    rw [hid3, hid]
  · obtain ⟨h1, h2, _⟩ := CreateGLTexture_of_usable s image textureID t hu
    exact ⟨h1, h2⟩

/-- Witness for C8 on the state with two live slots: loading a second texture
under the tag `"table"` leaves `"table"` at slot 0 and raises the count to 3. -/
theorem first_registration_wins_witness :
    exampleScene.m_loadedTextures < 16 ∧
    exampleScene.FindTextureSlot "table" = Except.ok 0 ∧
    (exampleScene.CreateGLTexture (some exampleRGBA) 9 "table").2.FindTextureSlot "table" =
      Except.ok 0 ∧
    (exampleScene.CreateGLTexture (some exampleRGBA) 9 "table").2.FindTextureID "table" =
      exampleScene.FindTextureID "table" ∧
    (exampleScene.CreateGLTexture (some exampleRGBA) 9 "table").1 = true ∧
    (exampleScene.CreateGLTexture (some exampleRGBA) 9 "table").2.m_loadedTextures =
      exampleScene.m_loadedTextures + 1 :=
  have h := first_registration_wins exampleScene "table" 0 (by decide) (by rfl) (by decide)
  ⟨by decide, by rfl, (h.1 (some exampleRGBA) 9 "table").1, (h.1 (some exampleRGBA) 9 "table").2,
    (h.2 (some exampleRGBA) 9 ⟨exampleRGBA, rfl, Or.inr rfl⟩).1,
    (h.2 (some exampleRGBA) 9 ⟨exampleRGBA, rfl, Or.inr rfl⟩).2⟩

/-- C9: `FindTextureID` performs the same scan as `FindTextureSlot`: when
`FindTextureSlot(tag)` is an index `i >= 0`, `FindTextureID(tag)` is the ID stored
in slot `i`, converted from `uint32_t` to `int`; when `FindTextureSlot(tag)` is
`-1`, so is `FindTextureID(tag)`. -/
theorem FindTextureID_same_scan (s : SceneManager F) (tag : String) (i : Int)
    (h : s.FindTextureSlot tag = Except.ok i) :
    (0 ≤ i → ∃ e, s.slot? i = some e ∧ s.FindTextureID tag = Except.ok (u32ToInt e.ID)) ∧
    (i = -1 → s.FindTextureID tag = Except.ok (-1)) := by
  obtain ⟨h1, h2⟩ := FindTextureID_loop_of_slot s tag s.m_loadedTextures.toNat 0 i
    (le_refl _) h
  exact ⟨h2, h1⟩

/-- Witness for C9 on the state with two live slots: `"backdrop"` is in slot 1
with ID 2, and an unknown tag gives `-1` from both methods. -/
theorem FindTextureID_same_scan_witness :
    exampleScene.FindTextureSlot "backdrop" = Except.ok 1 ∧
    (∃ e, exampleScene.slot? 1 = some e ∧
      exampleScene.FindTextureID "backdrop" = Except.ok (u32ToInt e.ID)) ∧
    exampleScene.FindTextureSlot "grape" = Except.ok (-1) ∧
    exampleScene.FindTextureID "grape" = Except.ok (-1) :=
  ⟨by rfl, (FindTextureID_same_scan exampleScene "backdrop" 1 (by rfl)).1 (by decide),
    by rfl, (FindTextureID_same_scan exampleScene "grape" (-1) (by rfl)).2 rfl⟩

/-- C10: when the tag matches at least one entry of `m_objectMaterials`,
`FindMaterial` returns `true` and its output parameter has received the
`diffuseColor`, `specularColor` and `shininess` of the entry with the least
index whose tag equals the query (its own `tag` field is left as it was); so of
two entries with one tag the earlier one is what comes back. -/
theorem FindMaterial_first_match (s : SceneManager F) (tag : String)
    (material : OBJECT_MATERIAL F) (h : ∃ m ∈ s.m_objectMaterials, m.tag = tag) :
    ∃ (k : Nat) (m : OBJECT_MATERIAL F),
      s.m_objectMaterials[k]? = some m ∧ m.tag = tag ∧
      (∀ (j : Nat) (m2 : OBJECT_MATERIAL F), j < k →
        s.m_objectMaterials[j]? = some m2 → m2.tag ≠ tag) ∧
      s.FindMaterial tag material =
        Except.ok (true, { material with
          diffuseColor := m.diffuseColor
          specularColor := m.specularColor
          shininess := m.shininess }) := by
  obtain ⟨k, m, hk, hm, hfirst⟩ := exists_first_tag tag s.m_objectMaterials h
  refine ⟨k, m, hk, hm, hfirst, ?_⟩
  have hklen : k < s.m_objectMaterials.length := by
    by_contra hge
    rw [List.getElem?_eq_none (by omega)] at hk
    cases hk
  have hloop := FindMaterial_loop_complete s tag k m hk hm s.m_objectMaterials.length 0
    material (Nat.zero_le _) (by omega) (fun j m2 _ hj hj2 => hfirst j m2 hj hj2)
  simp only [Nat.cast_zero] at hloop
  unfold FindMaterial
  rw [if_neg (by omega), hloop]

/-- Witness for C10 on a registry with two entries tagged `"wood"`: the values
of the earlier one (index 1, shininess 1) come back, not those of the later one
(index 2, shininess 95). -/
theorem FindMaterial_first_match_witness :
    (∃ m ∈ exampleMaterialScene.m_objectMaterials, m.tag = "wood") ∧
    (∃ (k : Nat) (m : OBJECT_MATERIAL ℚ),
      exampleMaterialScene.m_objectMaterials[k]? = some m ∧ m.tag = "wood" ∧
      (∀ (j : Nat) (m2 : OBJECT_MATERIAL ℚ), j < k →
        exampleMaterialScene.m_objectMaterials[j]? = some m2 → m2.tag ≠ "wood") ∧
      exampleMaterialScene.FindMaterial "wood" blankMaterial =
        Except.ok (true, { blankMaterial with
          diffuseColor := m.diffuseColor
          specularColor := m.specularColor
          shininess := m.shininess })) ∧
    exampleMaterialScene.FindMaterial "wood" blankMaterial =
      Except.ok (true,
        { diffuseColor := { x := 2, y := 2, z := 3 },
          specularColor := { x := 0, y := 0, z := 0 },
          shininess := 1, tag := "" }) :=
  have hex : ∃ m ∈ exampleMaterialScene.m_objectMaterials, m.tag = "wood" :=
    ⟨{ diffuseColor := { x := 9, y := 9, z := 9 }, specularColor := { x := 5, y := 5, z := 5 },
       shininess := 95, tag := "wood" },
     by simp [exampleMaterialScene, exampleMaterials], rfl⟩
  ⟨hex, FindMaterial_first_match exampleMaterialScene "wood" blankMaterial hex, by rfl⟩

/-- C11, evaluated on a registry of three materials and the tag `"stone"`, which
none of them carries: `FindMaterial` returns `true`, not `false`, and leaves its
output parameter as it was; a hit (`"metal"`) returns `true` as well, so the value
returned does not tell the miss from the hit. -/
theorem FindMaterial_miss_returns_true :
    exampleMaterialScene.m_objectMaterials ≠ [] ∧
    (∀ m ∈ exampleMaterialScene.m_objectMaterials, m.tag ≠ "stone") ∧
    exampleMaterialScene.FindMaterial "stone" blankMaterial =
      Except.ok (true, blankMaterial) ∧
    exampleMaterialScene.FindMaterial "metal" blankMaterial =
      Except.ok (true,
        { diffuseColor := { x := 4, y := 4, z := 4 },
          specularColor := { x := 7, y := 7, z := 6 },
          shininess := 52, tag := "" }) := by
  refine ⟨by decide, by decide, by rfl, by rfl⟩

/-- C12, evaluated on a state with nine materials, none tagged `"stone"`: after
`SetShaderMaterial("wood")` the uniform `material.shininess` is 0.1; a following
`SetShaderMaterial("stone")`, whose local `material` holds zeros when declared,
overwrites the three material uniforms with those zeros instead of leaving them. -/
theorem SetShaderMaterial_miss_overwrites_uniforms :
    exampleShaderScene.m_objectMaterials ≠ [] ∧
    (∀ m ∈ exampleShaderScene.m_objectMaterials, m.tag ≠ "stone") ∧
    ∃ s1 s2 : SceneManager ℚ,
      exampleShaderScene.SetShaderMaterial "wood" blankMaterial = Except.ok s1 ∧
      s1.uniform "material.diffuseColor" =
        some (UniformValue.vec3Value ({ x := 0.2, y := 0.2, z := 0.3 } : vec3 ℚ)) ∧
      s1.uniform "material.specularColor" =
        some (UniformValue.vec3Value ({ x := 0.0, y := 0.0, z := 0.0 } : vec3 ℚ)) ∧
      s1.uniform "material.shininess" = some (UniformValue.floatValue 0.1) ∧
      s1.SetShaderMaterial "stone" blankMaterial = Except.ok s2 ∧
      s2.uniform "material.diffuseColor" =
        some (UniformValue.vec3Value ({ x := 0, y := 0, z := 0 } : vec3 ℚ)) ∧
      s2.uniform "material.shininess" = some (UniformValue.floatValue 0) ∧
      s2.uniform "material.diffuseColor" ≠ s1.uniform "material.diffuseColor" ∧
      s2.uniform "material.shininess" ≠ s1.uniform "material.shininess" := by
  refine ⟨by decide, by decide, _, _, rfl, by rfl, by rfl, by rfl, rfl, by rfl, by rfl, ?_, ?_⟩
  · intro h
    have h2 : (0 : ℚ) = 0.2 :=
      congrArg (fun o : Option (UniformValue ℚ) => match o with
        | some (UniformValue.vec3Value v) => v.x
        | _ => 1) h
    norm_num at h2
  · intro h
    have h2 : (0 : ℚ) = 0.1 :=
      congrArg (fun o : Option (UniformValue ℚ) => match o with
        | some (UniformValue.floatValue v) => v
        | _ => 1) h
    norm_num at h2

/-- C13: with an empty material registry, for every tag, `FindMaterial` returns
`false` with its output parameter as it was, and `SetShaderMaterial` returns
normally with the whole state, every uniform included, unchanged (also when the
shader manager is `NULL`). -/
theorem empty_registry_is_silent (s : SceneManager F) (tag : String)
    (material : OBJECT_MATERIAL F) (hempty : s.m_objectMaterials = []) :
    s.FindMaterial tag material = Except.ok (false, material) ∧
    s.SetShaderMaterial tag material = Except.ok s ∧
    ∀ s2, s.SetShaderMaterial tag material = Except.ok s2 →
      ∀ name, s2.uniform name = s.uniform name := by
  refine ⟨FindMaterial_of_empty s tag material hempty,
    SetShaderMaterial_of_empty s tag material hempty, ?_⟩
  intro s2 h2 name
  rw [SetShaderMaterial_of_empty s tag material hempty] at h2
  cases h2
  rfl

/-- Witness for C13 on a freshly constructed `SceneManager`, whose material
registry is empty. -/
theorem empty_registry_is_silent_witness :
    (construct (some ShaderManager.empty) : SceneManager ℚ).m_objectMaterials = [] ∧
    (construct (some ShaderManager.empty) : SceneManager ℚ).FindMaterial "wood" blankMaterial =
      Except.ok (false, blankMaterial) ∧
    (construct (some ShaderManager.empty) : SceneManager ℚ).SetShaderMaterial "wood"
      blankMaterial = Except.ok (construct (some ShaderManager.empty)) :=
  have h := empty_registry_is_silent (construct (some ShaderManager.empty) : SceneManager ℚ)
    "wood" blankMaterial rfl
  ⟨rfl, h.1, h.2.1⟩

/-- C14: with a shader manager present and the live count within the table,
`SetShaderTexture(tag)` returns, for every tag, and leaves `bUseTexture` at the
`int` passed for `true` (which is 1) and `objectTexture` at the value of
`FindTextureSlot(tag)`; for a tag that no live slot carries that value is the
sentinel `-1`, with sampling switched on all the same. -/
theorem SetShaderTexture_sets_flag_and_slot (s : SceneManager F) (sm : ShaderManager F)
    (hsm : s.m_pShaderManager = some sm) (hcap : s.m_loadedTextures ≤ 16) (tag : String) :
    ∃ (i : Int) (s2 : SceneManager F),
      s.FindTextureSlot tag = Except.ok i ∧
      s.SetShaderTexture tag = Except.ok s2 ∧
      s2.uniform "bUseTexture" = some (UniformValue.intValue (boolToInt true)) ∧
      s2.uniform "objectTexture" = some (UniformValue.sampler2DValue i) ∧
      ((∀ j e, 0 ≤ j → j < s.m_loadedTextures → s.slot? j = some e → e.tag ≠ tag) →
        s2.uniform "objectTexture" = some (UniformValue.sampler2DValue (-1))) := by
  obtain ⟨i, hi⟩ := FindTextureSlot_total s tag hcap
  refine ⟨i, _, hi, SetShaderTexture_of_some s sm hsm tag i hi, ?_, ?_, ?_⟩
  · rw [uniform_of_some _ _ rfl, uniforms_setUniform, uniforms_setUniform]
    rw [if_neg (by decide), if_pos (by decide)]
    rfl
  · rw [uniform_of_some _ _ rfl, uniforms_setUniform]
    rw [if_pos (by decide)]
  · intro hno
    have hm := FindTextureSlot_of_no_match s tag hcap hno
    rw [hi] at hm
    injection hm with hm
    rw [uniform_of_some _ _ rfl, uniforms_setUniform]
    rw [if_pos (by decide), hm]

/-- Witness for C14 on the state with textures `"table"` and `"backdrop"`: the
theorem applies to the unregistered tag `"grape"`, and `"backdrop"` gives slot 1. -/
theorem SetShaderTexture_sets_flag_and_slot_witness :
    exampleShaderScene.m_pShaderManager = some ShaderManager.empty ∧
    exampleShaderScene.m_loadedTextures ≤ 16 ∧
    (∃ (i : Int) (s2 : SceneManager ℚ),
      exampleShaderScene.FindTextureSlot "grape" = Except.ok i ∧
      exampleShaderScene.SetShaderTexture "grape" = Except.ok s2 ∧
      s2.uniform "bUseTexture" = some (UniformValue.intValue (boolToInt true)) ∧
      s2.uniform "objectTexture" = some (UniformValue.sampler2DValue i) ∧
      ((∀ j e, 0 ≤ j → j < exampleShaderScene.m_loadedTextures →
          exampleShaderScene.slot? j = some e → e.tag ≠ "grape") →
        s2.uniform "objectTexture" = some (UniformValue.sampler2DValue (-1)))) ∧
    (∃ s2 : SceneManager ℚ,
      exampleShaderScene.SetShaderTexture "backdrop" = Except.ok s2 ∧
      s2.uniform "bUseTexture" = some (UniformValue.intValue 1) ∧
      s2.uniform "objectTexture" = some (UniformValue.sampler2DValue 1)) :=
  ⟨rfl, by decide,
    SetShaderTexture_sets_flag_and_slot exampleShaderScene ShaderManager.empty rfl (by decide)
      "grape",
    ⟨_, rfl, rfl, rfl⟩⟩

/-- C15: with a shader manager present, `SetShaderColor(r, g, b, a)` leaves
`bUseTexture` at the `int` passed for `false` (which is 0) and `objectColor` at
`(r, g, b, a)`. -/
theorem SetShaderColor_sets_flag_and_color (s : SceneManager F) (sm : ShaderManager F)
    (hsm : s.m_pShaderManager = some sm) (r g b a : F) :
    (s.SetShaderColor r g b a).uniform "bUseTexture" =
      some (UniformValue.intValue (boolToInt false)) ∧
    (s.SetShaderColor r g b a).uniform "objectColor" =
      some (UniformValue.vec4Value { r := r, g := g, b := b, a := a }) := by
  rw [SetShaderColor_of_some s sm hsm]
  refine ⟨?_, ?_⟩
  · rw [uniform_of_some _ _ rfl, uniforms_setUniform, uniforms_setUniform]
    rw [if_neg (by decide), if_pos (by decide)]
    rfl
  · rw [uniform_of_some _ _ rfl, uniforms_setUniform]
    rw [if_pos (by decide)]

/-- Witness for C15 on the example state, with the colour (1, 1, 1, 1). -/
theorem SetShaderColor_sets_flag_and_color_witness :
    exampleShaderScene.m_pShaderManager = some ShaderManager.empty ∧
    (exampleShaderScene.SetShaderColor 1 1 1 1).uniform "bUseTexture" =
      some (UniformValue.intValue 0) ∧
    (exampleShaderScene.SetShaderColor 1 1 1 1).uniform "objectColor" =
      some (UniformValue.vec4Value ({ r := 1, g := 1, b := 1, a := 1 } : vec4 ℚ)) :=
  have h := SetShaderColor_sets_flag_and_color exampleShaderScene ShaderManager.empty rfl
    1 1 1 1
  ⟨rfl, h.1, h.2⟩

/-- C16: last setter wins on `bUseTexture`.  With a shader manager present and
the live count within the table, `SetShaderColor` followed by `SetShaderTexture`
ends with `bUseTexture` at 1 (`true`), and `SetShaderTexture` followed by
`SetShaderColor` ends with `bUseTexture` at 0 (`false`). -/
theorem last_setter_wins (s : SceneManager F) (sm : ShaderManager F)
    (hsm : s.m_pShaderManager = some sm) (hcap : s.m_loadedTextures ≤ 16)
    (r g b a : F) (tag : String) :
    (∃ s2, (s.SetShaderColor r g b a).SetShaderTexture tag = Except.ok s2 ∧
      s2.uniform "bUseTexture" = some (UniformValue.intValue (boolToInt true))) ∧
    (∃ s2, s.SetShaderTexture tag = Except.ok s2 ∧
      (s2.SetShaderColor r g b a).uniform "bUseTexture" =
        some (UniformValue.intValue (boolToInt false))) := by
  refine ⟨?_, ?_⟩
  · have hcap2 : (s.SetShaderColor r g b a).m_loadedTextures ≤ 16 := by
      rw [SetShaderColor_of_some s sm hsm]
      exact hcap
    obtain ⟨i, hi⟩ := FindTextureSlot_total (s.SetShaderColor r g b a) tag hcap2
    have hsm2 := SetShaderColor_of_some s sm hsm r g b a
    refine ⟨_, SetShaderTexture_of_some (s.SetShaderColor r g b a) _
      (by rw [hsm2]) tag i hi, ?_⟩
    rw [uniform_of_some _ _ rfl, uniforms_setUniform, uniforms_setUniform]
    rw [if_neg (by decide), if_pos (by decide)]
    rfl
  · obtain ⟨i, hi⟩ := FindTextureSlot_total s tag hcap
    refine ⟨_, SetShaderTexture_of_some s sm hsm tag i hi, ?_⟩
    rw [SetShaderColor_of_some _ _ rfl]
    rw [uniform_of_some _ _ rfl, uniforms_setUniform, uniforms_setUniform]
    rw [if_neg (by decide), if_pos (by decide)]
    rfl

/-- Witness for C16 on the example state, colour (1, 1, 1, 1), tag `"table"`. -/
theorem last_setter_wins_witness :
    exampleShaderScene.m_pShaderManager = some ShaderManager.empty ∧
    exampleShaderScene.m_loadedTextures ≤ 16 ∧
    (∃ s2, (exampleShaderScene.SetShaderColor 1 1 1 1).SetShaderTexture "table" =
        Except.ok s2 ∧
      s2.uniform "bUseTexture" = some (UniformValue.intValue (boolToInt true))) ∧
    (∃ s2, exampleShaderScene.SetShaderTexture "table" = Except.ok s2 ∧
      (s2.SetShaderColor 1 1 1 1).uniform "bUseTexture" =
        some (UniformValue.intValue (boolToInt false))) :=
  have h := last_setter_wins exampleShaderScene ShaderManager.empty rfl (by decide)
    1 1 1 1 "table"
  ⟨rfl, by decide, h.1, h.2⟩

/-- C17 as stated fails: `SetShaderColor` changes two uniforms, `bUseTexture`
and `objectColor`, so no single name covers what it changed. -/
theorem SetShaderColor_changes_two_uniforms :
    (exampleShaderScene.SetShaderColor 1 1 1 1).uniform "bUseTexture" ≠
      exampleShaderScene.uniform "bUseTexture" ∧
    (exampleShaderScene.SetShaderColor 1 1 1 1).uniform "objectColor" ≠
      exampleShaderScene.uniform "objectColor" ∧
    ¬ ∃ n : String, ∀ m : String, m ≠ n →
      (exampleShaderScene.SetShaderColor 1 1 1 1).uniform m = exampleShaderScene.uniform m := by
  have h1 : (exampleShaderScene.SetShaderColor 1 1 1 1).uniform "bUseTexture" =
      some (UniformValue.intValue 0) := rfl
  have h2 : (exampleShaderScene.SetShaderColor 1 1 1 1).uniform "objectColor" =
      some (UniformValue.vec4Value ({ r := 1, g := 1, b := 1, a := 1 } : vec4 ℚ)) := rfl
  have h3 : exampleShaderScene.uniform "bUseTexture" = none := rfl
  have h4 : exampleShaderScene.uniform "objectColor" = none := rfl
  refine ⟨by rw [h1, h3]; exact Option.some_ne_none _,
    by rw [h2, h4]; exact Option.some_ne_none _, ?_⟩
  rintro ⟨n, hn⟩
  by_cases hb : n = "bUseTexture"
  · have := hn "objectColor" (by rw [hb]; decide)
    rw [h2, h4] at this
    cases this
  · have := hn "bUseTexture" (fun h => hb h.symm)
    rw [h1, h3] at this
    cases this

/-- C17, amended: with a shader manager present and the live count within the
table, each setter returns and changes only the uniforms it names, leaving
every other uniform as it was: `SetTransformations` only `model`,
`SetShaderColor` only `bUseTexture` and `objectColor`, `SetShaderTexture` only
`bUseTexture` and `objectTexture`, `SetTextureUVScale` only `UVscale`,
`SetShaderMaterial` only `material.diffuseColor`, `material.specularColor` and
`material.shininess`. -/
theorem setters_leave_other_uniforms [Field F] (s : SceneManager F) (sm : ShaderManager F)
    (hsm : s.m_pShaderManager = some sm) (hcap : s.m_loadedTextures ≤ 16) :
    (∀ (fm : FloatMath F) (scaleXYZ : vec3 F) (x y z : F) (positionXYZ : vec3 F)
        (name : String), name ≠ "model" →
      (s.SetTransformations fm scaleXYZ x y z positionXYZ).uniform name = s.uniform name) ∧
    (∀ (r g b a : F) (name : String), name ≠ "bUseTexture" → name ≠ "objectColor" →
      (s.SetShaderColor r g b a).uniform name = s.uniform name) ∧
    (∀ (tag : String), ∃ s2, s.SetShaderTexture tag = Except.ok s2 ∧
      ∀ name : String, name ≠ "bUseTexture" → name ≠ "objectTexture" →
        s2.uniform name = s.uniform name) ∧
    (∀ (u v : F) (name : String), name ≠ "UVscale" →
      (s.SetTextureUVScale u v).uniform name = s.uniform name) ∧
    (∀ (tag : String) (material : OBJECT_MATERIAL F),
      ∃ s2, s.SetShaderMaterial tag material = Except.ok s2 ∧
        ∀ name : String, name ≠ "material.diffuseColor" → name ≠ "material.specularColor" →
          name ≠ "material.shininess" → s2.uniform name = s.uniform name) := by
  refine ⟨?_, ?_, ?_, ?_, ?_⟩
  · intro fm scaleXYZ x y z positionXYZ name hn
    rw [SetTransformations_of_some s sm hsm, uniform_of_some _ _ rfl,
      uniform_of_some s sm hsm, uniforms_setUniform,
      if_neg (show ¬ name = g_ModelName from hn)]
  · intro r g b a name h1 h2
    rw [SetShaderColor_of_some s sm hsm, uniform_of_some _ _ rfl, uniform_of_some s sm hsm,
      uniforms_setUniform, uniforms_setUniform,
      if_neg (show ¬ name = g_ColorValueName from h2),
      if_neg (show ¬ name = g_UseTextureName from h1)]
  · intro tag
    obtain ⟨i, hi⟩ := FindTextureSlot_total s tag hcap
    refine ⟨_, SetShaderTexture_of_some s sm hsm tag i hi, ?_⟩
    intro name h1 h2
    rw [uniform_of_some _ _ rfl, uniform_of_some s sm hsm, uniforms_setUniform,
      uniforms_setUniform, if_neg (show ¬ name = g_TextureValueName from h2),
      if_neg (show ¬ name = g_UseTextureName from h1)]
  · intro u v name hn
    rw [SetTextureUVScale_of_some s sm hsm, uniform_of_some _ _ rfl,
      uniform_of_some s sm hsm, uniforms_setUniform, if_neg hn]
  · intro tag material
    exact SetShaderMaterial_frame s sm hsm tag material

/-- Witness for the amended C17 on the example state: `SetShaderColor` leaves
`model` alone and `SetShaderMaterial("wood")` leaves `objectColor` alone. -/
theorem setters_leave_other_uniforms_witness :
    exampleShaderScene.m_pShaderManager = some ShaderManager.empty ∧
    exampleShaderScene.m_loadedTextures ≤ 16 ∧
    (exampleShaderScene.SetShaderColor 1 1 1 1).uniform "model" =
      exampleShaderScene.uniform "model" ∧
    (∃ s2, exampleShaderScene.SetShaderMaterial "wood" blankMaterial = Except.ok s2 ∧
      ∀ name : String, name ≠ "material.diffuseColor" → name ≠ "material.specularColor" →
        name ≠ "material.shininess" → s2.uniform name = exampleShaderScene.uniform name) :=
  have h := setters_leave_other_uniforms exampleShaderScene ShaderManager.empty rfl
    (by decide)
  ⟨rfl, by decide, h.2.1 1 1 1 1 "model" (by decide) (by decide),
    h.2.2.2.2 "wood" blankMaterial⟩

/-- C18 as stated fails in the arithmetic of `float`.  In IEEE 754 single
precision, for the backdrop (scale (20, 1, 20), 90 degrees about X, translation
(0, 15, -8)), the angle in radians is `13176795 / 2 ^ 23`, the entry in row 0,
column 0 of the rotation about X is `cos + (1 - cos) = 1 - 2 ^ (-24)`, not 1, and
the matrix stored in `model` has `20 - 2 ^ (-19)` (19.999998...) in row 0,
column 0, where the exact product `T * Rz * Ry * Rx * S` of the matrices built
from the same cosine and sine values has 20. -/
theorem SetTransformations_rounds_product :
    glm.rounded.radians (binary32.arith exampleLibm) 90 = 13176795 / 8388608 ∧
    glm.rounded.rotate (binary32.arith exampleLibm)
      (glm.rounded.radians (binary32.arith exampleLibm) 90) { x := 1, y := 0, z := 0 } 0 0 =
      1 - 1 / 16777216 ∧
    (∃ M : mat4 ℚ,
      (rounded.SetTransformations (construct (some ShaderManager.empty))
          (binary32.arith exampleLibm) { x := 20, y := 1, z := 20 } 90 0 0
          { x := 0, y := 15, z := -8 }).uniform "model" = some (UniformValue.mat4Value M) ∧
      M 0 0 = 20 - 1 / 524288 ∧ M 0 0 ≠ 20) ∧
    (∃ M : mat4 ℚ,
      ((construct (some ShaderManager.empty)).SetTransformations exampleLibm
          { x := 20, y := 1, z := 20 } 90 0 0 { x := 0, y := 15, z := -8 }).uniform "model" =
        some (UniformValue.mat4Value M) ∧
      M 0 0 = 20) := by
  refine ⟨by decide!, by decide!, ?_, ?_⟩
  · refine ⟨?_, ?_, ?_, ?_⟩
    rotate_left
    · rw [SetTransformations_rounded_of_some _ ShaderManager.empty rfl,
        uniform_of_some _ _ rfl, uniforms_setUniform]
      exact if_pos rfl
    · decide!
    · decide!
  · refine ⟨?_, ?_, ?_⟩
    rotate_left
    · exact SetTransformations_exact_product
        (construct (some ShaderManager.empty) : SceneManager ℚ) ShaderManager.empty rfl
        exampleLibm { x := 20, y := 1, z := 20 } 90 0 0 { x := 0, y := 15, z := -8 }
    · decide!

/-- C18, amended: with a shader manager present, `SetTransformations` stores in
`model` the product `translation * rotationZ * rotationY * rotationX * scale`,
in this order, as the library evaluates it in the arithmetic of `float`: the
matrices are those of `glm::translate(positionXYZ)`, of `glm::rotate` about Z, Y
and X by the angles converted to radians, and of `glm::scale(scaleXYZ)`, and
every entry of a product is a sum of four products, each operation rounded.  The
stored value is the same from whatever state (with a shader manager) the call is
made, so a repeated call with the same arguments stores the same matrix.  In
arithmetic that does not round, the stored matrix is the exact product
`T * Rz * Ry * Rx * S` of the translation matrix, the rotation matrices about Z,
Y and X by degrees times pi / 180, and the scaling matrix. -/
theorem SetTransformations_stores_rounded_product [Field F] (s : SceneManager F)
    (sm : ShaderManager F) (hsm : s.m_pShaderManager = some sm) (fa : FloatArith F)
    (fm : FloatMath F) (scaleXYZ : vec3 F) (x y z : F) (positionXYZ : vec3 F) :
    (rounded.SetTransformations s fa scaleXYZ x y z positionXYZ).uniform "model" =
      some (UniformValue.mat4Value
        (glm.rounded.mul fa
          (glm.rounded.mul fa
            (glm.rounded.mul fa
              (glm.rounded.mul fa
                !![1, 0, 0, positionXYZ.x;
                   0, 1, 0, positionXYZ.y;
                   0, 0, 1, positionXYZ.z;
                   0, 0, 0, 1]
                (glm.rounded.rotate fa (fa.mul z fa.radiansPerDegree)
                  { x := 0, y := 0, z := 1 }))
              (glm.rounded.rotate fa (fa.mul y fa.radiansPerDegree) { x := 0, y := 1, z := 0 }))
            (glm.rounded.rotate fa (fa.mul x fa.radiansPerDegree) { x := 1, y := 0, z := 0 }))
          !![scaleXYZ.x, 0, 0, 0;
             0, scaleXYZ.y, 0, 0;
             0, 0, scaleXYZ.z, 0;
             0, 0, 0, 1])) ∧
    (∀ (s2 : SceneManager F) (sm2 : ShaderManager F), s2.m_pShaderManager = some sm2 →
      (rounded.SetTransformations s2 fa scaleXYZ x y z positionXYZ).uniform "model" =
        (rounded.SetTransformations s fa scaleXYZ x y z positionXYZ).uniform "model") ∧
    (rounded.SetTransformations s (FloatArith.exact fm) scaleXYZ x y z positionXYZ).uniform
        "model" =
      some (UniformValue.mat4Value
        (!![1, 0, 0, positionXYZ.x;
            0, 1, 0, positionXYZ.y;
            0, 0, 1, positionXYZ.z;
            0, 0, 0, 1] *
         !![fm.cos (z * (fm.pi / 180)), -fm.sin (z * (fm.pi / 180)), 0, 0;
            fm.sin (z * (fm.pi / 180)), fm.cos (z * (fm.pi / 180)), 0, 0;
            0, 0, 1, 0;
            0, 0, 0, 1] *
         !![fm.cos (y * (fm.pi / 180)), 0, fm.sin (y * (fm.pi / 180)), 0;
            0, 1, 0, 0;
            -fm.sin (y * (fm.pi / 180)), 0, fm.cos (y * (fm.pi / 180)), 0;
            0, 0, 0, 1] *
         !![1, 0, 0, 0;
            0, fm.cos (x * (fm.pi / 180)), -fm.sin (x * (fm.pi / 180)), 0;
            0, fm.sin (x * (fm.pi / 180)), fm.cos (x * (fm.pi / 180)), 0;
            0, 0, 0, 1] *
         !![scaleXYZ.x, 0, 0, 0;
            0, scaleXYZ.y, 0, 0;
            0, 0, scaleXYZ.z, 0;
            0, 0, 0, 1])) := by
  have hmodel : ∀ (t : SceneManager F) (tm : ShaderManager F), t.m_pShaderManager = some tm →
      (rounded.SetTransformations t fa scaleXYZ x y z positionXYZ).uniform "model" =
        some (UniformValue.mat4Value
          (glm.rounded.mul fa
            (glm.rounded.mul fa
              (glm.rounded.mul fa
                (glm.rounded.mul fa (glm.translate positionXYZ)
                  (glm.rounded.rotate fa (glm.rounded.radians fa z) { x := 0, y := 0, z := 1 }))
                (glm.rounded.rotate fa (glm.rounded.radians fa y) { x := 0, y := 1, z := 0 }))
              (glm.rounded.rotate fa (glm.rounded.radians fa x) { x := 1, y := 0, z := 0 }))
            (glm.scale scaleXYZ))) := by
    intro t tm htm
    rw [SetTransformations_rounded_of_some t tm htm, uniform_of_some _ _ rfl,
      uniforms_setUniform]
    exact if_pos rfl
  refine ⟨?_, ?_, ?_⟩
  · rw [hmodel s sm hsm]
    rfl
  · intro s2 sm2 hsm2
    rw [hmodel s sm hsm, hmodel s2 sm2 hsm2]
  · rw [SetTransformations_rounded_exact]
    exact SetTransformations_exact_product s sm hsm fm scaleXYZ x y z positionXYZ

/-- Witness for C18 in IEEE 754 single precision, on the arguments of the
backdrop: the sixteen entries of the matrix stored, and a second call with the
same arguments, made on the state the first call left, stores the same matrix. -/
theorem SetTransformations_stores_rounded_product_witness :
    (construct (some ShaderManager.empty) : SceneManager ℚ).m_pShaderManager =
      some ShaderManager.empty ∧
    (rounded.SetTransformations (construct (some ShaderManager.empty))
        (binary32.arith exampleLibm) { x := 20, y := 1, z := 20 } 90 0 0
        { x := 0, y := 15, z := -8 }).uniform "model" =
      some (UniformValue.mat4Value
        !![20 - 1 / 524288, 0, 0, 0;
           0, -(6151831 / 140737488355328), -20, 15;
           0, 1, -(7689789 / 8796093022208), -8;
           0, 0, 0, 1]) ∧
    (rounded.SetTransformations
        (rounded.SetTransformations (construct (some ShaderManager.empty))
          (binary32.arith exampleLibm) { x := 20, y := 1, z := 20 } 90 0 0
          { x := 0, y := 15, z := -8 })
        (binary32.arith exampleLibm) { x := 20, y := 1, z := 20 } 90 0 0
        { x := 0, y := 15, z := -8 }).uniform "model" =
      (rounded.SetTransformations (construct (some ShaderManager.empty))
        (binary32.arith exampleLibm) { x := 20, y := 1, z := 20 } 90 0 0
        { x := 0, y := 15, z := -8 }).uniform "model" := by
  have hfirst := SetTransformations_rounded_of_some
    (construct (some ShaderManager.empty) : SceneManager ℚ) ShaderManager.empty rfl
    (binary32.arith exampleLibm) { x := 20, y := 1, z := 20 } 90 0 0
    { x := 0, y := 15, z := -8 }
  have h := SetTransformations_stores_rounded_product
    (construct (some ShaderManager.empty) : SceneManager ℚ) ShaderManager.empty rfl
    (binary32.arith exampleLibm) exampleLibm
    { x := 20, y := 1, z := 20 } 90 0 0 { x := 0, y := 15, z := -8 }
  refine ⟨rfl, ?_, h.2.1 _ _ (by rw [hfirst])⟩
  rw [h.1]
  congr 2
  ext i j
  fin_cases i <;> fin_cases j <;> decide!

/-- C19 as stated fails: for scale (20, 0.6, 8), zero rotation and translation
(0, 0.2, -0.9) the matrix stored in `model` is not the pure translation matrix;
its first diagonal entry is 20, not 1. -/
theorem table_model_is_not_a_translation :
    ((construct (some ShaderManager.empty) : SceneManager ℝ).SetTransformations
        { cos := Real.cos, sin := Real.sin, pi := Real.pi }
        { x := 20, y := 0.6, z := 8 } 0 0 0 { x := 0, y := 0.2, z := -0.9 }).uniform "model" ≠
      some (UniformValue.mat4Value (glm.translate ({ x := 0, y := 0.2, z := -0.9 } : vec3 ℝ))) := by
  rw [model_of_zero_rotation _ ShaderManager.empty rfl _ Real.cos_zero Real.sin_zero,
    translate_mul_scale]
  intro h
  injection h with h
  injection h with h
  have h00 := congrFun (congrFun h 0) 0
  simp [glm.translate] at h00

/-- C19, amended: with a shader manager present and a math library whose
`cos 0` is 1 and `sin 0` is 0, for scale (20, 0.6, 8), zero rotation and
translation (0, 0.2, -0.9) the matrix stored in `model` is
`translate(0, 0.2, -0.9) * scale(20, 0.6, 8)`: diagonal (20, 0.6, 8, 1), last
column (0, 0.2, -0.9, 1), zero elsewhere. -/
theorem table_model_is_translation_times_scale [Field F] (s : SceneManager F)
    (sm : ShaderManager F) (hsm : s.m_pShaderManager = some sm) (fm : FloatMath F)
    (hcos : fm.cos 0 = 1) (hsin : fm.sin 0 = 0) :
    (s.SetTransformations fm { x := 20, y := 0.6, z := 8 } 0 0 0
        { x := 0, y := 0.2, z := -0.9 }).uniform "model" =
      some (UniformValue.mat4Value
        (glm.translate ({ x := 0, y := 0.2, z := -0.9 } : vec3 F) *
          glm.scale ({ x := 20, y := 0.6, z := 8 } : vec3 F))) ∧
    (glm.translate ({ x := 0, y := 0.2, z := -0.9 } : vec3 F) * glm.scale ({ x := 20, y := 0.6, z := 8 } : vec3 F) :
        mat4 F) =
      !![20, 0, 0, 0;
         0, 0.6, 0, 0.2;
         0, 0, 8, -0.9;
         0, 0, 0, 1] :=
  ⟨model_of_zero_rotation s sm hsm fm hcos hsin _ _, translate_mul_scale _ _⟩

/-- Witness for the amended C19 over the real numbers with the real cosine and sine. -/
theorem table_model_is_translation_times_scale_witness :
    (construct (some ShaderManager.empty) : SceneManager ℝ).m_pShaderManager =
      some ShaderManager.empty ∧
    Real.cos 0 = 1 ∧ Real.sin 0 = 0 ∧
    ((construct (some ShaderManager.empty) : SceneManager ℝ).SetTransformations
        { cos := Real.cos, sin := Real.sin, pi := Real.pi }
        { x := 20, y := 0.6, z := 8 } 0 0 0 { x := 0, y := 0.2, z := -0.9 }).uniform "model" =
      some (UniformValue.mat4Value
        (glm.translate ({ x := 0, y := 0.2, z := -0.9 } : vec3 ℝ) *
          glm.scale ({ x := 20, y := 0.6, z := 8 } : vec3 ℝ))) :=
  ⟨rfl, Real.cos_zero, Real.sin_zero,
    (table_model_is_translation_times_scale
      (construct (some ShaderManager.empty) : SceneManager ℝ) ShaderManager.empty rfl
      { cos := Real.cos, sin := Real.sin, pi := Real.pi } Real.cos_zero Real.sin_zero).1⟩

/-- C20: in every state with a shader manager where `"table"` is a registered
texture (`FindTextureSlot("table") = i >= 0`) and the first material tagged
`"wood"` has shininess 0.1, `SetShaderTexture("table")` followed by
`SetShaderMaterial("wood")` returns and leaves `bUseTexture` at 1 (`true`),
`objectTexture` at `i` and `material.shininess` at 0.1. -/
theorem table_appearance [Field F] (s : SceneManager F) (sm : ShaderManager F)
    (hsm : s.m_pShaderManager = some sm) (i : Int)
    (hi : s.FindTextureSlot "table" = Except.ok i) (_hreg : 0 ≤ i)
    (k : Nat) (m : OBJECT_MATERIAL F) (hk : s.m_objectMaterials[k]? = some m)
    (hm : m.tag = "wood")
    (hfirst : ∀ (j : Nat) (m2 : OBJECT_MATERIAL F), j < k →
      s.m_objectMaterials[j]? = some m2 → m2.tag ≠ "wood")
    (hshine : m.shininess = 0.1) (material : OBJECT_MATERIAL F) :
    ∃ s1 s2 : SceneManager F,
      s.SetShaderTexture "table" = Except.ok s1 ∧
      s1.SetShaderMaterial "wood" material = Except.ok s2 ∧
      s2.uniform "bUseTexture" = some (UniformValue.intValue (boolToInt true)) ∧
      s2.uniform "objectTexture" = some (UniformValue.sampler2DValue i) ∧
      s2.uniform "material.shininess" = some (UniformValue.floatValue 0.1) := by
  have h1 := SetShaderTexture_of_some s sm hsm "table" i hi
  refine ⟨_, _, h1,
    SetShaderMaterial_of_true _ _ rfl "wood" material _
      (FindMaterial_of_first _ "wood" material k m hk hm hfirst), ?_, ?_, ?_⟩
  · rw [uniform_of_some _ _ rfl]
    simp only [uniforms_setUniform]
    rw [if_neg (by decide), if_neg (by decide), if_neg (by decide), if_neg (by decide),
      if_pos (by decide)]
    rfl
  · rw [uniform_of_some _ _ rfl]
    simp only [uniforms_setUniform]
    rw [if_neg (by decide), if_neg (by decide), if_neg (by decide), if_pos (by decide)]
  · rw [uniform_of_some _ _ rfl]
    simp only [uniforms_setUniform]
    rw [if_pos trivial, hshine]

/-- Witness for C20 on the state with the textures `"table"` (slot 0) and
`"backdrop"` and the materials of `DefineObjectMaterials`, where the first
`"wood"` entry is at index 1 with shininess 0.1. -/
theorem table_appearance_witness :
    exampleShaderScene.m_pShaderManager = some ShaderManager.empty ∧
    exampleShaderScene.FindTextureSlot "table" = Except.ok 0 ∧
    exampleShaderScene.m_objectMaterials[1]? =
      some { diffuseColor := { x := 0.2, y := 0.2, z := 0.3 },
             specularColor := { x := 0.0, y := 0.0, z := 0.0 },
             shininess := 0.1, tag := "wood" } ∧
    ∃ s1 s2 : SceneManager ℚ,
      exampleShaderScene.SetShaderTexture "table" = Except.ok s1 ∧
      s1.SetShaderMaterial "wood" blankMaterial = Except.ok s2 ∧
      s2.uniform "bUseTexture" = some (UniformValue.intValue (boolToInt true)) ∧
      s2.uniform "objectTexture" = some (UniformValue.sampler2DValue 0) ∧
      s2.uniform "material.shininess" = some (UniformValue.floatValue 0.1) :=
  ⟨rfl, by rfl, by rfl,
    table_appearance exampleShaderScene ShaderManager.empty rfl 0 (by rfl) (by decide) 1
      { diffuseColor := { x := 0.2, y := 0.2, z := 0.3 },
        specularColor := { x := 0.0, y := 0.0, z := 0.0 },
        shininess := 0.1, tag := "wood" }
      (by rfl) rfl
      (by
        intro j m2 hj hj2
        have hj0 : j = 0 := by omega
        subst hj0
        have h0 : (exampleShaderScene.m_objectMaterials[0]?).map OBJECT_MATERIAL.tag =
            some "metal" := by rfl
        rw [hj2] at h0
        have htag : m2.tag = "metal" := Option.some.inj h0
        rw [htag]
        decide)
      rfl blankMaterial⟩

/-- C21 fails in the code.  For every state with the live count within the
table, `DestroyGLTextures` returns after issuing one `glGenTextures` call per
live slot and nothing else, so no name is released; the live count and every tag
stay as they were, so `FindTextureSlot` answers as before the call.  The
destructor leaves the same registry. -/
theorem DestroyGLTextures_keeps_registry (s : SceneManager F) (glGenTextures : Int → Nat)
    (hcap : s.m_loadedTextures ≤ 16) :
    (∃ s2, s.DestroyGLTextures glGenTextures = Except.ok s2 ∧
      s2.m_loadedTextures = s.m_loadedTextures ∧
      s2.m_textureIDs.map TEXTURE_INFO.tag = s.m_textureIDs.map TEXTURE_INFO.tag ∧
      (∀ tag, s2.FindTextureSlot tag = s.FindTextureSlot tag) ∧
      s2.gl = s.gl ++ (List.range s.m_loadedTextures.toNat).map
        (fun i : Nat => GLCall.glGenTextures (glGenTextures (i : Int)))) ∧
    (∃ s3, s.destruct glGenTextures = Except.ok s3 ∧
      s3.m_loadedTextures = s.m_loadedTextures ∧
      (∀ tag, s3.FindTextureSlot tag = s.FindTextureSlot tag)) := by
  constructor
  · obtain ⟨s2, h1, h2, h3, h4⟩ := DestroyGLTextures_keeps s glGenTextures hcap
    exact ⟨s2, h1, h2, h3, fun tag => FindTextureSlot_congr_tags s s2 tag h2 h3, h4⟩
  · obtain ⟨s3, h1, h2, h3, _⟩ :=
      DestroyGLTextures_keeps { s with m_pShaderManager := none } glGenTextures hcap
    exact ⟨s3, h1, h2, fun tag => FindTextureSlot_congr_tags s s3 tag h2 h3⟩

/-- Witness for C21 on a state with the two live textures `"table"` (ID 1) and
`"backdrop"` (ID 2): `DestroyGLTextures` issues `glGenTextures` twice, the live
count stays 2 instead of becoming 0, the two IDs are overwritten by the names
just generated, and both tags still resolve. -/
theorem DestroyGLTextures_keeps_registry_witness :
    exampleScene.m_loadedTextures ≤ 16 ∧
    exampleScene.m_loadedTextures = 2 ∧
    (∃ s3, exampleScene.destruct (fun i => 100 + i.toNat) = Except.ok s3 ∧
      s3.m_loadedTextures = exampleScene.m_loadedTextures ∧
      (∀ tag, s3.FindTextureSlot tag = exampleScene.FindTextureSlot tag)) ∧
    ∃ s2 : SceneManager ℚ,
      exampleScene.DestroyGLTextures (fun i => 100 + i.toNat) = Except.ok s2 ∧
      s2.m_loadedTextures = 2 ∧
      s2.gl = exampleScene.gl ++ [GLCall.glGenTextures 100, GLCall.glGenTextures 101] ∧
      s2.slot? 0 = some { tag := "table", ID := 100 } ∧
      s2.slot? 1 = some { tag := "backdrop", ID := 101 } ∧
      s2.FindTextureSlot "table" = Except.ok 0 ∧
      s2.FindTextureSlot "backdrop" = Except.ok 1 ∧
      s2.FindTextureID "table" = Except.ok 100 :=
  ⟨by decide, by rfl,
    (DestroyGLTextures_keeps_registry exampleScene (fun i => 100 + i.toNat) (by decide)).2,
    _, rfl, by rfl, by rfl, by rfl, by rfl, by rfl, by rfl, by rfl⟩

/-- C22 fails in the code for `SetShaderMaterial`.  With a `NULL` shader manager
and a non-empty material registry, `SetShaderMaterial` calls through the `NULL`
pointer, whatever the tag; with an empty registry it returns with the state
unchanged, and so do the other four setters in every state. -/
theorem SetShaderMaterial_null_shader_manager [Field F] (s : SceneManager F)
    (hnull : s.m_pShaderManager = none) :
    (s.m_objectMaterials ≠ [] → ∀ (tag : String) (material : OBJECT_MATERIAL F),
      s.SetShaderMaterial tag material = Except.error Fault.nullPointer) ∧
    (s.m_objectMaterials = [] → ∀ (tag : String) (material : OBJECT_MATERIAL F),
      s.SetShaderMaterial tag material = Except.ok s) ∧
    (∀ (fm : FloatMath F) (scaleXYZ : vec3 F) (x y z : F) (positionXYZ : vec3 F),
      s.SetTransformations fm scaleXYZ x y z positionXYZ = s) ∧
    (∀ r g b a : F, s.SetShaderColor r g b a = s) ∧
    (∀ tag : String, s.SetShaderTexture tag = Except.ok s) ∧
    (∀ u v : F, s.SetTextureUVScale u v = s) := by
  refine ⟨fun hne tag material => SetShaderMaterial_of_null s hnull hne tag material,
    fun hempty tag material => SetShaderMaterial_of_empty s tag material hempty, ?_, ?_, ?_, ?_⟩
  · intro fm scaleXYZ x y z positionXYZ
    unfold SetTransformations
    rw [hnull]
  · intro r g b a
    unfold SetShaderColor
    rw [hnull]
  · intro tag
    unfold SetShaderTexture
    rw [hnull]
  · intro u v
    unfold SetTextureUVScale
    rw [hnull]

/-- Witness for C22 on a `SceneManager` constructed with a `NULL` shader manager
that holds the nine materials of `DefineObjectMaterials`: `SetShaderMaterial`
calls through the `NULL` pointer for the registered tag `"wood"` and for the
unregistered tag `"stone"` alike. -/
theorem SetShaderMaterial_null_shader_manager_witness :
    nullShaderScene.m_pShaderManager = none ∧
    nullShaderScene.m_objectMaterials ≠ [] ∧
    nullShaderScene.SetShaderMaterial "wood" blankMaterial = Except.error Fault.nullPointer ∧
    nullShaderScene.SetShaderMaterial "stone" blankMaterial =
      Except.error Fault.nullPointer ∧
    (∀ tag : String, nullShaderScene.SetShaderTexture tag = Except.ok nullShaderScene) :=
  have h := SetShaderMaterial_null_shader_manager nullShaderScene rfl
  ⟨rfl, by decide, h.1 (by decide) "wood" blankMaterial, by rfl, h.2.2.2.2.1⟩

/-- C23: with a shader manager present, for every tag carried by some entry of
the material registry, `SetShaderMaterial` returns and leaves
`material.diffuseColor`, `material.specularColor` and `material.shininess` at
the `diffuseColor`, `specularColor` and `shininess` of the first entry whose tag
equals the query. -/
theorem SetShaderMaterial_sets_first_match (s : SceneManager F) (sm : ShaderManager F)
    (hsm : s.m_pShaderManager = some sm) (tag : String) (material : OBJECT_MATERIAL F)
    (h : ∃ m ∈ s.m_objectMaterials, m.tag = tag) :
    ∃ (k : Nat) (m : OBJECT_MATERIAL F) (s2 : SceneManager F),
      s.m_objectMaterials[k]? = some m ∧ m.tag = tag ∧
      (∀ (j : Nat) (m2 : OBJECT_MATERIAL F), j < k →
        s.m_objectMaterials[j]? = some m2 → m2.tag ≠ tag) ∧
      s.SetShaderMaterial tag material = Except.ok s2 ∧
      s2.uniform "material.diffuseColor" = some (UniformValue.vec3Value m.diffuseColor) ∧
      s2.uniform "material.specularColor" = some (UniformValue.vec3Value m.specularColor) ∧
      s2.uniform "material.shininess" = some (UniformValue.floatValue m.shininess) := by
  obtain ⟨k, m, hk, hm, hfirst⟩ := exists_first_tag tag s.m_objectMaterials h
  obtain ⟨s2, h1, h2, h3, h4⟩ :=
    SetShaderMaterial_of_first s sm hsm tag material k m hk hm hfirst
  exact ⟨k, m, s2, hk, hm, hfirst, h1, h2, h3, h4⟩

/-- Witness for C23 on the state with the nine materials of
`DefineObjectMaterials`: for `"glass"` the uniforms receive the values of that
entry, shininess 95 among them. -/
theorem SetShaderMaterial_sets_first_match_witness :
    exampleShaderScene.m_pShaderManager = some ShaderManager.empty ∧
    (∃ m ∈ exampleShaderScene.m_objectMaterials, m.tag = "glass") ∧
    (∃ (k : Nat) (m : OBJECT_MATERIAL ℚ) (s2 : SceneManager ℚ),
      exampleShaderScene.m_objectMaterials[k]? = some m ∧ m.tag = "glass" ∧
      (∀ (j : Nat) (m2 : OBJECT_MATERIAL ℚ), j < k →
        exampleShaderScene.m_objectMaterials[j]? = some m2 → m2.tag ≠ "glass") ∧
      exampleShaderScene.SetShaderMaterial "glass" blankMaterial = Except.ok s2 ∧
      s2.uniform "material.diffuseColor" = some (UniformValue.vec3Value m.diffuseColor) ∧
      s2.uniform "material.specularColor" = some (UniformValue.vec3Value m.specularColor) ∧
      s2.uniform "material.shininess" = some (UniformValue.floatValue m.shininess)) ∧
    (∃ s2 : SceneManager ℚ,
      exampleShaderScene.SetShaderMaterial "glass" blankMaterial = Except.ok s2 ∧
      s2.uniform "material.shininess" = some (UniformValue.floatValue 95.0)) :=
  have hex : ∃ m ∈ exampleShaderScene.m_objectMaterials, m.tag = "glass" := by
    have h2 : (exampleShaderScene.m_objectMaterials[2]?).map OBJECT_MATERIAL.tag =
        some "glass" := by rfl
    cases hm : exampleShaderScene.m_objectMaterials[2]? with
    | none =>
      rw [hm] at h2
      cases h2
    | some m =>
      rw [hm] at h2
      exact ⟨m, List.getElem?_mem hm, Option.some.inj h2⟩
  ⟨rfl, hex,
    SetShaderMaterial_sets_first_match exampleShaderScene ShaderManager.empty rfl "glass"
      blankMaterial hex,
    ⟨_, rfl, by rfl⟩⟩

/-- C24 as stated fails on the call trace of `RenderScene`: not every draw call
has, since the previous draw call, a `SetTransformations` call followed by an
appearance setter.  The fourth draw (the top of the cheese wheel) comes after
`SetShaderTexture` and `SetTextureUVScale` only, and the eighth (the main part of
the wine bottle) after `SetTransformations` only. -/
theorem RenderScene_draws_reuse_state :
    (¬ ∀ stretch ∈ drawStretches ((RenderScene : List (RenderCall ℚ)).map RenderCall.kind),
      transformThenAppearance stretch = true) ∧
    (drawStretches ((RenderScene : List (RenderCall ℚ)).map RenderCall.kind))[3]? =
      some [CallKind.SetShaderTexture, CallKind.SetTextureUVScale] ∧
    (drawStretches ((RenderScene : List (RenderCall ℚ)).map RenderCall.kind))[7]? =
      some [CallKind.SetTransformations] := by
  refine ⟨by decide, by rfl, by rfl⟩

/-- C24, amended: in the call trace of `RenderScene` there are 34 draw calls.
Every one of them except the 4th and the 8th to 12th (indices 3 and 7 to 11) is
preceded, since the previous draw call (or the start of `RenderScene`), by a
`SetTransformations` call and then by an appearance setter (`SetShaderColor` or
`SetShaderTexture`), with no `SetTransformations` call after the appearance
setter.  The 4th draw is preceded since the 3rd by `SetShaderTexture` and
`SetTextureUVScale` only; each of the 8th to 12th is preceded since the previous
draw by one `SetTransformations` call only. -/
theorem RenderScene_transform_appearance_draw [Field F] :
    (drawStretches ((RenderScene : List (RenderCall F)).map RenderCall.kind)).length = 34 ∧
    (∀ i, i < 34 → i ∉ [3, 7, 8, 9, 10, 11] →
      ∃ stretch,
        (drawStretches ((RenderScene : List (RenderCall F)).map RenderCall.kind))[i]? =
          some stretch ∧
        transformThenAppearance stretch = true ∧ noTransformAfterAppearance stretch = true) ∧
    (drawStretches ((RenderScene : List (RenderCall F)).map RenderCall.kind))[3]? =
      some [CallKind.SetShaderTexture, CallKind.SetTextureUVScale] ∧
    (∀ i ∈ [7, 8, 9, 10, 11],
      (drawStretches ((RenderScene : List (RenderCall F)).map RenderCall.kind))[i]? =
        some [CallKind.SetTransformations]) := by
  rw [RenderScene_kinds]
  refine ⟨by rfl, ?_, by rfl, by decide⟩
  have h : ∀ i, i < 34 → i ∉ [3, 7, 8, 9, 10, 11] →
      ((drawStretches ((RenderScene : List (RenderCall ℚ)).map RenderCall.kind))[i]?.map
        (fun stretch => transformThenAppearance stretch && noTransformAfterAppearance stretch)) =
        some true := by
    decide
  intro i hi hnot
  have hi2 := h i hi hnot
  cases hs : (drawStretches ((RenderScene : List (RenderCall ℚ)).map RenderCall.kind))[i]? with
  | none =>
    rw [hs] at hi2
    cases hi2
  | some stretch =>
    rw [hs] at hi2
    have hb : (transformThenAppearance stretch && noTransformAfterAppearance stretch) = true :=
      Option.some.inj hi2
    rw [Bool.and_eq_true] at hb
    exact ⟨stretch, rfl, hb.1, hb.2⟩

/-- Witness for C24 on the first and on the fifth draw call of `RenderScene`
(the table and the bread loaf), which are not among the six exceptions. -/
theorem RenderScene_transform_appearance_draw_witness :
    (0 < 34 ∧ 0 ∉ [3, 7, 8, 9, 10, 11] ∧
      ∃ stretch,
        (drawStretches ((RenderScene : List (RenderCall ℚ)).map RenderCall.kind))[0]? =
          some stretch ∧
        transformThenAppearance stretch = true ∧ noTransformAfterAppearance stretch = true) ∧
    (4 < 34 ∧ 4 ∉ [3, 7, 8, 9, 10, 11] ∧
      ∃ stretch,
        (drawStretches ((RenderScene : List (RenderCall ℚ)).map RenderCall.kind))[4]? =
          some stretch ∧
        transformThenAppearance stretch = true ∧ noTransformAfterAppearance stretch = true) :=
  ⟨⟨by decide, by decide,
      (RenderScene_transform_appearance_draw (F := ℚ)).2.1 0 (by decide) (by decide)⟩,
    ⟨by decide, by decide,
      (RenderScene_transform_appearance_draw (F := ℚ)).2.1 4 (by decide) (by decide)⟩⟩

/-- C25: frame of each setter, with a shader manager present and the live
count within the table.  Each returns, leaves the texture and the material
registry as they were, and on the uniforms: `SetTransformations` changes only
`model`; `SetTextureUVScale(u, v)` changes only `UVscale`, which it sets to
`(u, v)`; `SetShaderColor` changes only `bUseTexture` and `objectColor`;
`SetShaderTexture` changes only `bUseTexture` and `objectTexture`;
`SetShaderMaterial` changes at most `material.diffuseColor`,
`material.specularColor` and `material.shininess`. -/
theorem setter_frames [Field F] (s : SceneManager F) (sm : ShaderManager F)
    (hsm : s.m_pShaderManager = some sm) (hcap : s.m_loadedTextures ≤ 16) :
    (∀ (fm : FloatMath F) (scaleXYZ : vec3 F) (x y z : F) (positionXYZ : vec3 F),
      s.sameRegistry (s.SetTransformations fm scaleXYZ x y z positionXYZ) ∧
      ∀ name : String, name ≠ "model" →
        (s.SetTransformations fm scaleXYZ x y z positionXYZ).uniform name = s.uniform name) ∧
    (∀ (u v : F),
      s.sameRegistry (s.SetTextureUVScale u v) ∧
      (s.SetTextureUVScale u v).uniform "UVscale" =
        some (UniformValue.vec2Value { x := u, y := v }) ∧
      ∀ name : String, name ≠ "UVscale" →
        (s.SetTextureUVScale u v).uniform name = s.uniform name) ∧
    (∀ (r g b a : F),
      s.sameRegistry (s.SetShaderColor r g b a) ∧
      ∀ name : String, name ≠ "bUseTexture" → name ≠ "objectColor" →
        (s.SetShaderColor r g b a).uniform name = s.uniform name) ∧
    (∀ (tag : String), ∃ s2, s.SetShaderTexture tag = Except.ok s2 ∧
      s.sameRegistry s2 ∧
      ∀ name : String, name ≠ "bUseTexture" → name ≠ "objectTexture" →
        s2.uniform name = s.uniform name) ∧
    (∀ (tag : String) (material : OBJECT_MATERIAL F),
      ∃ s2, s.SetShaderMaterial tag material = Except.ok s2 ∧
        s.sameRegistry s2 ∧
        ∀ name : String, name ≠ "material.diffuseColor" →
          name ≠ "material.specularColor" → name ≠ "material.shininess" →
          s2.uniform name = s.uniform name) := by
  refine ⟨?_, ?_, ?_, ?_, ?_⟩
  · intro fm scaleXYZ x y z positionXYZ
    rw [SetTransformations_of_some s sm hsm]
    refine ⟨⟨rfl, rfl, rfl⟩, ?_⟩
    intro name hn
    rw [uniform_of_some _ _ rfl, uniform_of_some s sm hsm, uniforms_setUniform,
      if_neg (show ¬ name = g_ModelName from hn)]
  · intro u v
    rw [SetTextureUVScale_of_some s sm hsm]
    refine ⟨⟨rfl, rfl, rfl⟩, ?_, ?_⟩
    · rw [uniform_of_some _ _ rfl, uniforms_setUniform, if_pos rfl]
    · intro name hn
      rw [uniform_of_some _ _ rfl, uniform_of_some s sm hsm, uniforms_setUniform, if_neg hn]
  · intro r g b a
    rw [SetShaderColor_of_some s sm hsm]
    refine ⟨⟨rfl, rfl, rfl⟩, ?_⟩
    intro name h1 h2
    rw [uniform_of_some _ _ rfl, uniform_of_some s sm hsm, uniforms_setUniform,
      uniforms_setUniform, if_neg (show ¬ name = g_ColorValueName from h2),
      if_neg (show ¬ name = g_UseTextureName from h1)]
  · intro tag
    obtain ⟨i, hi⟩ := FindTextureSlot_total s tag hcap
    refine ⟨_, SetShaderTexture_of_some s sm hsm tag i hi, ⟨rfl, rfl, rfl⟩, ?_⟩
    intro name h1 h2
    rw [uniform_of_some _ _ rfl, uniform_of_some s sm hsm, uniforms_setUniform,
      uniforms_setUniform, if_neg (show ¬ name = g_TextureValueName from h2),
      if_neg (show ¬ name = g_UseTextureName from h1)]
  · intro tag material
    obtain ⟨sm2, h1, h2⟩ := SetShaderMaterial_shape s sm hsm tag material
    refine ⟨_, h1, ⟨rfl, rfl, rfl⟩, ?_⟩
    intro name n1 n2 n3
    rw [uniform_of_some _ _ rfl, uniform_of_some s sm hsm]
    exact h2 name n1 n2 n3

/-- Witness for C25 on the example state: `SetTextureUVScale(5, 1)` sets
`UVscale` to (5, 1) and leaves `objectTexture` and the registries alone. -/
theorem setter_frames_witness :
    exampleShaderScene.m_pShaderManager = some ShaderManager.empty ∧
    exampleShaderScene.m_loadedTextures ≤ 16 ∧
    exampleShaderScene.sameRegistry (exampleShaderScene.SetTextureUVScale 5 1) ∧
    (exampleShaderScene.SetTextureUVScale 5 1).uniform "UVscale" =
      some (UniformValue.vec2Value ({ x := 5, y := 1 } : vec2 ℚ)) ∧
    (exampleShaderScene.SetTextureUVScale 5 1).uniform "objectTexture" =
      exampleShaderScene.uniform "objectTexture" :=
  have h := (setter_frames exampleShaderScene ShaderManager.empty rfl (by decide)).2.1 5 1
  ⟨rfl, by decide, h.1, h.2.1, h.2.2 "objectTexture" (by decide)⟩

/-- C26: the nine tags registered by `LoadSceneTextures` are pairwise distinct,
so are the nine tags registered by `DefineObjectMaterials`, and every tag that
`RenderScene` passes to `SetShaderTexture` or `SetShaderMaterial` is among them.
Hence, from a fresh `SceneManager` with a shader manager and with all nine loads
decoding to 3 or 4 channels, `PrepareScene` returns, the calls of `RenderScene`
run to the end, every `SetShaderTexture` call among them pushes the slot index of
its tag, which lies in 0..8, and every `SetShaderMaterial` call finds a material
of its tag and pushes its values. -/
theorem RenderScene_tags_registered [Field F] (sm : ShaderManager F) (fm : FloatMath F)
    (material : OBJECT_MATERIAL F) (stbi_load : String → Option Image)
    (glGenTextures : Nat → Nat)
    (hloads : ∀ c ∈ LoadSceneTextures.loads stbi_load glGenTextures,
      ∃ img, c.image = some img ∧ (img.colorChannels = 3 ∨ img.colorChannels = 4)) :
    (LoadSceneTextures.loads stbi_load glGenTextures).length = 9 ∧
    ((LoadSceneTextures.loads stbi_load glGenTextures).map LoadCall.tag).Nodup ∧
    (DefineObjectMaterials (construct (some sm))).m_objectMaterials.length = 9 ∧
    ((DefineObjectMaterials (construct (some sm))).m_objectMaterials.map
      OBJECT_MATERIAL.tag).Nodup ∧
    (∀ tag ∈ (RenderScene : List (RenderCall F)).filterMap RenderCall.textureTag?,
      tag ∈ (LoadSceneTextures.loads stbi_load glGenTextures).map LoadCall.tag) ∧
    (∀ tag ∈ (RenderScene : List (RenderCall F)).filterMap RenderCall.materialTag?,
      tag ∈ (DefineObjectMaterials (construct (some sm))).m_objectMaterials.map
        OBJECT_MATERIAL.tag) ∧
    ∃ s1, (construct (some sm)).PrepareScene fm stbi_load glGenTextures = Except.ok s1 ∧
      s1.m_loadedTextures = 9 ∧
      s1.m_objectMaterials = (DefineObjectMaterials (construct (some sm))).m_objectMaterials ∧
      (∃ s9, performAll fm material s1 RenderScene = Except.ok s9) ∧
      (∀ before tag later, RenderScene = before ++ RenderCall.SetShaderTexture tag :: later →
        ∃ s2 s3 i, performAll fm material s1 before = Except.ok s2 ∧
          s2.FindTextureSlot tag = Except.ok i ∧ 0 ≤ i ∧ i ≤ 8 ∧
          s2.SetShaderTexture tag = Except.ok s3 ∧
          s3.uniform "objectTexture" = some (UniformValue.sampler2DValue i)) ∧
      (∀ before tag later, RenderScene = before ++ RenderCall.SetShaderMaterial tag :: later →
        ∃ s2 s3 m, performAll fm material s1 before = Except.ok s2 ∧
          m ∈ s2.m_objectMaterials ∧ m.tag = tag ∧
          s2.FindMaterial tag material = Except.ok (true, { material with
            diffuseColor := m.diffuseColor
            specularColor := m.specularColor
            shininess := m.shininess }) ∧
          s2.SetShaderMaterial tag material = Except.ok s3 ∧
          s3.uniform "material.diffuseColor" = some (UniformValue.vec3Value m.diffuseColor) ∧
          s3.uniform "material.specularColor" =
            some (UniformValue.vec3Value m.specularColor) ∧
          s3.uniform "material.shininess" = some (UniformValue.floatValue m.shininess)) := by
  have hltags : (LoadSceneTextures.loads stbi_load glGenTextures).map LoadCall.tag =
      ["table", "cheese_wheel_side", "cheese_wheel_top", "breadcrust", "backdrop",
        "knifehandle", "stainless", "cheddar", "knifescrew"] := rfl
  have hmtags : (DefineObjectMaterials (construct (some sm))).m_objectMaterials.map
      OBJECT_MATERIAL.tag =
      ["metal", "wood", "glass", "plate", "cheese", "bread", "darkbread", "backdrop",
        "grape"] := rfl
  have hlnodup : ((LoadSceneTextures.loads stbi_load glGenTextures).map LoadCall.tag).Nodup := by
    rw [hltags]
    decide
  have hmnodup : ((DefineObjectMaterials (construct (some sm))).m_objectMaterials.map
      OBJECT_MATERIAL.tag).Nodup := by
    rw [hmtags]
    decide
  have htex : ∀ tag ∈ (RenderScene : List (RenderCall F)).filterMap RenderCall.textureTag?,
      tag ∈ (LoadSceneTextures.loads stbi_load glGenTextures).map LoadCall.tag := by
    rw [RenderScene_textureTags, hltags]
    decide
  have hmat : ∀ tag ∈ (RenderScene : List (RenderCall F)).filterMap RenderCall.materialTag?,
      tag ∈ (DefineObjectMaterials (construct (some sm))).m_objectMaterials.map
        OBJECT_MATERIAL.tag := by
    rw [RenderScene_materialTags, hmtags]
    decide
  obtain ⟨s1, sm1, hprep, hsm1, hn1, ht1, hm1⟩ :=
    PrepareScene_of_fresh sm fm stbi_load glGenTextures
  obtain ⟨_, hcount, _, _⟩ := runLoads_of_usable
    (LoadSceneTextures.loads stbi_load glGenTextures) (construct (some sm))
    (le_refl _) (show (0 : Int) + ((9 : Nat) : Int) ≤ 16 by decide) hloads
  have hnine : s1.m_loadedTextures = 9 := by
    rw [hn1, hcount]
    rfl
  have hcap : s1.m_loadedTextures ≤ 16 := by
    rw [hnine]
    decide
  refine ⟨rfl, hlnodup, rfl, hmnodup, htex, hmat, s1, hprep, hnine, hm1, ?_, ?_, ?_⟩
  · obtain ⟨s9, _, h9, _⟩ := performAll_keeps fm material RenderScene s1 sm1 hsm1 hcap
    exact ⟨s9, h9⟩
  · intro before tag later hsplit
    obtain ⟨s2, sm2, hrun, hsm2, hn2, ht2, _⟩ :=
      performAll_keeps fm material before s1 sm1 hsm1 hcap
    have hmem := htex tag (textureTag_mem_of_split _ before later tag hsplit)
    obtain ⟨k, hk, hkt⟩ := List.getElem_of_mem hmem
    have hk9 : k < (LoadSceneTextures.loads stbi_load glGenTextures).length := by
      simpa using hk
    have hfind := FindTextureSlot_of_loads (LoadSceneTextures.loads stbi_load glGenTextures)
      (construct (some sm)) rfl (show (9 : Nat) ≤ 16 by decide) hloads hlnodup s2 (hn2.trans hn1)
      (ht2.trans ht1) k hk9
    have htag : (LoadSceneTextures.loads stbi_load glGenTextures)[k].tag = tag := by
      simpa using hkt
    rw [htag] at hfind
    have hk8 : k ≤ 8 := by
      have : (LoadSceneTextures.loads stbi_load glGenTextures).length = 9 := rfl
      omega
    refine ⟨s2, _, (k : Int), hrun, hfind, by omega, by omega,
      SetShaderTexture_of_some s2 sm2 hsm2 tag k hfind, ?_⟩
    rw [uniform_of_some _ _ rfl, uniforms_setUniform]
    exact if_pos rfl
  · intro before tag later hsplit
    obtain ⟨s2, sm2, hrun, hsm2, _, _, hm2⟩ :=
      performAll_keeps fm material before s1 sm1 hsm1 hcap
    have hmem := hmat tag (materialTag_mem_of_split _ before later tag hsplit)
    rw [← hm1, ← hm2] at hmem
    obtain ⟨k, m, hk, hmt, hfirst⟩ := exists_first_tag tag s2.m_objectMaterials
      (by simpa using hmem)
    obtain ⟨s3, h3, u1, u2, u3⟩ :=
      SetShaderMaterial_of_first s2 sm2 hsm2 tag material k m hk hmt hfirst
    exact ⟨s2, s3, m, hrun, List.getElem?_mem hk, hmt,
      FindMaterial_of_first s2 tag material k m hk hmt hfirst, h3, u1, u2, u3⟩

/-- Witness for C26 over the real numbers, with a codec that decodes every
file to a 3-channel image and texture names 1, 2, 3, ... -/
theorem RenderScene_tags_registered_witness :
    (∀ c ∈ LoadSceneTextures.loads (fun _ => some exampleRGB) (fun k => k + 1),
      ∃ img, c.image = some img ∧ (img.colorChannels = 3 ∨ img.colorChannels = 4)) ∧
    ∃ s1 : SceneManager ℝ,
      (construct (some ShaderManager.empty)).PrepareScene
        { cos := Real.cos, sin := Real.sin, pi := Real.pi }
        (fun _ => some exampleRGB) (fun k => k + 1) = Except.ok s1 ∧
      s1.m_loadedTextures = 9 ∧
      ∃ s9, performAll { cos := Real.cos, sin := Real.sin, pi := Real.pi }
        { diffuseColor := { x := 0, y := 0, z := 0 },
          specularColor := { x := 0, y := 0, z := 0 }, shininess := 0, tag := "" }
        s1 RenderScene = Except.ok s9 :=
  have hloads : ∀ c ∈ LoadSceneTextures.loads (fun _ => some exampleRGB) (fun k => k + 1),
      ∃ img, c.image = some img ∧ (img.colorChannels = 3 ∨ img.colorChannels = 4) := by
    intro c hc
    simp only [LoadSceneTextures.loads, List.mem_cons, List.mem_singleton, List.not_mem_nil,
      or_false] at hc
    rcases hc with rfl | rfl | rfl | rfl | rfl | rfl | rfl | rfl | rfl <;>
      exact ⟨exampleRGB, rfl, Or.inl rfl⟩
  have h := RenderScene_tags_registered (ShaderManager.empty : ShaderManager ℝ)
    { cos := Real.cos, sin := Real.sin, pi := Real.pi }
    { diffuseColor := { x := 0, y := 0, z := 0 },
      specularColor := { x := 0, y := 0, z := 0 }, shininess := 0, tag := "" }
    (fun _ => some exampleRGB) (fun k => k + 1) hloads
  have ⟨s1, h1, h2, _, h4, _⟩ := h.2.2.2.2.2.2
  ⟨hloads, s1, h1, h2, h4⟩

/-- C27: from a freshly constructed `SceneManager`, whatever the codec answers
for each of the nine files and whatever names are generated,
`LoadSceneTextures()` returns; the live count it leaves is the number of loads
that returned `true`, at most 9 and so within the table of 16; no slot write
falls outside the table; and `BindGLTextures()` runs once, after the nine loads:
the call stream is that of the loads, in which no texture unit is selected,
followed by one select-and-bind pass over the live slots.  Every combination
of return values of the nine loads occurs for some behaviour of the codec. -/
theorem LoadSceneTextures_counts_loaded (pShaderManager : Option (ShaderManager F))
    (stbi_load : String → Option Image) (glGenTextures : Nat → Nat) :
    ∃ s2, (construct pShaderManager).LoadSceneTextures stbi_load glGenTextures = Except.ok s2 ∧
      (runLoads (construct pShaderManager)
        (LoadSceneTextures.loads stbi_load glGenTextures)).1.length = 9 ∧
      s2.m_loadedTextures = (((runLoads (construct pShaderManager)
        (LoadSceneTextures.loads stbi_load glGenTextures)).1.count true : Nat) : Int) ∧
      0 ≤ s2.m_loadedTextures ∧ s2.m_loadedTextures ≤ 9 ∧ s2.m_loadedTextures ≤ 16 ∧
      s2.overrun = [] ∧
      (construct pShaderManager).LoadSceneTextures stbi_load glGenTextures =
        (runLoads (construct pShaderManager)
          (LoadSceneTextures.loads stbi_load glGenTextures)).2.BindGLTextures ∧
      (∀ u, GLCall.glActiveTexture u ∉ (runLoads (construct pShaderManager)
        (LoadSceneTextures.loads stbi_load glGenTextures)).2.gl) ∧
      s2.gl = (runLoads (construct pShaderManager)
          (LoadSceneTextures.loads stbi_load glGenTextures)).2.gl ++
        bindCalls 0 (s2.m_textureIDs.take s2.m_loadedTextures.toNat) ∧
      ∀ outcomes : List Bool, outcomes.length = 9 →
        ∃ codec : String → Option Image, (runLoads (construct pShaderManager)
          (LoadSceneTextures.loads codec glGenTextures)).1 = outcomes := by
  obtain ⟨h1, h2, h3, h4⟩ := runLoads_counts (LoadSceneTextures.loads stbi_load glGenTextures)
    (construct pShaderManager) (le_refl _)
    (show (0 : Int) + ((9 : Nat) : Int) ≤ 16 by decide)
  have hlen : (LoadSceneTextures.loads stbi_load glGenTextures).length = 9 := rfl
  rw [hlen] at h1
  have hcount : (runLoads (construct pShaderManager)
      (LoadSceneTextures.loads stbi_load glGenTextures)).1.count true ≤ 9 := by
    rw [← h1]
    exact List.count_le_length _ _
  have hzero : (construct pShaderManager).m_loadedTextures = 0 := rfl
  rw [hzero, zero_add] at h2
  have hcap : (runLoads (construct pShaderManager)
      (LoadSceneTextures.loads stbi_load glGenTextures)).2.m_loadedTextures ≤ 16 := by
    rw [h2]
    omega
  refine ⟨_, BindGLTextures_of_cap _ hcap, h1, h2, ?_, ?_, ?_, h3, rfl, ?_, rfl,
    LoadSceneTextures_outcomes_cover _ glGenTextures⟩
  · show 0 ≤ (runLoads (construct pShaderManager)
      (LoadSceneTextures.loads stbi_load glGenTextures)).2.m_loadedTextures
    rw [h2]
    omega
  · show (runLoads (construct pShaderManager)
      (LoadSceneTextures.loads stbi_load glGenTextures)).2.m_loadedTextures ≤ 9
    rw [h2]
    omega
  · exact hcap
  · intro u hu
    have := h4 u hu
    simp [construct] at this

/-- Witness for C27: the file of the backdrop does not decode, the other eight
decode to 3 channels; the live count is 8 and no write leaves the table. -/
theorem LoadSceneTextures_counts_loaded_witness :
    ∃ s2 : SceneManager ℚ,
      (construct none).LoadSceneTextures exampleCodec (fun k => k + 1) = Except.ok s2 ∧
      s2.m_loadedTextures = 8 ∧ s2.overrun = [] :=
  have ⟨s2, h1, _, h3, _, _, _, h7, _⟩ :=
    LoadSceneTextures_counts_loaded (none : Option (ShaderManager ℚ)) exampleCodec
      (fun k => k + 1)
  ⟨s2, h1, h3.trans (by rfl), h7⟩

/-- C28: with a shader manager present and a math library whose `cos 0` is 1
and `sin 0` is 0, when all three angles are zero the matrix stored in `model` is
`T * S`: diagonal `(sx, sy, sz, 1)`, last column `(tx, ty, tz, 1)`, zero
elsewhere; with scale (1, 1, 1) and translation (0, 0, 0) as well it is the
identity matrix. -/
theorem SetTransformations_zero_rotation [Field F] (s : SceneManager F)
    (sm : ShaderManager F) (hsm : s.m_pShaderManager = some sm) (fm : FloatMath F)
    (hcos : fm.cos 0 = 1) (hsin : fm.sin 0 = 0) (scaleXYZ positionXYZ : vec3 F) :
    (s.SetTransformations fm scaleXYZ 0 0 0 positionXYZ).uniform "model" =
      some (UniformValue.mat4Value (glm.translate positionXYZ * glm.scale scaleXYZ)) ∧
    glm.translate positionXYZ * glm.scale scaleXYZ =
      !![scaleXYZ.x, 0, 0, positionXYZ.x;
         0, scaleXYZ.y, 0, positionXYZ.y;
         0, 0, scaleXYZ.z, positionXYZ.z;
         0, 0, 0, 1] ∧
    (s.SetTransformations fm { x := 1, y := 1, z := 1 } 0 0 0
        { x := 0, y := 0, z := 0 }).uniform "model" =
      some (UniformValue.mat4Value 1) := by
  refine ⟨model_of_zero_rotation s sm hsm fm hcos hsin _ _, translate_mul_scale _ _, ?_⟩
  rw [model_of_zero_rotation s sm hsm fm hcos hsin, translate_mul_scale]
  congr 2
  ext i j
  fin_cases i <;> fin_cases j <;> simp [Matrix.vecHead, Matrix.vecTail]

/-- Witness for C28 over the real numbers with the real cosine and sine, at
the scale and the translation of the cheese wheel. -/
theorem SetTransformations_zero_rotation_witness :
    (construct (some ShaderManager.empty) : SceneManager ℝ).m_pShaderManager =
      some ShaderManager.empty ∧
    Real.cos 0 = 1 ∧ Real.sin 0 = 0 ∧
    ((construct (some ShaderManager.empty) : SceneManager ℝ).SetTransformations
        { cos := Real.cos, sin := Real.sin, pi := Real.pi }
        { x := 1.5, y := 1.2, z := 1.5 } 0 0 0 { x := -2.0, y := 0.5, z := 0.0 }).uniform
        "model" =
      some (UniformValue.mat4Value
        (glm.translate ({ x := -2.0, y := 0.5, z := 0.0 } : vec3 ℝ) *
          glm.scale ({ x := 1.5, y := 1.2, z := 1.5 } : vec3 ℝ))) ∧
    ((construct (some ShaderManager.empty) : SceneManager ℝ).SetTransformations
        { cos := Real.cos, sin := Real.sin, pi := Real.pi }
        { x := 1, y := 1, z := 1 } 0 0 0 { x := 0, y := 0, z := 0 }).uniform "model" =
      some (UniformValue.mat4Value 1) :=
  have h := SetTransformations_zero_rotation
    (construct (some ShaderManager.empty) : SceneManager ℝ) ShaderManager.empty rfl
    { cos := Real.cos, sin := Real.sin, pi := Real.pi } Real.cos_zero Real.sin_zero
    { x := 1.5, y := 1.2, z := 1.5 } { x := -2.0, y := 0.5, z := 0.0 }
  ⟨rfl, Real.cos_zero, Real.sin_zero, h.1, h.2.2⟩

end SceneManager

end CS330
